import Mathlib

/-!
# MelodyVerse: authentication core and login form

Two parts are embedded here.

* The backend authentication core (signup, login, forgot-password,
  reset-password over a user store).  The Express routes and the Mongoose
  model are exercised by `middleware/tests/auth.test.js`, but their source
  (`server`, `models/User`, the auth routes) is not among the source files,
  so every backend definition below is modelled from the written
  specification and says so in its doc comment.
* The React pages `frontend/src/pages/Login.js`, `ResetPassword.js` and
  `Home.js`, embedded from their source.

Requests are pure functions from a store to a response and a new store.  The
clock, the salt, the store-assigned identifier and the random reset secret
are explicit inputs of a request (`Env`).

A handler of a page is a function from the state of the component to its new
state and the list of its effects on the browser, in order.  An `async`
handler is split at its `await`: the part before it, the change events
handled while the request is pending, and the part after the promise has
settled, which still sees the `formData` of the render that submitted.
-/

set_option autoImplicit false

namespace MelodyVerse

/-! ## Part I: definitions

### Backend: data model -/

/-- Modelled from the spec: the `User` record of the user store (the Mongoose
model `models/User` is not among the sources).  Fields as in the data model:
store-assigned identifier, unique username, unique lower-case email,
password hash, nullable reset-token hash and nullable reset-token expiry. -/
structure User where
  id : String
  username : String
  email : String
  passwordHash : String
  resetTokenHash : Option String
  resetTokenExpiry : Option Nat
  deriving DecidableEq, Repr

/-- Modelled from the spec: the persistent user store, the records in the
order in which they were created. -/
abbrev Store := List User

/-- Modelled from the spec: the order in which login tries the two stored
fields.  The spec leaves it to the implementer which of username and email
is tried first, as long as both are checked; `storeOrder` is the single
query that takes the first record matching either field. -/
inductive LookupOrder where
  | usernameFirst
  | emailFirst
  | storeOrder
  deriving DecidableEq, Repr

/-- Modelled from the spec: what the spec names without fixing it.  The
email-address grammar, the salted one-way password hash and its verification
path, the reset-token hash, the session-token minting function (from user
identifier and issuance time), the lifetime of a reset token, the login
lookup order, and the wording of the two messages the spec does not quote
(validation failure, listing the failed fields, and unknown email). -/
structure Backend where
  isEmail : String → Bool
  hashPassword : Nat → String → String
  verifyPassword : String → String → Bool
  hashToken : String → String
  mintSession : String → Nat → String
  resetTtl : Nat
  lookupOrder : LookupOrder
  validationMessage : List String → String
  notFoundMessage : String

/-- Modelled from the spec: the inputs of one request that do not come from
the client: the clock, the salt drawn for a password hash, the identifier
the store assigns to a new record, and the random reset secret. -/
structure Env where
  now : Nat
  salt : Nat
  newId : String
  secret : String
  deriving DecidableEq, Repr

/-- Modelled from the spec: the JSON body and status of a response.  Every
body has `success`; failures carry `message`; signup and login carry `token`
and the `user` object (a list of named fields); forgot-password carries
`resetToken`. -/
structure Response where
  status : Nat
  success : Bool
  message : Option String
  token : Option String
  user : Option (List (String × String))
  resetToken : Option String
  deriving DecidableEq, Repr

/-- Modelled from the spec: a failure body, `success` false and a message. -/
def failure (status : Nat) (message : String) : Response :=
  { status := status, success := false, message := some message,
    token := none, user := none, resetToken := none }

/-- Modelled from the spec: the `user` object of a signup or login response,
`{id, username, email}`, built from these three values only. -/
def publicUser (id username email : String) : List (String × String) :=
  [("id", id), ("username", username), ("email", email)]

/-- Modelled from the spec: the success body of signup (201) and login (200):
the session token and the user object with the password omitted. -/
def authSuccess (status : Nat) (token id username email : String) : Response :=
  { status := status, success := true, message := none,
    token := some token, user := some (publicUser id username email),
    resetToken := none }

/-- Modelled from the spec: the value of a named field of a JSON object,
`none` when the object has no such field. -/
def field (obj : List (String × String)) (key : String) : Option String :=
  (obj.find? (fun kv => kv.1 = key)).map Prod.snd

/-- Modelled from the spec: emails are stored normalised to lower case. -/
def normalizeEmail (e : String) : String :=
  String.mk (e.data.map Char.toLower)

/-- Modelled from the spec: the store update of one found record: the first
record satisfying `p` is replaced by its image under `f`. -/
def updateFirst (p : User → Bool) (f : User → User) : Store → Store
  | [] => []
  | u :: us => if p u then f u :: us else u :: updateFirst p f us

/-! ### Backend: credential service -/

/-- Modelled from the spec: the fields of a signup request. -/
structure SignupInput where
  username : String
  email : String
  password : String
  deriving DecidableEq, Repr

/-- Modelled from the spec: signup validation, the list of failed fields:
username non-empty, email matching the address grammar, password length at
least 6. -/
def signupInvalid (B : Backend) (i : SignupInput) : List String :=
  (if i.username = "" then ["username"] else []) ++
  (if B.isEmail i.email then [] else ["email"]) ++
  (if i.password.length < 6 then ["password"] else [])

/-- Modelled from the spec: `signup`.  Validation (400, no store mutation),
then the uniqueness check, email before username, then creation of the
record with the hashed password and a 201 response with session token and
user object. -/
def signup (B : Backend) (env : Env) (s : Store) (i : SignupInput) : Response × Store :=
  if signupInvalid B i ≠ [] then
    (failure 400 (B.validationMessage (signupInvalid B i)), s)
  else if s.any (fun u => u.email = normalizeEmail i.email) then
    (failure 400 "Email already registered", s)
  else if s.any (fun u => u.username = i.username) then
    (failure 400 "Username already taken", s)
  else
    let u : User :=
      { id := env.newId, username := i.username, email := normalizeEmail i.email,
        passwordHash := B.hashPassword env.salt i.password,
        resetTokenHash := none, resetTokenExpiry := none }
    (authSuccess 201 (B.mintSession u.id env.now) u.id u.username u.email, s ++ [u])

/-- Modelled from the spec: the login lookup, matching the identifier against
stored usernames and stored emails in the configured order. -/
def findByLogin (o : LookupOrder) (s : Store) (login : String) : Option User :=
  match o with
  | .usernameFirst =>
    match s.find? (fun u => u.username = login) with
    | some u => some u
    | none => s.find? (fun u => u.email = login)
  | .emailFirst =>
    match s.find? (fun u => u.email = login) with
    | some u => some u
    | none => s.find? (fun u => u.username = login)
  | .storeOrder => s.find? (fun u => u.username = login ∨ u.email = login)

/-- Modelled from the spec: login validation, the list of empty fields. -/
def loginInvalid (login password : String) : List String :=
  (if login = "" then ["login"] else []) ++
  (if password = "" then ["password"] else [])

/-- Modelled from the spec: `login`.  Both fields non-empty (400 otherwise);
no matching record or a password that does not verify against the stored
hash both give 401 "Invalid credentials"; success gives 200 with a session
token and the user object.  The store is never changed. -/
def login (B : Backend) (env : Env) (s : Store) (ident password : String) :
    Response × Store :=
  if loginInvalid ident password ≠ [] then
    (failure 400 (B.validationMessage (loginInvalid ident password)), s)
  else
    match findByLogin B.lookupOrder s ident with
    | none => (failure 401 "Invalid credentials", s)
    | some u =>
      if B.verifyPassword password u.passwordHash then
        (authSuccess 200 (B.mintSession u.id env.now) u.id u.username u.email, s)
      else
        (failure 401 "Invalid credentials", s)

/-! ### Backend: password reset service -/

/-- Modelled from the spec: a record whose stored reset-token hash equals `h`
and whose expiry has not passed at time `now`. -/
def liveToken (h : String) (now : Nat) (u : User) : Bool :=
  decide (u.resetTokenHash = some h) &&
    (match u.resetTokenExpiry with
     | some t => decide (now < t)
     | none => false)

/-- Modelled from the spec: `requestReset` (forgot-password).  The email must
match the address grammar (400); an unknown email gives 404; otherwise the
hash of the fresh secret and its expiry overwrite the reset fields of the
record and the plaintext secret is returned. -/
def requestReset (B : Backend) (env : Env) (s : Store) (email : String) :
    Response × Store :=
  if B.isEmail email = false then
    (failure 400 (B.validationMessage ["email"]), s)
  else
    match s.find? (fun u => u.email = normalizeEmail email) with
    | none => (failure 404 B.notFoundMessage, s)
    | some _ =>
      ({ status := 200, success := true, message := none, token := none,
         user := none, resetToken := some env.secret },
       updateFirst (fun u => u.email = normalizeEmail email)
         (fun u => { u with resetTokenHash := some (B.hashToken env.secret),
                            resetTokenExpiry := some (env.now + B.resetTtl) }) s)

/-- Modelled from the spec: `resetPassword`.  The new password must have
length at least 6 (400); then the hash of the supplied token is looked up
among the records with an unexpired reset token (400 "Invalid or expired
token" when none matches); on success the password hash is replaced and both
reset fields are cleared in the same update. -/
def resetPassword (B : Backend) (env : Env) (s : Store) (token password : String) :
    Response × Store :=
  if password.length < 6 then
    (failure 400 (B.validationMessage ["password"]), s)
  else
    match s.find? (liveToken (B.hashToken token) env.now) with
    | none => (failure 400 "Invalid or expired token", s)
    | some _ =>
      ({ status := 200, success := true, message := none, token := none,
         user := none, resetToken := none },
       updateFirst (liveToken (B.hashToken token) env.now)
         (fun u => { u with passwordHash := B.hashPassword env.salt password,
                            resetTokenHash := none, resetTokenExpiry := none }) s)

/-! ### Backend: request traces -/

/-- Modelled from the spec: the four requests of the service. -/
inductive Request where
  | signup (i : SignupInput)
  | login (ident password : String)
  | forgotPassword (email : String)
  | resetPassword (token password : String)
  deriving DecidableEq, Repr

/-- Modelled from the spec: one request handled against the store. -/
def handle (B : Backend) (env : Env) (s : Store) : Request → Response × Store
  | .signup i => signup B env s i
  | .login ident password => login B env s ident password
  | .forgotPassword email => requestReset B env s email
  | .resetPassword token password => resetPassword B env s token password

/-- Modelled from the spec: requests are handled one after the other, each
on the store left by the previous one. -/
def run (B : Backend) (s : Store) : List (Env × Request) → Store
  | [] => s
  | er :: rest => run B (handle B er.1 s er.2).2 rest

/-! ### Backend: predicates of the statements -/

/-- Modelled from the spec: the uniqueness invariants of the data model:
usernames are pairwise distinct and emails are pairwise distinct. -/
def WellFormed (s : Store) : Prop :=
  (s.map User.username).Nodup ∧ (s.map User.email).Nodup

instance (s : Store) : Decidable (WellFormed s) := by
  unfold WellFormed
  infer_instance

/-- Modelled from the spec: verification accepts a password against its own
hash, whatever the salt. -/
def PasswordHashSound (B : Backend) : Prop :=
  ∀ (salt : Nat) (p : String), B.verifyPassword p (B.hashPassword salt p) = true

/-- The user object of the response carries id, username and email of the
account `u`, exactly these three fields, and so no password field. -/
def CarriesAccount (r : Response) (u : User) : Prop :=
  ∃ obj, r.user = some obj ∧ obj.map Prod.fst = ["id", "username", "email"] ∧
    field obj "id" = some u.id ∧ field obj "username" = some u.username ∧
    field obj "email" = some u.email ∧ field obj "password" = none

/-- A request that stores the token hash `h`: a forgot-password whose random
secret hashes to `h`. -/
def issues (B : Backend) (h : String) (er : Env × Request) : Bool :=
  match er.2 with
  | .forgotPassword _ => decide (B.hashToken er.1.secret = h)
  | _ => false

/-- The record holds the reset-token hash `h`. -/
def holds (h : String) (u : User) : Bool :=
  decide (u.resetTokenHash = some h)

/-- Every record holding the reset-token hash `h` has the email `x`. -/
def HoldersAt (h x : String) (s : Store) : Prop :=
  ∀ u ∈ s, u.resetTokenHash = some h → u.email = x

/-- The record after forgot-password has issued the secret of `env`. -/
def withResetToken (B : Backend) (env : Env) (u : User) : User :=
  { u with resetTokenHash := some (B.hashToken env.secret),
           resetTokenExpiry := some (env.now + B.resetTtl) }

/-- The record after reset-password has consumed its token. -/
def withNewPassword (B : Backend) (env : Env) (password : String) (u : User) : User :=
  { u with passwordHash := B.hashPassword env.salt password,
           resetTokenHash := none, resetTokenExpiry := none }

/-- The token hash that a request draws: the hash of its random secret when
the request is a forgot-password, nothing otherwise. -/
def drawnHash (B : Backend) (er : Env × Request) : Option String :=
  match er.2 with
  | .forgotPassword _ => some (B.hashToken er.1.secret)
  | _ => none

/-- Modelled from the spec: the reset secret is "a cryptographically random
token of sufficient entropy" and a reset token is "bound to exactly one
user", so the secrets drawn in one run of the service are told apart by their
hashes: no two forgot-password requests of the run draw secrets with the
same token hash. -/
def RandomSecrets (B : Backend) (tr : List (Env × Request)) : Prop :=
  (tr.filterMap (drawnHash B)).Nodup

instance (B : Backend) (tr : List (Env × Request)) : Decidable (RandomSecrets B tr) := by
  unfold RandomSecrets
  infer_instance

/-- Modelled from the spec: a run of the service: the requests handled since
the store was empty, in order, each with its clock, salt, new identifier and
reset secret, the reset secrets drawn at random. -/
structure Execution (B : Backend) where
  requests : List (Env × Request)
  random : RandomSecrets B requests

/-- The store that a run of the service has reached. -/
def Execution.store {B : Backend} (x : Execution B) : Store :=
  run B [] x.requests

/-! ### Backend: a concrete instance -/

/-- A small concrete backend on which the model can be evaluated: an address
is a string containing `@`, the password hash is the password behind a fixed
tag, the token hash is the token behind another tag, and the session token
names the user identifier. -/
def demoBackend (o : LookupOrder) : Backend :=
  { isEmail := fun e => decide ('@' ∈ e.data),
    hashPassword := fun _ p => "pw$" ++ p,
    verifyPassword := fun p h => decide (h = "pw$" ++ p),
    hashToken := fun t => "tk$" ++ t,
    mintSession := fun id _ => "session:" ++ id,
    resetTtl := 3600,
    lookupOrder := o,
    validationMessage := fun fields => "Validation failed: " ++ ", ".intercalate fields,
    notFoundMessage := "No account with that email" }

/-- A request environment for the concrete examples. -/
def demoEnv (now : Nat) (newId secret : String) : Env :=
  { now := now, salt := 7, newId := newId, secret := secret }

/-- The store after alice has signed up on the concrete backend. -/
def aliceStore : Store :=
  (signup (demoBackend .storeOrder) (demoEnv 100 "id-1" "")
    [] { username := "alice", email := "a@x.com", password := "secret1" }).2

/-- The store after two signups on the concrete backend: the first account
takes the username "b@x.com", the second account takes the email
"b@x.com". -/
def crossStore : Store :=
  (signup (demoBackend .storeOrder) (demoEnv 200 "id-2" "")
    (signup (demoBackend .storeOrder) (demoEnv 100 "id-1" "")
      [] { username := "b@x.com", email := "a@x.com", password := "aaaaaa" }).2
    { username := "bob", email := "b@x.com", password := "bbbbbb" }).2

/-- The store after two signups with the same password on the concrete
backend: the first account takes the username "b@x.com", the second account
takes the email "b@x.com". -/
def sharedStore : Store :=
  (signup (demoBackend .storeOrder) (demoEnv 200 "id-2" "")
    (signup (demoBackend .storeOrder) (demoEnv 100 "id-1" "")
      [] { username := "b@x.com", email := "a@x.com", password := "secret1" }).2
    { username := "bob", email := "b@x.com", password := "secret1" }).2

/-- The store in which alice holds the unexpired reset token "tok-1". -/
def aliceResetStore : Store :=
  (requestReset (demoBackend .storeOrder) (demoEnv 300 "" "tok-1") aliceStore "a@x.com").2

/-- The store after alice has been issued the reset token "tok-1" and then
the reset token "tok-2". -/
def twoTokenStore : Store :=
  (requestReset (demoBackend .storeOrder) (demoEnv 310 "" "tok-2") aliceResetStore
    "a@x.com").2

/-- A run of the concrete backend: alice signs up, is issued the reset token
"tok-1", bob signs up, alice resets her password with "tok-1", is issued
"tok-2" and logs in with the new password. -/
def demoRun : Execution (demoBackend .storeOrder) :=
  { requests :=
      [(demoEnv 100 "id-1" "",
         .signup { username := "alice", email := "a@x.com", password := "secret1" }),
       (demoEnv 300 "" "tok-1", .forgotPassword "a@x.com"),
       (demoEnv 301 "id-2" "",
         .signup { username := "bob", email := "b@x.com", password := "secret2" }),
       (demoEnv 302 "" "", .resetPassword "tok-1" "newpass1"),
       (demoEnv 303 "" "tok-2", .forgotPassword "a@x.com"),
       (demoEnv 304 "" "", .login "alice" "newpass1")],
    random := by decide }

/-! ### Frontend: JavaScript strings and objects -/

/-- A JavaScript string: a sequence of UTF-16 code units. -/
abbrev JSString := List (Fin 65536)

/-- The UTF-16 code units of one character of a source literal. -/
def utf16 (c : Char) : List (Fin 65536) :=
  if c.toNat < 65536 then [Fin.ofNat c.toNat]
  else [Fin.ofNat (55296 + (c.toNat - 65536) / 1024),
        Fin.ofNat (56320 + (c.toNat - 65536) % 1024)]

/-- The JavaScript string denoted by a string literal of the source. -/
def js (s : String) : JSString :=
  s.data.flatMap utf16

/-- The code units that `String.prototype.trim` strips: the WhiteSpace and
LineTerminator code points of ECMAScript (tab, line feed, vertical tab, form
feed, carriage return, space, no-break space, U+1680, U+2000 to U+200A,
U+2028, U+2029, U+202F, U+205F, U+3000 and U+FEFF). -/
def isTrimmed (c : Fin 65536) : Bool :=
  decide (c.val ∈ [9, 10, 11, 12, 13, 32, 160, 5760, 8232, 8233, 8239, 8287, 12288, 65279])
    || (decide (8192 ≤ c.val) && decide (c.val ≤ 8202))

/-- The method `String.prototype.trim`. -/
def trim (s : JSString) : JSString :=
  ((s.dropWhile isTrimmed).reverse.dropWhile isTrimmed).reverse

/-- A JavaScript object whose property values are strings, as the list of
its own properties in insertion order. -/
abbrev JSObject := List (String × JSString)

/-- Property assignment `o[k] = v`. -/
def objSet (o : JSObject) (k : String) (v : JSString) : JSObject :=
  if o.any (fun kv => kv.1 = k) then o.map (fun kv => if kv.1 = k then (k, v) else kv)
  else o ++ [(k, v)]

/-- Property read `o[k]`, `none` for `undefined`. -/
def objGet (o : JSObject) (k : String) : Option JSString :=
  (o.find? (fun kv => kv.1 = k)).map Prod.snd

/-- The function `Object.keys`. -/
def objKeys (o : JSObject) : List String :=
  o.map Prod.fst

/-! ### Frontend: the login form (`pages/Login.js`) -/

/-- The `formData` state of `Login`: two text inputs and one checkbox. -/
structure FormData where
  login : JSString
  password : JSString
  rememberMe : Bool
  deriving DecidableEq, Repr

/-- The state of the `Login` component: `formData`, `errors`, `loading` and
`apiError`. -/
structure LoginState where
  formData : FormData
  errors : JSObject
  loading : Bool
  apiError : JSString
  deriving DecidableEq, Repr

/-- The `newErrors` object that `validate` builds from the form data. -/
def newErrors (formData : FormData) : JSObject :=
  let e0 : JSObject := []
  let e1 : JSObject :=
    if trim formData.login = [] then objSet e0 "login" (js "Username or email is required")
    else e0
  if formData.password = [] then
    objSet e1 "password" (js "Password is required")
  else if formData.password.length < 6 then
    objSet e1 "password" (js "Password must be at least 6 characters")
  else e1

/-- The function `validate` of `Login`: it stores `newErrors` in the `errors`
state and returns whether `newErrors` has no key. -/
def validate (st : LoginState) : Bool × LoginState :=
  (decide ((objKeys (newErrors st.formData)).length = 0),
   { st with errors := newErrors st.formData })

/-! ### Frontend: the browser around the pages -/

/-- The lower-case hexadecimal digit of a value below 16, as a code unit. -/
def hexDigit (n : Nat) : Fin 65536 :=
  if n < 10 then Fin.ofNat (48 + n) else Fin.ofNat (87 + n)

/-- The escape `\uXXXX` of a code unit, as `JSON.stringify` writes it. -/
def unicodeEscape (c : Fin 65536) : JSString :=
  [92, 117, hexDigit (c.val / 4096), hexDigit (c.val / 256 % 16),
   hexDigit (c.val / 16 % 16), hexDigit (c.val % 16)]

/-- The characters of a string between the quotes of its JSON text: the
short escapes for backspace, tab, line feed, form feed, carriage return,
double quote and backslash, `\uXXXX` for the other code units below U+0020
and for unpaired surrogates, and every other code unit as it is. -/
def quoteChars : JSString → JSString
  | [] => []
  | [c] =>
    if c.val = 8 then [92, 98]
    else if c.val = 9 then [92, 116]
    else if c.val = 10 then [92, 110]
    else if c.val = 12 then [92, 102]
    else if c.val = 13 then [92, 114]
    else if c.val = 34 then [92, 34]
    else if c.val = 92 then [92, 92]
    else if c.val < 32 then unicodeEscape c
    else if 55296 ≤ c.val ∧ c.val < 57344 then unicodeEscape c
    else [c]
  | c :: d :: rest =>
    if c.val = 8 then 92 :: 98 :: quoteChars (d :: rest)
    else if c.val = 9 then 92 :: 116 :: quoteChars (d :: rest)
    else if c.val = 10 then 92 :: 110 :: quoteChars (d :: rest)
    else if c.val = 12 then 92 :: 102 :: quoteChars (d :: rest)
    else if c.val = 13 then 92 :: 114 :: quoteChars (d :: rest)
    else if c.val = 34 then 92 :: 34 :: quoteChars (d :: rest)
    else if c.val = 92 then 92 :: 92 :: quoteChars (d :: rest)
    else if c.val < 32 then unicodeEscape c ++ quoteChars (d :: rest)
    else if 55296 ≤ c.val ∧ c.val < 56320 then
      if 56320 ≤ d.val ∧ d.val < 57344 then c :: d :: quoteChars rest
      else unicodeEscape c ++ quoteChars (d :: rest)
    else if 56320 ≤ c.val ∧ c.val < 57344 then unicodeEscape c ++ quoteChars (d :: rest)
    else c :: quoteChars (d :: rest)

/-- The JSON text of a string: its characters between double quotes. -/
def quoteJSONString (s : JSString) : JSString :=
  34 :: (quoteChars s ++ [34])

/-- The members of the JSON text of an object, separated by commas. -/
def jsonMembers : JSObject → JSString
  | [] => []
  | [kv] => quoteJSONString (js kv.1) ++ 58 :: quoteJSONString kv.2
  | kv :: kv2 :: rest =>
    quoteJSONString (js kv.1) ++ 58 :: quoteJSONString kv.2 ++ 44 :: jsonMembers (kv2 :: rest)

/-- The function `JSON.stringify` on an object whose property values are
strings; the properties are written in the order of the list. -/
def jsonStringify (o : JSObject) : JSString :=
  123 :: (jsonMembers o ++ [125])

/-- A Web Storage object (`localStorage`, `sessionStorage`): its key/value
pairs. -/
abbrev Storage := List (JSString × JSString)

/-- The method `Storage.getItem`, `none` for `null`. -/
def Storage.getItem (s : Storage) (key : JSString) : Option JSString :=
  (s.find? (fun kv => kv.1 = key)).map Prod.snd

/-- The method `Storage.setItem`. -/
def Storage.setItem (s : Storage) (key value : JSString) : Storage :=
  if s.any (fun kv => kv.1 = key) then
    s.map (fun kv => if kv.1 = key then (key, value) else kv)
  else s ++ [(key, value)]

/-- The method `Storage.removeItem`. -/
def Storage.removeItem (s : Storage) (key : JSString) : Storage :=
  s.filter (fun kv => kv.1 ≠ key)

/-- The two storage areas of the window. -/
inductive Area where
  | localStorage
  | sessionStorage
  deriving DecidableEq, Repr

/-- What a handler does to the world outside the component, in the order in
which it does it: the two calls on the submit event, `api.post(path, body)`,
`setItem` and `removeItem` on a storage area, `navigate(path)`,
`setTimeout(() => navigate(path), delay)` and `console.error`. -/
inductive Effect where
  | preventDefault
  | stopPropagation
  | post (path : String) (body : JSObject)
  | setItem (area : Area) (key value : JSString)
  | removeItem (area : Area) (key : JSString)
  | navigate (path : String)
  | setTimeout (delay : Nat) (path : String)
  | consoleError (label : String)
  deriving DecidableEq, Repr

/-- The effect is a call of `api.post`. -/
def Effect.isPost : Effect → Bool
  | .post _ _ => true
  | _ => false

/-- The effect writes to the given storage area. -/
def Effect.writes (a : Area) : Effect → Bool
  | .setItem b _ _ => decide (b = a)
  | .removeItem b _ => decide (b = a)
  | _ => false

/-- The effect is a call of `navigate`. -/
def Effect.isNavigate : Effect → Bool
  | .navigate _ => true
  | _ => false

/-- The effect is a call of `setTimeout`. -/
def Effect.isTimer : Effect → Bool
  | .setTimeout _ _ => true
  | _ => false

/-- The world outside the components: the two storage areas, the clock in
milliseconds, the pending timers with their due times (earliest first), the
calls of `navigate` so far and the requests sent so far. -/
structure Browser where
  localStorage : Storage
  sessionStorage : Storage
  clock : Nat
  timers : List (Nat × String)
  navigations : List String
  requests : List (String × JSObject)
  deriving DecidableEq, Repr

/-- A new timer is queued behind the timers that are due no later. -/
def insertTimer (due : Nat) (path : String) : List (Nat × String) → List (Nat × String)
  | [] => [(due, path)]
  | t :: ts => if t.1 ≤ due then t :: insertTimer due path ts else (due, path) :: t :: ts

/-- One effect carried out in the browser. -/
def Browser.perform (b : Browser) : Effect → Browser
  | .preventDefault => b
  | .stopPropagation => b
  | .consoleError _ => b
  | .post path body => { b with requests := b.requests ++ [(path, body)] }
  | .setItem .localStorage k v => { b with localStorage := Storage.setItem b.localStorage k v }
  | .setItem .sessionStorage k v =>
    { b with sessionStorage := Storage.setItem b.sessionStorage k v }
  | .removeItem .localStorage k => { b with localStorage := Storage.removeItem b.localStorage k }
  | .removeItem .sessionStorage k =>
    { b with sessionStorage := Storage.removeItem b.sessionStorage k }
  | .navigate path => { b with navigations := b.navigations ++ [path] }
  | .setTimeout delay path => { b with timers := insertTimer (b.clock + delay) path b.timers }

/-- The effects of a handler carried out in order. -/
def Browser.performAll (b : Browser) (es : List Effect) : Browser :=
  es.foldl Browser.perform b

/-- Time passes: the clock advances by `dt` milliseconds and the timers that
have become due run their `navigate` in order. -/
def Browser.advance (b : Browser) (dt : Nat) : Browser :=
  { b with clock := b.clock + dt,
           timers := b.timers.filter (fun t => b.clock + dt < t.1),
           navigations := b.navigations ++
             (b.timers.filter (fun t => t.1 ≤ b.clock + dt)).map Prod.snd }

/-- The body of a rejected request, with its optional `message`, a string
when it is there, as in the failure bodies of the API. -/
structure ErrorBody where
  message : Option JSString
  deriving DecidableEq, Repr

/-- The `response` of a rejected request, with its optional `data`. -/
structure ErrorResponse where
  data : Option ErrorBody
  deriving DecidableEq, Repr

/-- The error a request is rejected with, with its optional `response`. -/
structure RequestError where
  response : Option ErrorResponse
  deriving DecidableEq, Repr

/-- The expression `error.response?.data?.message`, `none` for
`undefined`. -/
def RequestError.message (error : RequestError) : Option JSString :=
  match error.response with
  | none => none
  | some r =>
    match r.data with
    | none => none
    | some d => d.message

/-- The expression `value || fallback` for a value that is a string or
`undefined`: the value when it is a non-empty string, the fallback
otherwise. -/
def orElse (value : Option JSString) (fallback : JSString) : JSString :=
  match value with
  | none => fallback
  | some v => if v = [] then fallback else v

/-- How the promise of `api.post` settles: resolved with the `data` of the
response, or rejected with an error. -/
inductive Settled (α : Type) where
  | resolved (data : α)
  | rejected (error : RequestError)

/-! ### Frontend: submitting the login form (`pages/Login.js`) -/

/-- A change event of the login form, by the input it comes from: the text
input `login`, the password input `password`, or the checkbox
`rememberMe`. -/
inductive ChangeEvent where
  | login (value : JSString)
  | password (value : JSString)
  | rememberMe (checked : Bool)
  deriving DecidableEq, Repr

/-- The `name` of the target of a change event. -/
def ChangeEvent.name : ChangeEvent → String
  | .login _ => "login"
  | .password _ => "password"
  | .rememberMe _ => "rememberMe"

/-- The expression `errors[name]` is truthy: a non-empty string. -/
def hasError (errors : JSObject) (name : String) : Bool :=
  match objGet errors name with
  | none => false
  | some m => decide (m ≠ [])

/-- The function `handleChange` of `Login`: the changed field of `formData`
is replaced, a shown error of that field is set to the empty string, and
`apiError` is cleared. -/
def handleChange (st : LoginState) (e : ChangeEvent) : LoginState :=
  { st with
    formData :=
      match e with
      | .login v => { st.formData with login := v }
      | .password v => { st.formData with password := v }
      | .rememberMe c => { st.formData with rememberMe := c },
    errors := if hasError st.errors e.name then objSet st.errors e.name [] else st.errors,
    apiError := [] }

/-- The `data` of the response of a login request that resolves, as
`handleSubmit` destructures it: the success body of the login endpoint, with
the session token, a string, and the user object, whose fields are
strings. -/
structure LoginData where
  token : JSString
  user : JSObject
  deriving DecidableEq, Repr

/-- The function `handleSubmit` of `Login` up to `await api.post`: the two
calls on the event, `apiError` cleared, `validate`; for an invalid form
nothing more, for a valid form `loading` set and the request sent. -/
def handleSubmitSync (st : LoginState) : LoginState × List Effect :=
  if (validate { st with apiError := [] }).1 then
    ({ (validate { st with apiError := [] }).2 with loading := true },
     [.preventDefault, .stopPropagation,
      .post "/auth/login" [("login", st.formData.login), ("password", st.formData.password)]])
  else
    ((validate { st with apiError := [] }).2, [.preventDefault, .stopPropagation])

/-- The function `handleSubmit` of `Login` after `await api.post`, on the
state the component has by then and with the `formData` of the render in
which the form was submitted.  Resolved: token and user are written to the
storage area chosen by `rememberMe`, then `navigate('/home')`.  Rejected:
`console.error`, `apiError` set, `loading` reset. -/
def handleSubmitSettled (formData : FormData) (st : LoginState) :
    Settled LoginData → LoginState × List Effect
  | .resolved data =>
    (st,
     (if formData.rememberMe then
        [.setItem .localStorage (js "token") data.token,
         .setItem .localStorage (js "user") (jsonStringify data.user)]
      else
        [.setItem .sessionStorage (js "token") data.token,
         .setItem .sessionStorage (js "user") (jsonStringify data.user)])
      ++ [.navigate "/home"])
  | .rejected error =>
    ({ st with apiError := orElse error.message (js "Login failed. Please try again."),
               loading := false },
     [.consoleError "Login error:"])

/-- The function `handleSubmit` of `Login` as a whole: the part before the
request, the change events handled while the request is pending, and the
part after the request has settled.  For an invalid form it ends before the
request. -/
def handleSubmit (st : LoginState) (during : List ChangeEvent) (outcome : Settled LoginData) :
    LoginState × List Effect :=
  if (validate { st with apiError := [] }).1 then
    ((handleSubmitSettled st.formData (during.foldl handleChange (handleSubmitSync st).1)
        outcome).1,
     (handleSubmitSync st).2 ++
       (handleSubmitSettled st.formData (during.foldl handleChange (handleSubmitSync st).1)
        outcome).2)
  else handleSubmitSync st

/-- The storage writes of a resolved login, by the `rememberMe` of the
submitted form. -/
def loginWrites (rememberMe : Bool) (data : LoginData) : List Effect :=
  if rememberMe then
    [.setItem .localStorage (js "token") data.token,
     .setItem .localStorage (js "user") (jsonStringify data.user)]
  else
    [.setItem .sessionStorage (js "token") data.token,
     .setItem .sessionStorage (js "user") (jsonStringify data.user)]

/-- The submit button as `Login` renders it. -/
structure SubmitButton where
  disabled : Bool
  label : String
  deriving DecidableEq, Repr

/-- The submit button of `Login`: `disabled={loading}`, labelled
"Logging in..." while loading and "Login" otherwise. -/
def submitButton (st : LoginState) : SubmitButton :=
  { disabled := st.loading, label := if st.loading then "Logging in..." else "Login" }

/-! ### Frontend: the reset-password form (`pages/ResetPassword.js`) -/

/-- The `formData` state of `ResetPassword`. -/
structure ResetPassword.FormData where
  password : JSString
  confirmPassword : JSString
  deriving DecidableEq, Repr

/-- The state of the `ResetPassword` component: `formData`, `errors`,
`loading`, `apiError` and `success`. -/
structure ResetPassword.State where
  formData : ResetPassword.FormData
  errors : JSObject
  loading : Bool
  apiError : JSString
  success : Bool
  deriving DecidableEq, Repr

/-- A change event of the reset-password form, by the input it comes from. -/
inductive ResetPassword.ChangeEvent where
  | password (value : JSString)
  | confirmPassword (value : JSString)
  deriving DecidableEq, Repr

/-- The `name` of the target of a change event. -/
def ResetPassword.ChangeEvent.name : ResetPassword.ChangeEvent → String
  | .password _ => "password"
  | .confirmPassword _ => "confirmPassword"

/-- The function `handleChange` of `ResetPassword`. -/
def ResetPassword.handleChange (st : ResetPassword.State) (e : ResetPassword.ChangeEvent) :
    ResetPassword.State :=
  { st with
    formData :=
      match e with
      | .password v => { st.formData with password := v }
      | .confirmPassword v => { st.formData with confirmPassword := v },
    errors := if hasError st.errors e.name then objSet st.errors e.name [] else st.errors,
    apiError := [] }

/-- The `newErrors` object that `validate` of `ResetPassword` builds. -/
def ResetPassword.newErrors (formData : ResetPassword.FormData) : JSObject :=
  let e0 : JSObject := []
  let e1 : JSObject :=
    if formData.password = [] then objSet e0 "password" (js "Password is required")
    else if formData.password.length < 6 then
      objSet e0 "password" (js "Password must be at least 6 characters")
    else e0
  if formData.confirmPassword = [] then
    objSet e1 "confirmPassword" (js "Please confirm your password")
  else if formData.password ≠ formData.confirmPassword then
    objSet e1 "confirmPassword" (js "Passwords do not match")
  else e1

/-- The function `validate` of `ResetPassword`. -/
def ResetPassword.validate (st : ResetPassword.State) : Bool × ResetPassword.State :=
  (decide ((objKeys (ResetPassword.newErrors st.formData)).length = 0),
   { st with errors := ResetPassword.newErrors st.formData })

/-- The function `handleSubmit` of `ResetPassword` up to `await api.post`,
for the route parameter `token`. -/
def ResetPassword.handleSubmitSync (token : JSString) (st : ResetPassword.State) :
    ResetPassword.State × List Effect :=
  if (ResetPassword.validate { st with apiError := [] }).1 then
    ({ (ResetPassword.validate { st with apiError := [] }).2 with loading := true },
     [.preventDefault,
      .post "/auth/reset-password" [("token", token), ("password", st.formData.password)]])
  else
    ((ResetPassword.validate { st with apiError := [] }).2, [.preventDefault])

/-- The function `handleSubmit` of `ResetPassword` after `await api.post`.
Resolved: `success` set and `navigate('/login')` scheduled after 2000 ms.
Rejected: `apiError` set.  In both cases `loading` is reset at the end. -/
def ResetPassword.handleSubmitSettled (st : ResetPassword.State) :
    Settled Unit → ResetPassword.State × List Effect
  | .resolved _ => ({ st with success := true, loading := false }, [.setTimeout 2000 "/login"])
  | .rejected error =>
    ({ st with
       apiError := orElse error.message (js "Failed to reset password. Please try again."),
       loading := false }, [])

/-- The function `handleSubmit` of `ResetPassword` as a whole, with the
change events handled while the request is pending. -/
def ResetPassword.handleSubmit (token : JSString) (st : ResetPassword.State)
    (during : List ResetPassword.ChangeEvent) (outcome : Settled Unit) :
    ResetPassword.State × List Effect :=
  if (ResetPassword.validate { st with apiError := [] }).1 then
    ((ResetPassword.handleSubmitSettled
        (during.foldl ResetPassword.handleChange (ResetPassword.handleSubmitSync token st).1)
        outcome).1,
     (ResetPassword.handleSubmitSync token st).2 ++
       (ResetPassword.handleSubmitSettled
        (during.foldl ResetPassword.handleChange (ResetPassword.handleSubmitSync token st).1)
        outcome).2)
  else ResetPassword.handleSubmitSync token st

/-! ### Frontend: the home page (`pages/Home.js`) -/

/-- The function `handleLogout` of `Home`: token and user are removed from
both storage areas, then `navigate('/login')`. -/
def Home.handleLogout : List Effect :=
  [.removeItem .localStorage (js "token"), .removeItem .localStorage (js "user"),
   .removeItem .sessionStorage (js "token"), .removeItem .sessionStorage (js "user"),
   .navigate "/login"]

/-! ### Frontend: `JSON.parse` and the mount of `Home` -/

/-- The own properties of an object that `JSON.parse` builds: property names
and string values, in the order in which the properties were created. -/
abbrev Properties := List (JSString × JSString)

/-- The property `name` is created, or given a new value when it exists. -/
def Properties.set (o : Properties) (name value : JSString) : Properties :=
  if o.any (fun kv => kv.1 = name) then
    o.map (fun kv => if kv.1 = name then (name, value) else kv)
  else o ++ [(name, value)]

/-- Property read `o[name]`, `none` for `undefined`. -/
def Properties.get (o : Properties) (name : JSString) : Option JSString :=
  (o.find? (fun kv => kv.1 = name)).map Prod.snd

/-- The properties of an object with string values, with its property names
as JavaScript strings. -/
def toProperties (o : JSObject) : Properties :=
  o.map (fun kv => (js kv.1, kv.2))

/-- The value of a hexadecimal digit, upper or lower case. -/
def hexValue (c : Fin 65536) : Option Nat :=
  if 48 ≤ c.val ∧ c.val ≤ 57 then some (c.val - 48)
  else if 97 ≤ c.val ∧ c.val ≤ 102 then some (c.val - 87)
  else if 65 ≤ c.val ∧ c.val ≤ 70 then some (c.val - 55)
  else none

/-- One more code unit in front of a parsed string. -/
def pushUnit (c : Fin 65536) (r : Option (JSString × JSString)) :
    Option (JSString × JSString) :=
  r.map (fun p => (c :: p.1, p.2))

/-- The characters of a JSON string after its opening quote: the string they
denote and the text after the closing quote, `none` when the text is not
well formed.  The escapes of JSON are decoded; a code unit below U+0020 is
not allowed; every other code unit stands for itself. -/
def parseChars : JSString → Option (JSString × JSString)
  | [] => none
  | c :: rest =>
    if c.val = 34 then some ([], rest)
    else if c.val = 92 then
      match rest with
      | [] => none
      | e :: rest2 =>
        if e.val = 34 then pushUnit 34 (parseChars rest2)
        else if e.val = 92 then pushUnit 92 (parseChars rest2)
        else if e.val = 47 then pushUnit 47 (parseChars rest2)
        else if e.val = 98 then pushUnit 8 (parseChars rest2)
        else if e.val = 102 then pushUnit 12 (parseChars rest2)
        else if e.val = 110 then pushUnit 10 (parseChars rest2)
        else if e.val = 114 then pushUnit 13 (parseChars rest2)
        else if e.val = 116 then pushUnit 9 (parseChars rest2)
        else if e.val = 117 then
          match rest2 with
          | h1 :: h2 :: h3 :: h4 :: rest3 =>
            match hexValue h1, hexValue h2, hexValue h3, hexValue h4 with
            | some v1, some v2, some v3, some v4 =>
              pushUnit (Fin.ofNat (4096 * v1 + 256 * v2 + 16 * v3 + v4)) (parseChars rest3)
            | _, _, _, _ => none
          | _ => none
        else none
    else if c.val < 32 then none
    else pushUnit c (parseChars rest)

/-- The white space of JSON in front of a text is skipped: space, tab, line
feed and carriage return. -/
def skipWs (s : JSString) : JSString :=
  s.dropWhile (fun c => decide (c.val = 32 ∨ c.val = 9 ∨ c.val = 10 ∨ c.val = 13))

/-- A JSON string, after white space: the string it denotes and the text
after it. -/
def parseString (s : JSString) : Option (JSString × JSString) :=
  match skipWs s with
  | [] => none
  | c :: rest => if c.val = 34 then parseChars rest else none

/-- A member of a JSON object whose value is a string: name, colon, value;
with the text after it. -/
def parseMember (s : JSString) : Option ((JSString × JSString) × JSString) :=
  match parseString s with
  | none => none
  | some (name, r1) =>
    match skipWs r1 with
    | [] => none
    | c :: r2 =>
      if c.val = 58 then
        match parseString r2 with
        | none => none
        | some (value, r3) => some ((name, value), r3)
      else none

/-- The members of a non-empty JSON object up to its closing brace, with the
text after the brace.  The fuel bounds the number of members. -/
def parseMembers : Nat → JSString → Option (List (JSString × JSString) × JSString)
  | 0, _ => none
  | fuel + 1, s =>
    match parseMember s with
    | none => none
    | some (kv, r) =>
      match skipWs r with
      | [] => none
      | c :: r2 =>
        if c.val = 44 then (parseMembers fuel r2).map (fun p => (kv :: p.1, p.2))
        else if c.val = 125 then some ([kv], r2)
        else none

/-- The function `JSON.parse` on the JSON texts of objects whose members have
string values: the object, with its properties created in the order of the
text and a repeated name keeping its first place and its last value.  The
result is `none` for every other text, on which `JSON.parse` returns a value
of another shape or throws; such texts are outside this model. -/
def jsonParse (text : JSString) : Option Properties :=
  match skipWs text with
  | [] => none
  | c :: r =>
    if c.val = 123 then
      match skipWs r with
      | [] => none
      | d :: r2 =>
        if d.val = 125 then (if skipWs r2 = [] then some [] else none)
        else
          match parseMembers text.length (d :: r2) with
          | none => none
          | some (members, r3) =>
            if skipWs r3 = [] then
              some (members.foldl (fun o kv => Properties.set o kv.1 kv.2) [])
            else none
    else none

/-- The `user` state of `Home`: `null`, or the object set by `setUser`. -/
inductive Home.User where
  | null
  | object (props : Properties)
  deriving DecidableEq, Repr

/-- The expression `user?.[name]` of the render of `Home`. -/
def Home.User.get : Home.User → JSString → Option JSString
  | .null, _ => none
  | .object props, name => Properties.get props name

/-- The expression `a || b` on two results of `getItem`: the first when it is
a non-empty string, the second otherwise. -/
def firstTruthy (a b : Option JSString) : Option JSString :=
  match a with
  | some (c :: cs) => some (c :: cs)
  | _ => b

/-- The effect of `Home` on mount, as the `user` state it leads to: the
`user` entry of `localStorage` or else of `sessionStorage`, parsed with
`JSON.parse` when it is a non-empty string; `user` stays `null` otherwise.
The result is `none` when the entry is a text outside the model of
`JSON.parse`. -/
def Home.mount (b : Browser) : Option Home.User :=
  match firstTruthy (Storage.getItem b.localStorage (js "user"))
      (Storage.getItem b.sessionStorage (js "user")) with
  | some (c :: cs) => (jsonParse (c :: cs)).map Home.User.object
  | _ => some Home.User.null

/-! ### Frontend: concrete states -/

/-- The login form filled in as in the tests: "testuser", "password123". -/
def filledLogin (rememberMe : Bool) : LoginState :=
  { formData := { login := js "testuser", password := js "password123",
                  rememberMe := rememberMe },
    errors := [], loading := false, apiError := [] }

/-- The response data of the tests: the token "fake-jwt-token" and the user
with id "123", username "testuser" and email "test@example.com". -/
def fakeLoginData : LoginData :=
  { token := js "fake-jwt-token",
    user := [("id", js "123"), ("username", js "testuser"), ("email", js "test@example.com")] }

/-- A browser with empty storage areas, no timer and nothing done yet. -/
def emptyBrowser : Browser :=
  { localStorage := [], sessionStorage := [], clock := 0, timers := [],
    navigations := [], requests := [] }

/-- The reset-password form filled in with "newpassword123" twice. -/
def filledReset : ResetPassword.State :=
  { formData := { password := js "newpassword123", confirmPassword := js "newpassword123" },
    errors := [], loading := false, apiError := [], success := false }

/-- The response data of an earlier login of another account: the token
"old-jwt-token" and the user with id "7", username "olduser" and email
"old@example.com". -/
def otherLoginData : LoginData :=
  { token := js "old-jwt-token",
    user := [("id", js "7"), ("username", js "olduser"), ("email", js "old@example.com")] }

/-- The browser after that other account has logged in with "remember me"
from empty storage areas and has left without logging out. -/
def rememberedBrowser : Browser :=
  emptyBrowser.performAll (handleSubmit (filledLogin true) [] (.resolved otherLoginData)).2

/-- The rejection of the tests: a response whose data has the message
"Invalid credentials". -/
def invalidCredentialsError : RequestError :=
  { response := some { data := some { message := some (js "Invalid credentials") } } }

/-! ## Part II: theorems

### Backend: signup (C1) -/

theorem signupInvalid_nil (B : Backend) (i : SignupInput)
    (hu : i.username ≠ "") (he : B.isEmail i.email = true) (hp : 6 ≤ i.password.length) :
    signupInvalid B i = [] := by
  have hp' : ¬ i.password.length < 6 := by omega
  simp [signupInvalid, hu, he, hp']

/-- C1: for every store and every valid signup input, an existing record with
the same (lower-cased) email gives 400 "Email already registered"; otherwise
an existing record with the same username gives 400 "Username already
taken"; in both cases the store is unchanged; with neither collision the
response is 201 and exactly one record, carrying the given username and
email, is appended. -/
theorem signup_uniqueness (B : Backend) (env : Env) (s : Store) (i : SignupInput)
    (hu : i.username ≠ "") (he : B.isEmail i.email = true) (hp : 6 ≤ i.password.length) :
    ((∃ u ∈ s, u.email = normalizeEmail i.email) →
        signup B env s i = (failure 400 "Email already registered", s)) ∧
    ((∀ u ∈ s, u.email ≠ normalizeEmail i.email) → (∃ u ∈ s, u.username = i.username) →
        signup B env s i = (failure 400 "Username already taken", s)) ∧
    ((∀ u ∈ s, u.email ≠ normalizeEmail i.email) → (∀ u ∈ s, u.username ≠ i.username) →
        (signup B env s i).1.status = 201 ∧ (signup B env s i).1.success = true ∧
        ((signup B env s i).2).length = s.length + 1 ∧
        ∃ u : User, (signup B env s i).2 = s ++ [u] ∧ u.username = i.username ∧
          u.email = normalizeEmail i.email) := by
  have hv := signupInvalid_nil B i hu he hp
  refine ⟨?_, ?_, ?_⟩
  · rintro ⟨u, hus, hue⟩
    have h1 : s.any (fun u => decide (u.email = normalizeEmail i.email)) = true :=
      List.any_eq_true.mpr ⟨u, hus, by simp [hue]⟩
    simp [signup, hv, h1]
  · rintro hne ⟨u, hus, huu⟩
    have h1 : s.any (fun u => decide (u.email = normalizeEmail i.email)) = false := by
      rw [List.any_eq_false]
      intro x hx
      simpa using hne x hx
    have h2 : s.any (fun u => decide (u.username = i.username)) = true :=
      List.any_eq_true.mpr ⟨u, hus, by simp [huu]⟩
    simp [signup, hv, h1, h2]
  · intro hne hnu
    have h1 : s.any (fun u => decide (u.email = normalizeEmail i.email)) = false := by
      rw [List.any_eq_false]
      intro x hx
      simpa using hne x hx
    have h2 : s.any (fun u => decide (u.username = i.username)) = false := by
      rw [List.any_eq_false]
      intro x hx
      simpa using hnu x hx
    simp [signup, hv, h1, h2, authSuccess]

theorem signup_uniqueness_witness :
    signup (demoBackend .storeOrder) (demoEnv 200 "id-2" "") aliceStore
        { username := "bob", email := "A@x.com", password := "secret2" }
      = (failure 400 "Email already registered", aliceStore) ∧
    signup (demoBackend .storeOrder) (demoEnv 200 "id-2" "") aliceStore
        { username := "alice", email := "b@x.com", password := "secret2" }
      = (failure 400 "Username already taken", aliceStore) ∧
    ((signup (demoBackend .storeOrder) (demoEnv 200 "id-2" "") aliceStore
        { username := "bob", email := "b@x.com", password := "secret2" }).2).length = 2 :=
  ⟨(signup_uniqueness (demoBackend .storeOrder) (demoEnv 200 "id-2" "") aliceStore
      { username := "bob", email := "A@x.com", password := "secret2" }
      (by decide) (by decide) (by decide)).1 (by decide),
   (signup_uniqueness (demoBackend .storeOrder) (demoEnv 200 "id-2" "") aliceStore
      { username := "alice", email := "b@x.com", password := "secret2" }
      (by decide) (by decide) (by decide)).2.1 (by decide) (by decide),
   ((signup_uniqueness (demoBackend .storeOrder) (demoEnv 200 "id-2" "") aliceStore
      { username := "bob", email := "b@x.com", password := "secret2" }
      (by decide) (by decide) (by decide)).2.2 (by decide) (by decide)).2.2.1⟩

/-! ### Backend: login (C3) -/

theorem findByLogin_some (o : LookupOrder) (s : Store) (ident : String) (u : User)
    (h : findByLogin o s ident = some u) :
    u ∈ s ∧ (u.username = ident ∨ u.email = ident) := by
  cases o
  · simp only [findByLogin] at h
    cases hf : s.find? (fun u => decide (u.username = ident)) with
    | some v =>
      rw [hf] at h
      simp only [Option.some.injEq] at h
      subst h
      exact ⟨List.mem_of_find?_eq_some hf, Or.inl (by simpa using List.find?_some hf)⟩
    | none =>
      rw [hf] at h
      exact ⟨List.mem_of_find?_eq_some h, Or.inr (by simpa using List.find?_some h)⟩
  · simp only [findByLogin] at h
    cases hf : s.find? (fun u => decide (u.email = ident)) with
    | some v =>
      rw [hf] at h
      simp only [Option.some.injEq] at h
      subst h
      exact ⟨List.mem_of_find?_eq_some hf, Or.inr (by simpa using List.find?_some hf)⟩
    | none =>
      rw [hf] at h
      exact ⟨List.mem_of_find?_eq_some h, Or.inl (by simpa using List.find?_some h)⟩
  · simp only [findByLogin] at h
    exact ⟨List.mem_of_find?_eq_some h, by simpa using List.find?_some h⟩

theorem findByLogin_none (o : LookupOrder) (s : Store) (ident : String)
    (h : ∀ u ∈ s, u.username ≠ ident ∧ u.email ≠ ident) :
    findByLogin o s ident = none := by
  have hu : s.find? (fun u => decide (u.username = ident)) = none := by
    rw [List.find?_eq_none]
    intro x hx
    simpa using (h x hx).1
  have he : s.find? (fun u => decide (u.email = ident)) = none := by
    rw [List.find?_eq_none]
    intro x hx
    simpa using (h x hx).2
  cases o
  · simp [findByLogin, hu, he]
  · simp [findByLogin, hu, he]
  · simp only [findByLogin]
    rw [List.find?_eq_none]
    intro x hx
    have := h x hx
    simp [this.1, this.2]

theorem loginInvalid_nil (ident password : String) (h1 : ident ≠ "") (h2 : password ≠ "") :
    loginInvalid ident password = [] := by
  simp [loginInvalid, h1, h2]

theorem login_found_ok (B : Backend) (env : Env) (s : Store) (ident password : String)
    (u : User) (hi : ident ≠ "") (hp : password ≠ "")
    (hf : findByLogin B.lookupOrder s ident = some u)
    (hv : B.verifyPassword password u.passwordHash = true) :
    login B env s ident password =
      (authSuccess 200 (B.mintSession u.id env.now) u.id u.username u.email, s) := by
  simp [login, loginInvalid_nil ident password hi hp, hf, hv]

theorem login_found_wrong (B : Backend) (env : Env) (s : Store) (ident password : String)
    (u : User) (hi : ident ≠ "") (hp : password ≠ "")
    (hf : findByLogin B.lookupOrder s ident = some u)
    (hv : B.verifyPassword password u.passwordHash = false) :
    login B env s ident password = (failure 401 "Invalid credentials", s) := by
  simp [login, loginInvalid_nil ident password hi hp, hf, hv]

/-- The store is never changed by a login. -/
theorem login_store (B : Backend) (env : Env) (s : Store) (ident password : String) :
    (login B env s ident password).2 = s := by
  unfold login
  split
  · rfl
  · split
    · rfl
    · split <;> rfl

/-- C3: enumeration resistance of login.  In any two runs with non-empty
identifier and password, one whose identifier matches no stored username or
email and one whose identifier finds a record whose hash the password does
not verify against, the two responses are equal, and each is 401,
success false, message "Invalid credentials", with no token and no user. -/
theorem login_enumeration_resistance (B : Backend)
    (env1 env2 : Env) (s1 s2 : Store) (ident1 pw1 ident2 pw2 : String) (u : User)
    (hi1 : ident1 ≠ "") (hp1 : pw1 ≠ "") (hi2 : ident2 ≠ "") (hp2 : pw2 ≠ "")
    (hunknown : ∀ v ∈ s1, v.username ≠ ident1 ∧ v.email ≠ ident1)
    (hfound : findByLogin B.lookupOrder s2 ident2 = some u)
    (hwrong : B.verifyPassword pw2 u.passwordHash = false) :
    (login B env1 s1 ident1 pw1).1 = (login B env2 s2 ident2 pw2).1 ∧
    (login B env1 s1 ident1 pw1).1 =
      { status := 401, success := false, message := some "Invalid credentials",
        token := none, user := none, resetToken := none } ∧
    (login B env2 s2 ident2 pw2).1 =
      { status := 401, success := false, message := some "Invalid credentials",
        token := none, user := none, resetToken := none } := by
  have hn := findByLogin_none B.lookupOrder s1 ident1 hunknown
  have e1 : (login B env1 s1 ident1 pw1).1 = failure 401 "Invalid credentials" := by
    simp [login, loginInvalid_nil ident1 pw1 hi1 hp1, hn]
  have e2 : (login B env2 s2 ident2 pw2).1 = failure 401 "Invalid credentials" := by
    simp [login, loginInvalid_nil ident2 pw2 hi2 hp2, hfound, hwrong]
  rw [e1, e2]
  exact ⟨rfl, rfl, rfl⟩

theorem login_enumeration_resistance_witness :
    (login (demoBackend .storeOrder) (demoEnv 300 "" "") aliceStore "nobody@x.com" "secret1").1
      = (login (demoBackend .storeOrder) (demoEnv 400 "" "") aliceStore "alice" "wrong").1 ∧
    (login (demoBackend .storeOrder) (demoEnv 400 "" "") aliceStore "alice" "wrong").1.status
      = 401 :=
  have h := login_enumeration_resistance (demoBackend .storeOrder)
    (demoEnv 300 "" "") (demoEnv 400 "" "") aliceStore aliceStore
    "nobody@x.com" "secret1" "alice" "wrong"
    { id := "id-1", username := "alice", email := "a@x.com", passwordHash := "pw$secret1",
      resetTokenHash := none, resetTokenExpiry := none }
    (by decide) (by decide) (by decide) (by decide) (by decide) (by decide) (by decide)
  ⟨h.1, by rw [h.2.2]⟩

/-! ### Backend: lookup in a store with one matching record -/

theorem nodup_map_middle {β : Type} (f : User → β) (l1 l2 : List User) (a : User)
    (h : ((l1 ++ a :: l2).map f).Nodup) : ∀ v ∈ l1 ++ l2, f v ≠ f a := by
  rw [List.map_append, List.map_cons, List.nodup_middle, List.nodup_cons,
    ← List.map_append] at h
  intro v hv hfv
  exact h.1 (List.mem_map.mpr ⟨v, hv, hfv⟩)

theorem find?_split (p : User → Bool) (l1 l2 : List User) (a : User)
    (h1 : ∀ v ∈ l1, p v = false) (ha : p a = true) :
    (l1 ++ a :: l2).find? p = some a := by
  induction l1 with
  | nil => simp [ha]
  | cons x xs ih =>
    have hx : p x = false := h1 x (List.mem_cons_self _ _)
    have hxs : ∀ v ∈ xs, p v = false := fun v hv => h1 v (List.mem_cons_of_mem _ hv)
    simp [List.find?_cons, hx, ih hxs]

theorem updateFirst_split (p : User → Bool) (f : User → User) (l1 l2 : List User) (a : User)
    (h1 : ∀ v ∈ l1, p v = false) (ha : p a = true) :
    updateFirst p f (l1 ++ a :: l2) = l1 ++ f a :: l2 := by
  induction l1 with
  | nil => simp [updateFirst, ha]
  | cons x xs ih =>
    have hx : p x = false := h1 x (List.mem_cons_self _ _)
    have hxs : ∀ v ∈ xs, p v = false := fun v hv => h1 v (List.mem_cons_of_mem _ hv)
    simp [updateFirst, hx, ih hxs]

theorem find?_none_of_forall (p : User → Bool) (l : List User)
    (h : ∀ v ∈ l, p v = false) : l.find? p = none := by
  rw [List.find?_eq_none]
  intro x hx
  simp [h x hx]

/-- When exactly one record of the store answers to an identifier, by its
username or by its email, login finds that record, whatever the lookup
order. -/
theorem findByLogin_split (o : LookupOrder) (l1 l2 : List User) (a : User) (ident : String)
    (hothers : ∀ v ∈ l1 ++ l2, v.username ≠ ident ∧ v.email ≠ ident)
    (ha : a.username = ident ∨ a.email = ident) :
    findByLogin o (l1 ++ a :: l2) ident = some a := by
  have h1 : ∀ v ∈ l1, v.username ≠ ident ∧ v.email ≠ ident :=
    fun v hv => hothers v (List.mem_append_left _ hv)
  have h2 : ∀ v ∈ l2, v.username ≠ ident ∧ v.email ≠ ident :=
    fun v hv => hothers v (List.mem_append_right _ hv)
  have hfind : ∀ q : User → Bool, (∀ v ∈ l1 ++ l2, q v = false) →
      (l1 ++ a :: l2).find? q = if q a then some a else none := by
    intro q hq
    by_cases hqa : q a = true
    · rw [find?_split q l1 l2 a (fun v hv => hq v (List.mem_append_left _ hv)) hqa]
      simp [hqa]
    · have : ∀ v ∈ l1 ++ a :: l2, q v = false := by
        intro v hv
        rcases List.mem_append.mp hv with h | h
        · exact hq v (List.mem_append_left _ h)
        · rcases List.mem_cons.mp h with h | h
          · subst h; simpa using hqa
          · exact hq v (List.mem_append_right _ h)
      rw [find?_none_of_forall q _ this]
      simp [hqa]
  have hU := hfind (fun u => decide (u.username = ident))
    (fun v hv => by simpa using (hothers v hv).1)
  have hE := hfind (fun u => decide (u.email = ident))
    (fun v hv => by simpa using (hothers v hv).2)
  have hB := hfind (fun u => decide (u.username = ident ∨ u.email = ident))
    (fun v hv => by simp [(hothers v hv).1, (hothers v hv).2])
  cases o
  · simp only [findByLogin, hU, hE]
    by_cases hu : a.username = ident
    · simp [hu]
    · have he : a.email = ident := ha.resolve_left hu
      simp [hu, he]
  · simp only [findByLogin, hU, hE]
    by_cases he : a.email = ident
    · simp [he]
    · have hu : a.username = ident := ha.resolve_right he
      simp [hu, he]
  · simp only [findByLogin, hB]
    simp [ha]

theorem mem_split_of_mem (l1 l2 : List User) (a v : User) (hv : v ∈ l1 ++ l2) :
    v ∈ l1 ++ a :: l2 := by
  rcases List.mem_append.mp hv with h | h
  · exact List.mem_append_left _ h
  · exact List.mem_append_right _ (List.mem_cons_of_mem _ h)

/-- Login of an account whose identifiers belong to it alone: in a store with
unique usernames and unique emails, for every account with non-empty
username and email and every non-empty password that verifies against its
hash, provided no other account has this username as its email and no other
account has this email as its username, login by username and login by
email both answer 200, success true, with a session token and the user
object of that account, and leave the store unchanged. -/
theorem login_of_record (B : Backend) (env : Env) (s : Store)
    (acct : User) (p : String)
    (hwf : WellFormed s) (hmem : acct ∈ s)
    (hpw : B.verifyPassword p acct.passwordHash = true)
    (hu : acct.username ≠ "") (he : acct.email ≠ "") (hp : p ≠ "")
    (hx1 : ∀ v ∈ s, v.email = acct.username → v = acct)
    (hx2 : ∀ v ∈ s, v.username = acct.email → v = acct) :
    login B env s acct.username p =
      ({ status := 200, success := true, message := none,
         token := some (B.mintSession acct.id env.now),
         user := some [("id", acct.id), ("username", acct.username), ("email", acct.email)],
         resetToken := none }, s) ∧
    login B env s acct.email p =
      ({ status := 200, success := true, message := none,
         token := some (B.mintSession acct.id env.now),
         user := some [("id", acct.id), ("username", acct.username), ("email", acct.email)],
         resetToken := none }, s) := by
  obtain ⟨l1, l2, rfl⟩ := List.append_of_mem hmem
  have hun := nodup_map_middle User.username l1 l2 acct hwf.1
  have hen := nodup_map_middle User.email l1 l2 acct hwf.2
  have f1 : findByLogin B.lookupOrder (l1 ++ acct :: l2) acct.username = some acct := by
    apply findByLogin_split
    · intro v hv
      refine ⟨hun v hv, fun h => ?_⟩
      have := hx1 v (mem_split_of_mem l1 l2 acct v hv) h
      exact hun v hv (by rw [this])
    · exact Or.inl rfl
  have f2 : findByLogin B.lookupOrder (l1 ++ acct :: l2) acct.email = some acct := by
    apply findByLogin_split
    · intro v hv
      refine ⟨fun h => ?_, hen v hv⟩
      have := hx2 v (mem_split_of_mem l1 l2 acct v hv) h
      exact hen v hv (by rw [this])
    · exact Or.inr rfl
  constructor
  · simp [login, loginInvalid_nil _ _ hu hp, f1, hpw, authSuccess, publicUser]
  · simp [login, loginInvalid_nil _ _ he hp, f2, hpw, authSuccess, publicUser]

theorem login_of_record_example :
    (login (demoBackend .storeOrder) (demoEnv 300 "" "") aliceStore "alice" "secret1").1.status
      = 200 ∧
    (login (demoBackend .storeOrder) (demoEnv 300 "" "") aliceStore "a@x.com" "secret1").1.status
      = 200 :=
  have h := login_of_record (demoBackend .storeOrder) (demoEnv 300 "" "")
    aliceStore
    { id := "id-1", username := "alice", email := "a@x.com", passwordHash := "pw$secret1",
      resetTokenHash := none, resetTokenExpiry := none } "secret1"
    (by decide) (by decide) (by decide) (by decide) (by decide) (by decide)
    (by decide) (by decide)
  ⟨by rw [h.1], by rw [h.2]⟩

/-! ### Backend: reset round trip -/

theorem requestReset_split (B : Backend) (env : Env) (l1 l2 : List User) (a : User)
    (email : String) (hv : B.isEmail email = true)
    (ha : a.email = normalizeEmail email)
    (h1 : ∀ v ∈ l1, v.email ≠ normalizeEmail email) :
    requestReset B env (l1 ++ a :: l2) email =
      ({ status := 200, success := true, message := none, token := none,
         user := none, resetToken := some env.secret },
       l1 ++ withResetToken B env a :: l2) := by
  have hp1 : ∀ v ∈ l1, (fun u : User => decide (u.email = normalizeEmail email)) v = false :=
    fun v hv => by simpa using h1 v hv
  have hpa : (fun u : User => decide (u.email = normalizeEmail email)) a = true := by
    simpa using ha
  simp only [requestReset, hv, find?_split _ l1 l2 a hp1 hpa,
    updateFirst_split _ _ l1 l2 a hp1 hpa]
  simp [withResetToken]

theorem resetPassword_split (B : Backend) (env : Env) (l1 l2 : List User) (a : User)
    (token password : String) (hp : 6 ≤ password.length)
    (ha : liveToken (B.hashToken token) env.now a = true)
    (h1 : ∀ v ∈ l1, liveToken (B.hashToken token) env.now v = false) :
    resetPassword B env (l1 ++ a :: l2) token password =
      ({ status := 200, success := true, message := none, token := none,
         user := none, resetToken := none },
       l1 ++ withNewPassword B env password a :: l2) := by
  have hp' : ¬ password.length < 6 := by omega
  simp only [resetPassword, hp', find?_split _ l1 l2 a h1 ha,
    updateFirst_split _ _ l1 l2 a h1 ha]
  simp [withNewPassword]

theorem liveToken_false_of_ne (h : String) (now : Nat) (u : User)
    (hne : u.resetTokenHash ≠ some h) : liveToken h now u = false := by
  simp [liveToken, hne]

theorem liveToken_withResetToken (B : Backend) (env : Env) (now : Nat) (u : User)
    (hlt : now < env.now + B.resetTtl) :
    liveToken (B.hashToken env.secret) now (withResetToken B env u) = true := by
  simp [liveToken, withResetToken, hlt]

/-- The round trip when login does not try the email first and another
account has the email as its username.  After the two signups of
`crossStore`, the second account (email "b@x.com", password "bbbbbb")
requests a reset, receives the token "tok-1" and resets its password to
"newpass1" at once; the reset answers 200, but the login with its email and
the new password is answered 401, both with the single-query and with the
username-first lookup, because the identifier finds the first account by its
username. -/
theorem reset_shared_identifier :
    (requestReset (demoBackend .storeOrder) (demoEnv 300 "" "tok-1") crossStore
        "b@x.com").1.resetToken = some "tok-1" ∧
    (resetPassword (demoBackend .storeOrder) (demoEnv 301 "" "")
        (requestReset (demoBackend .storeOrder) (demoEnv 300 "" "tok-1") crossStore
          "b@x.com").2 "tok-1" "newpass1").1.status = 200 ∧
    (login (demoBackend .storeOrder) (demoEnv 302 "" "")
        (resetPassword (demoBackend .storeOrder) (demoEnv 301 "" "")
          (requestReset (demoBackend .storeOrder) (demoEnv 300 "" "tok-1") crossStore
            "b@x.com").2 "tok-1" "newpass1").2 "b@x.com" "newpass1").1
      = failure 401 "Invalid credentials" ∧
    (login (demoBackend .usernameFirst) (demoEnv 302 "" "")
        (resetPassword (demoBackend .usernameFirst) (demoEnv 301 "" "")
          (requestReset (demoBackend .usernameFirst) (demoEnv 300 "" "tok-1") crossStore
            "b@x.com").2 "tok-1" "newpass1").2 "b@x.com" "newpass1").1
      = failure 401 "Invalid credentials" := by
  decide

/-- Reset round trip of an account whose email belongs to it alone.  In a
store with unique usernames and emails, for an account whose stored email
`e` is a lower-case address that no other account uses as its username, a
password hash whose verification accepts the hashed password, and a reset
secret whose hash no record holds yet: forgot-password for `e` answers 200
with the secret as token; reset-password with that token and a new password
`q` of length at least 6, run on the resulting store before the expiry,
answers 200 with success true; afterwards login with `e` and `q` answers 200
with the user object of that account, and login with `e` and a non-empty
password `p` that does not verify against the new hash answers 401. -/
theorem reset_round_trip (B : Backend) (env1 env2 env3 env4 : Env) (s : Store)
    (acct : User) (p q : String)
    (hsound : PasswordHashSound B)
    (hold : B.verifyPassword p (B.hashPassword env2.salt q) = false)
    (hwf : WellFormed s) (hmem : acct ∈ s)
    (hemail : B.isEmail acct.email = true)
    (hnorm : normalizeEmail acct.email = acct.email) (he : acct.email ≠ "")
    (hfresh : ∀ v ∈ s, v.resetTokenHash ≠ some (B.hashToken env1.secret))
    (hq : 6 ≤ q.length) (hp : p ≠ "")
    (hlive : env2.now < env1.now + B.resetTtl)
    (hx : ∀ v ∈ s, v.username = acct.email → v = acct) :
    (requestReset B env1 s acct.email).1.status = 200 ∧
    (requestReset B env1 s acct.email).1.resetToken = some env1.secret ∧
    (resetPassword B env2 (requestReset B env1 s acct.email).2 env1.secret q).1.status = 200 ∧
    (resetPassword B env2 (requestReset B env1 s acct.email).2 env1.secret q).1.success
      = true ∧
    (login B env3
      (resetPassword B env2 (requestReset B env1 s acct.email).2 env1.secret q).2
      acct.email q).1
      = authSuccess 200 (B.mintSession acct.id env3.now) acct.id acct.username acct.email ∧
    (login B env4
      (resetPassword B env2 (requestReset B env1 s acct.email).2 env1.secret q).2
      acct.email p).1
      = failure 401 "Invalid credentials" := by
  obtain ⟨l1, l2, rfl⟩ := List.append_of_mem hmem
  have hen := nodup_map_middle User.email l1 l2 acct hwf.2
  have hr1 := requestReset_split B env1 l1 l2 acct acct.email hemail hnorm.symm
    (fun v hv => by rw [hnorm]; exact hen v (List.mem_append_left _ hv))
  rw [hr1]
  have hr2 := resetPassword_split B env2 l1 l2 (withResetToken B env1 acct) env1.secret q hq
    (liveToken_withResetToken B env1 env2.now acct hlive)
    (fun v hv => liveToken_false_of_ne _ _ v (hfresh v (List.mem_append_left _ hv)))
  rw [hr2]
  have hq0 : q ≠ "" := by
    intro h
    rw [h] at hq
    simp at hq
  have hfind : findByLogin B.lookupOrder
      (l1 ++ withNewPassword B env2 q (withResetToken B env1 acct) :: l2) acct.email
      = some (withNewPassword B env2 q (withResetToken B env1 acct)) := by
    apply findByLogin_split
    · intro v hv
      refine ⟨fun h => ?_, hen v hv⟩
      have := hx v (mem_split_of_mem l1 l2 acct v hv) h
      exact hen v hv (by rw [this])
    · exact Or.inr rfl
  have hvq : B.verifyPassword q
      (withNewPassword B env2 q (withResetToken B env1 acct)).passwordHash = true :=
    hsound env2.salt q
  have hvp : B.verifyPassword p
      (withNewPassword B env2 q (withResetToken B env1 acct)).passwordHash = false :=
    hold
  refine ⟨rfl, rfl, rfl, rfl, ?_, ?_⟩
  · rw [login_found_ok B env3 _ acct.email q _ he hq0 hfind hvq]
    rfl
  · rw [login_found_wrong B env4 _ acct.email p _ he hp hfind hvp]

theorem demoBackend_sound (o : LookupOrder) : PasswordHashSound (demoBackend o) := by
  intro salt p
  simp [demoBackend]

theorem reset_round_trip_example :
    (login (demoBackend .storeOrder) (demoEnv 302 "" "")
      (resetPassword (demoBackend .storeOrder) (demoEnv 301 "" "")
        (requestReset (demoBackend .storeOrder) (demoEnv 300 "" "tok-1") aliceStore
          "a@x.com").2 "tok-1" "newpass1").2 "a@x.com" "newpass1").1.status = 200 ∧
    (login (demoBackend .storeOrder) (demoEnv 303 "" "")
      (resetPassword (demoBackend .storeOrder) (demoEnv 301 "" "")
        (requestReset (demoBackend .storeOrder) (demoEnv 300 "" "tok-1") aliceStore
          "a@x.com").2 "tok-1" "newpass1").2 "a@x.com" "secret1").1.status = 401 :=
  have h := reset_round_trip (demoBackend .storeOrder)
    (demoEnv 300 "" "tok-1") (demoEnv 301 "" "") (demoEnv 302 "" "") (demoEnv 303 "" "")
    aliceStore
    { id := "id-1", username := "alice", email := "a@x.com", passwordHash := "pw$secret1",
      resetTokenHash := none, resetTokenExpiry := none } "secret1" "newpass1"
    (demoBackend_sound _) (by decide)
    (by decide) (by decide) (by decide) (by decide) (by decide) (by decide)
    (by decide) (by decide) (by decide) (by decide)
  ⟨congrArg Response.status h.2.2.2.2.1, congrArg Response.status h.2.2.2.2.2⟩

/-! ### Backend: short passwords (C5) -/

/-- C5: a password of fewer than 6 characters is rejected at signup and at
reset-password with status 400 and success false, and the store is left as
it was: no record is created, and after the failed reset every record has
the password hash and reset-token fields it had before, so that a later
reset-password with the same token answers exactly as it would have on the
store before the failed attempt (200 when the token is still unexpired and
the new password has length at least 6). -/
theorem short_password_rejected (B : Backend) (env : Env) (s : Store)
    (i : SignupInput) (token password : String)
    (hi : i.password.length < 6) (hpw : password.length < 6) :
    (signup B env s i).1.status = 400 ∧ (signup B env s i).1.success = false ∧
    (signup B env s i).2 = s ∧
    (resetPassword B env s token password).1.status = 400 ∧
    (resetPassword B env s token password).1.success = false ∧
    (resetPassword B env s token password).2 = s ∧
    (∀ (env2 : Env) (q : String),
      resetPassword B env2 (resetPassword B env s token password).2 token q
        = resetPassword B env2 s token q) ∧
    (∀ (env2 : Env) (q : String), 6 ≤ q.length →
      (∃ u ∈ s, liveToken (B.hashToken token) env2.now u = true) →
      (resetPassword B env2 (resetPassword B env s token password).2 token q).1.status
        = 200) := by
  have hs : signupInvalid B i ≠ [] := by
    simp [signupInvalid, hi]
  have e1 : signup B env s i = (failure 400 (B.validationMessage (signupInvalid B i)), s) := by
    simp [signup, hs]
  have e2 : resetPassword B env s token password
      = (failure 400 (B.validationMessage ["password"]), s) := by
    simp [resetPassword, hpw]
  rw [e1, e2]
  refine ⟨rfl, rfl, rfl, rfl, rfl, rfl, fun _ _ => rfl, ?_⟩
  intro env2 q hq ⟨u, hu, hlive⟩
  have hq' : ¬ q.length < 6 := by omega
  cases hf : s.find? (liveToken (B.hashToken token) env2.now) with
  | none =>
    rw [List.find?_eq_none] at hf
    exact absurd hlive (hf u hu)
  | some v =>
    simp [resetPassword, hq', hf]

theorem short_password_rejected_witness :
    (signup (demoBackend .storeOrder) (demoEnv 301 "id-2" "") aliceResetStore
      { username := "testuser", email := "test@example.com", password := "12345" }).2
      = aliceResetStore ∧
    (resetPassword (demoBackend .storeOrder) (demoEnv 301 "id-2" "") aliceResetStore
      "tok-1" "12345").1.status = 400 ∧
    (resetPassword (demoBackend .storeOrder) (demoEnv 302 "" "")
      (resetPassword (demoBackend .storeOrder) (demoEnv 301 "id-2" "") aliceResetStore
        "tok-1" "12345").2 "tok-1" "newpass1").1.status = 200 :=
  have h := short_password_rejected (demoBackend .storeOrder) (demoEnv 301 "id-2" "")
    aliceResetStore { username := "testuser", email := "test@example.com", password := "12345" }
    "tok-1" "12345" (by decide) (by decide)
  ⟨h.2.2.1, h.2.2.2.1, h.2.2.2.2.2.2.2 (demoEnv 302 "" "") "newpass1" (by decide) (by decide)⟩

/-! ### Backend: the user object of a response (C8) -/

theorem authSuccess_carries (status : Nat) (token id username email : String) (u : User)
    (h1 : u.id = id) (h2 : u.username = username) (h3 : u.email = email) :
    CarriesAccount (authSuccess status token id username email) u := by
  subst h1 h2 h3
  exact ⟨_, rfl, by simp [publicUser], by simp [publicUser, field],
    by simp [publicUser, field], by simp [publicUser, field], by simp [publicUser, field]⟩

/-- C8: every successful signup and every successful login answers with a
user object whose fields are exactly id, username and email of the stored
account (the record just created, respectively the record found by the
identifier), with no password field; the whole body is the success body
built from the session token and these three values, so the password hash
is no part of it. -/
theorem auth_user_object (B : Backend) (env : Env) (s : Store) :
    (∀ i : SignupInput, (signup B env s i).1.success = true →
      ∃ u ∈ (signup B env s i).2, u ∉ s ∧
        CarriesAccount (signup B env s i).1 u ∧
        (signup B env s i).1 =
          authSuccess 201 (B.mintSession u.id env.now) u.id u.username u.email) ∧
    (∀ ident password : String, (login B env s ident password).1.success = true →
      ∃ u ∈ s, (u.username = ident ∨ u.email = ident) ∧
        CarriesAccount (login B env s ident password).1 u ∧
        (login B env s ident password).1 =
          authSuccess 200 (B.mintSession u.id env.now) u.id u.username u.email) := by
  refine ⟨?_, ?_⟩
  · intro i h
    unfold signup at h ⊢
    split at h
    · simp [failure] at h
    · split at h
      · simp [failure] at h
      · split at h
        · simp [failure] at h
        · rename_i h1 h2 h3
          rw [if_neg h1, if_neg h2, if_neg h3]
          refine ⟨_, List.mem_append_right _ (List.mem_singleton_self _), ?_,
            authSuccess_carries 201 _ _ _ _ _ rfl rfl rfl, rfl⟩
          intro hmem
          apply h2
          exact List.any_eq_true.mpr ⟨_, hmem, by simp⟩
  · intro ident password h
    unfold login at h ⊢
    split at h
    · simp [failure] at h
    · rename_i h1
      simp only [h1, if_false]
      cases hf : findByLogin B.lookupOrder s ident with
      | none => simp [hf, failure] at h
      | some u =>
        have hu := findByLogin_some _ _ _ _ hf
        by_cases hv : B.verifyPassword password u.passwordHash = true
        · refine ⟨u, hu.1, hu.2, ?_, by simp [hv]⟩
          simp only [hv, if_true]
          exact authSuccess_carries 200 _ _ _ _ u rfl rfl rfl
        · simp [hf, hv, failure] at h

theorem auth_user_object_witness :
    (∃ u ∈ (signup (demoBackend .storeOrder) (demoEnv 200 "id-2" "") aliceStore
          { username := "bob", email := "b@x.com", password := "secret2" }).2,
      u ∉ aliceStore ∧
      CarriesAccount (signup (demoBackend .storeOrder) (demoEnv 200 "id-2" "") aliceStore
          { username := "bob", email := "b@x.com", password := "secret2" }).1 u ∧
      (signup (demoBackend .storeOrder) (demoEnv 200 "id-2" "") aliceStore
          { username := "bob", email := "b@x.com", password := "secret2" }).1
        = authSuccess 201 ((demoBackend .storeOrder).mintSession u.id 200)
            u.id u.username u.email) ∧
    (∃ u ∈ aliceStore, (u.username = "alice" ∨ u.email = "alice") ∧
      CarriesAccount
        (login (demoBackend .storeOrder) (demoEnv 300 "" "") aliceStore "alice" "secret1").1 u ∧
      (login (demoBackend .storeOrder) (demoEnv 300 "" "") aliceStore "alice" "secret1").1
        = authSuccess 200 ((demoBackend .storeOrder).mintSession u.id 300)
            u.id u.username u.email) :=
  ⟨(auth_user_object (demoBackend .storeOrder) (demoEnv 200 "id-2" "") aliceStore).1
      { username := "bob", email := "b@x.com", password := "secret2" } (by decide),
   (auth_user_object (demoBackend .storeOrder) (demoEnv 300 "" "") aliceStore).2
      "alice" "secret1" (by decide)⟩

/-! ### Backend: reset tokens over request traces (C6) -/

theorem liveToken_holds (h : String) (now : Nat) (u : User)
    (hl : liveToken h now u = true) : holds h u = true := by
  simp only [liveToken, Bool.and_eq_true] at hl
  simpa [holds] using hl.1

theorem mem_updateFirst (p : User → Bool) (f : User → User) (s : Store) (v : User)
    (hv : v ∈ updateFirst p f s) : v ∈ s ∨ ∃ u ∈ s, p u = true ∧ v = f u := by
  induction s with
  | nil => simp [updateFirst] at hv
  | cons a as ih =>
    by_cases hpa : p a = true
    · rw [updateFirst, if_pos hpa, List.mem_cons] at hv
      rcases hv with h1 | h1
      · exact Or.inr ⟨a, List.mem_cons_self _ _, hpa, h1⟩
      · exact Or.inl (List.mem_cons_of_mem _ h1)
    · rw [updateFirst, if_neg hpa, List.mem_cons] at hv
      rcases hv with h1 | h1
      · exact Or.inl (by rw [h1]; exact List.mem_cons_self _ _)
      · rcases ih h1 with h2 | ⟨u, hu, hpu, hfu⟩
        · exact Or.inl (List.mem_cons_of_mem _ h2)
        · exact Or.inr ⟨u, List.mem_cons_of_mem _ hu, hpu, hfu⟩

theorem map_email_updateFirst (p : User → Bool) (f : User → User) (s : Store)
    (hf : ∀ u, (f u).email = u.email) :
    (updateFirst p f s).map User.email = s.map User.email := by
  induction s with
  | nil => rfl
  | cons a as ih =>
    by_cases hpa : p a = true
    · simp [updateFirst, hpa, hf]
    · simp [updateFirst, hpa, ih]

theorem map_username_updateFirst (p : User → Bool) (f : User → User) (s : Store)
    (hf : ∀ u, (f u).username = u.username) :
    (updateFirst p f s).map User.username = s.map User.username := by
  induction s with
  | nil => rfl
  | cons a as ih =>
    by_cases hpa : p a = true
    · simp [updateFirst, hpa, hf]
    · simp [updateFirst, hpa, ih]

/-- An update whose image never holds `h` does not add holders of `h`. -/
theorem countP_updateFirst_le (h : String) (p : User → Bool) (f : User → User) (s : Store)
    (hf : ∀ u, holds h (f u) = false) :
    (updateFirst p f s).countP (holds h) ≤ s.countP (holds h) := by
  induction s with
  | nil => simp [updateFirst]
  | cons a as ih =>
    by_cases hpa : p a = true
    · rw [updateFirst, if_pos hpa, List.countP_cons, List.countP_cons, hf]
      simp
    · rw [updateFirst, if_neg hpa, List.countP_cons, List.countP_cons]
      omega

/-- An update of a holder of `h` whose image does not hold `h` removes one
holder. -/
theorem countP_updateFirst_consume (h : String) (p : User → Bool) (f : User → User)
    (s : Store) (hp : ∀ u, p u = true → holds h u = true)
    (hf : ∀ u, holds h (f u) = false) (hex : ∃ u ∈ s, p u = true) :
    (updateFirst p f s).countP (holds h) + 1 = s.countP (holds h) := by
  induction s with
  | nil => simp at hex
  | cons a as ih =>
    by_cases hpa : p a = true
    · rw [updateFirst, if_pos hpa, List.countP_cons, List.countP_cons, hf, hp a hpa]
      simp
    · obtain ⟨u, hu, hpu⟩ := hex
      have hu2 : u ∈ as := by
        rcases List.mem_cons.mp hu with h1 | h1
        · subst h1
          exact absurd hpu hpa
        · exact h1
      have := ih ⟨u, hu2, hpu⟩
      rw [updateFirst, if_neg hpa, List.countP_cons, List.countP_cons]
      omega

/-- Any single update adds at most one holder of `h`. -/
theorem countP_updateFirst_le_succ (h : String) (p : User → Bool) (f : User → User)
    (s : Store) : (updateFirst p f s).countP (holds h) ≤ s.countP (holds h) + 1 := by
  induction s with
  | nil => simp [updateFirst]
  | cons a as ih =>
    by_cases hpa : p a = true
    · rw [updateFirst, if_pos hpa, List.countP_cons, List.countP_cons]
      split <;> split <;> omega
    · rw [updateFirst, if_neg hpa, List.countP_cons, List.countP_cons]
      omega

/-- A request that does not store the hash `h` does not add holders of
`h`. -/
theorem handle_countP_le (B : Backend) (h : String) (env : Env) (s : Store) (r : Request)
    (hr : issues B h (env, r) = false) :
    (handle B env s r).2.countP (holds h) ≤ s.countP (holds h) := by
  cases r with
  | signup i =>
    simp only [handle, signup]
    split
    · exact Nat.le_refl _
    · split
      · exact Nat.le_refl _
      · split
        · exact Nat.le_refl _
        · simp [holds]
  | login ident password =>
    simp only [handle, login_store]
    exact Nat.le_refl _
  | forgotPassword email =>
    simp only [issues, decide_eq_false_iff_not] at hr
    simp only [handle, requestReset]
    split
    · exact Nat.le_refl _
    · split
      · exact Nat.le_refl _
      · apply countP_updateFirst_le
        intro u
        simpa [holds] using hr
  | resetPassword token password =>
    simp only [handle, resetPassword]
    split
    · exact Nat.le_refl _
    · split
      · exact Nat.le_refl _
      · apply countP_updateFirst_le
        intro u
        simp [holds]

theorem run_countP_le (B : Backend) (h : String) (tr : List (Env × Request)) (s : Store)
    (htr : ∀ er ∈ tr, issues B h er = false) :
    (run B s tr).countP (holds h) ≤ s.countP (holds h) := by
  induction tr generalizing s with
  | nil => exact Nat.le_refl _
  | cons er rest ih =>
    have h1 := handle_countP_le B h er.1 s er.2 (htr er (List.mem_cons_self _ _))
    have h2 := ih (handle B er.1 s er.2).2 (fun x hx => htr x (List.mem_cons_of_mem _ hx))
    simp only [run]
    omega

theorem countP_holds_eq_zero (h : String) (s : Store)
    (hs : ∀ v ∈ s, v.resetTokenHash ≠ some h) : s.countP (holds h) = 0 := by
  rw [List.countP_eq_zero]
  intro a ha
  simpa [holds] using hs a ha

/-- With no holder of the hash of `token` in the store, a reset-password with
a password of length at least 6 is answered 400 "Invalid or expired token"
and changes nothing. -/
theorem resetPassword_no_holder (B : Backend) (env : Env) (s : Store)
    (token password : String) (hp : 6 ≤ password.length)
    (h0 : s.countP (holds (B.hashToken token)) = 0) :
    resetPassword B env s token password = (failure 400 "Invalid or expired token", s) := by
  have hp2 : ¬ password.length < 6 := by omega
  rw [List.countP_eq_zero] at h0
  have hnone : s.find? (liveToken (B.hashToken token) env.now) = none := by
    rw [List.find?_eq_none]
    intro x hx hl
    exact h0 x hx (liveToken_holds _ _ _ hl)
  simp [resetPassword, hp2, hnone]

/-- A successful reset-password removes one holder of the hash of its
token. -/
theorem resetPassword_success_consumes (B : Backend) (env : Env) (s : Store)
    (token password : String)
    (hok : (resetPassword B env s token password).1.success = true) :
    (resetPassword B env s token password).2.countP (holds (B.hashToken token)) + 1
      = s.countP (holds (B.hashToken token)) := by
  unfold resetPassword at hok ⊢
  split at hok
  · simp [failure] at hok
  · rename_i h1
    simp only [h1, if_false]
    cases hf : s.find? (liveToken (B.hashToken token) env.now) with
    | none => simp [hf, failure] at hok
    | some v =>
      simp only
      apply countP_updateFirst_consume
      · intro u hu
        exact liveToken_holds _ _ _ hu
      · intro u
        simp [holds]
      · exact ⟨v, List.mem_of_find?_eq_some hf, by simpa using List.find?_some hf⟩

theorem requestReset_countP_le_succ (B : Backend) (h : String) (env : Env) (s : Store)
    (email : String) :
    (requestReset B env s email).2.countP (holds h) ≤ s.countP (holds h) + 1 := by
  unfold requestReset
  split
  · exact Nat.le_succ _
  · split
    · exact Nat.le_succ _
    · exact countP_updateFirst_le_succ _ _ _ _

/-- The counting argument behind single use.  Let forgot-password draw a
secret whose hash no record held before, and let a reset-password with that
token succeed at some later point; as long as no request in between or
afterwards draws a secret with the same hash, no record holds the hash any
more, and a reset-password with that token and a password of length at
least 6 is answered 400 "Invalid or expired token" and leaves the store
unchanged. -/
theorem consumed_token_rejected (B : Backend) (s0 : Store) (env1 : Env) (email : String)
    (tr1 : List (Env × Request)) (env2 : Env) (q : String)
    (tr2 : List (Env × Request)) (env3 : Env) (q2 : String)
    (hfresh : ∀ v ∈ s0, v.resetTokenHash ≠ some (B.hashToken env1.secret))
    (htr1 : ∀ er ∈ tr1, issues B (B.hashToken env1.secret) er = false)
    (hok : (resetPassword B env2 (run B (requestReset B env1 s0 email).2 tr1)
              env1.secret q).1.success = true)
    (htr2 : ∀ er ∈ tr2, issues B (B.hashToken env1.secret) er = false)
    (hq2 : 6 ≤ q2.length) :
    resetPassword B env3
        (run B (resetPassword B env2 (run B (requestReset B env1 s0 email).2 tr1)
          env1.secret q).2 tr2) env1.secret q2
      = (failure 400 "Invalid or expired token",
         run B (resetPassword B env2 (run B (requestReset B env1 s0 email).2 tr1)
          env1.secret q).2 tr2) := by
  have c0 := countP_holds_eq_zero _ s0 hfresh
  have c1 := requestReset_countP_le_succ B (B.hashToken env1.secret) env1 s0 email
  have c2 := run_countP_le B _ tr1 (requestReset B env1 s0 email).2 htr1
  have c3 := resetPassword_success_consumes B env2 _ env1.secret q hok
  have c4 := run_countP_le B _ tr2
    (resetPassword B env2 (run B (requestReset B env1 s0 email).2 tr1) env1.secret q).2 htr2
  apply resetPassword_no_holder B env3 _ env1.secret q2 hq2
  omega

theorem run_append (B : Backend) (s : Store) (tr1 tr2 : List (Env × Request)) :
    run B s (tr1 ++ tr2) = run B (run B s tr1) tr2 := by
  induction tr1 generalizing s with
  | nil => rfl
  | cons er rest ih => exact ih (handle B er.1 s er.2).2

theorem issues_of_drawnHash (B : Backend) (h : String) (er : Env × Request)
    (hne : drawnHash B er ≠ some h) : issues B h er = false := by
  obtain ⟨env, r⟩ := er
  cases r with
  | signup i => rfl
  | login ident password => rfl
  | forgotPassword email =>
    simp only [drawnHash, ne_eq, Option.some.injEq] at hne
    simpa [issues] using hne
  | resetPassword token password => rfl

theorem issues_of_not_drawn (B : Backend) (h : String) (tr : List (Env × Request))
    (hn : h ∉ tr.filterMap (drawnHash B)) : ∀ er ∈ tr, issues B h er = false := by
  intro er her
  apply issues_of_drawnHash
  intro hd
  exact hn (List.mem_filterMap.mpr ⟨er, her, hd⟩)

/-- The token of a forgot-password response is the secret drawn for the
request. -/
theorem requestReset_token (B : Backend) (env : Env) (s : Store) (email t : String)
    (h : (requestReset B env s email).1.resetToken = some t) : t = env.secret := by
  unfold requestReset at h
  split at h
  · simp [failure] at h
  · split at h
    · simp [failure] at h
    · simpa using h.symm

/-- From the empty store, a hash that no request of the trace has drawn is
held by no record. -/
theorem run_no_holder (B : Backend) (h : String) (tr : List (Env × Request))
    (hn : h ∉ tr.filterMap (drawnHash B)) :
    ∀ v ∈ run B [] tr, v.resetTokenHash ≠ some h := by
  have hc := run_countP_le B h tr [] (issues_of_not_drawn B h tr hn)
  have h0 : (run B [] tr).countP (holds h) = 0 := by
    simpa using hc
  rw [List.countP_eq_zero] at h0
  intro v hv hvh
  exact h0 v hv (by simp [holds, hvh])

/-- The hashes drawn around a forgot-password in a run with random secrets:
the hash of that request is drawn by no request before it and by none after
it. -/
theorem randomSecrets_split (B : Backend) (tr0 rest : List (Env × Request))
    (env1 : Env) (email : String)
    (hr : RandomSecrets B (tr0 ++ (env1, .forgotPassword email) :: rest)) :
    B.hashToken env1.secret ∉ tr0.filterMap (drawnHash B) ∧
    B.hashToken env1.secret ∉ rest.filterMap (drawnHash B) := by
  unfold RandomSecrets at hr
  rw [List.filterMap_append, List.filterMap_cons] at hr
  simp only [drawnHash] at hr
  rw [List.nodup_middle, List.nodup_cons] at hr
  constructor
  · intro hmem
    exact hr.1 (List.mem_append_left _ hmem)
  · intro hmem
    exact hr.1 (List.mem_append_right _ hmem)

/-- C6: reset tokens are single-use.  In every run of the service from the
empty store: when a forgot-password has issued the token `t` and a later
reset-password with `t` has succeeded, then after whatever requests follow,
every reset-password with `t` and a password of length at least 6, at any
time, is answered 400 "Invalid or expired token" and leaves the store, hence
every password hash, unchanged. -/
theorem reset_token_single_use (B : Backend) (x : Execution B)
    (tr0 : List (Env × Request)) (env1 : Env) (email t : String)
    (tr1 : List (Env × Request)) (env2 : Env) (q : String)
    (tr2 : List (Env × Request)) (env3 : Env) (q2 : String)
    (hrun : x.requests =
      tr0 ++ (env1, .forgotPassword email) :: (tr1 ++ (env2, .resetPassword t q) :: tr2))
    (hissued : (requestReset B env1 (run B [] tr0) email).1.resetToken = some t)
    (hok : (resetPassword B env2
              (run B [] (tr0 ++ (env1, .forgotPassword email) :: tr1)) t q).1.success = true)
    (hq2 : 6 ≤ q2.length) :
    resetPassword B env3 x.store t q2 = (failure 400 "Invalid or expired token", x.store) := by
  have ht := requestReset_token B env1 _ email t hissued
  subst ht
  have hr := x.random
  rw [hrun] at hr
  obtain ⟨hn0, hnrest⟩ := randomSecrets_split B tr0 _ env1 email hr
  rw [List.filterMap_append, List.filterMap_cons] at hnrest
  simp only [drawnHash] at hnrest
  have hn1 : B.hashToken env1.secret ∉ tr1.filterMap (drawnHash B) :=
    fun hmem => hnrest (List.mem_append_left _ hmem)
  have hn2 : B.hashToken env1.secret ∉ tr2.filterMap (drawnHash B) :=
    fun hmem => hnrest (List.mem_append_right _ hmem)
  have hstore : x.store =
      run B (resetPassword B env2
        (run B (requestReset B env1 (run B [] tr0) email).2 tr1) env1.secret q).2 tr2 := by
    unfold Execution.store
    rw [hrun, run_append]
    simp only [run, handle]
    rw [run_append]
    simp only [run, handle]
  have hok2 : (resetPassword B env2
      (run B (requestReset B env1 (run B [] tr0) email).2 tr1) env1.secret q).1.success
        = true := by
    rw [run_append] at hok
    simpa only [run, handle] using hok
  rw [hstore]
  exact consumed_token_rejected B (run B [] tr0) env1 email tr1 env2 q tr2 env3 q2
    (run_no_holder B _ tr0 hn0) (issues_of_not_drawn B _ tr1 hn1) hok2
    (issues_of_not_drawn B _ tr2 hn2) hq2

theorem reset_token_single_use_witness :
    (resetPassword (demoBackend .storeOrder) (demoEnv 500 "" "") demoRun.store
      "tok-1" "another1").1 = failure 400 "Invalid or expired token" ∧
    (resetPassword (demoBackend .storeOrder) (demoEnv 500 "" "") demoRun.store
      "tok-1" "another1").2 = demoRun.store :=
  have h := reset_token_single_use (demoBackend .storeOrder) demoRun
    [(demoEnv 100 "id-1" "",
       .signup { username := "alice", email := "a@x.com", password := "secret1" })]
    (demoEnv 300 "" "tok-1") "a@x.com" "tok-1"
    [(demoEnv 301 "id-2" "",
       .signup { username := "bob", email := "b@x.com", password := "secret2" })]
    (demoEnv 302 "" "") "newpass1"
    [(demoEnv 303 "" "tok-2", .forgotPassword "a@x.com"),
     (demoEnv 304 "" "", .login "alice" "newpass1")]
    (demoEnv 500 "" "") "another1"
    rfl (by decide) (by decide) (by decide)
  ⟨by rw [h], by rw [h]⟩

/-! ### Backend: a reset token superseded by a later one -/

theorem handle_emails_nodup (B : Backend) (env : Env) (s : Store) (r : Request)
    (hs : (s.map User.email).Nodup) : ((handle B env s r).2.map User.email).Nodup := by
  cases r with
  | signup i =>
    simp only [handle, signup]
    split
    · exact hs
    · split
      · exact hs
      · split
        · exact hs
        · rename_i h1 h2 h3
          simp only [List.map_append, List.map_cons, List.map_nil]
          rw [List.nodup_append]
          refine ⟨hs, List.nodup_singleton _, ?_⟩
          intro a ha1 ha2
          rw [List.mem_singleton] at ha2
          obtain ⟨u, hu, hue⟩ := List.mem_map.mp ha1
          apply h2
          exact List.any_eq_true.mpr ⟨u, hu, by simp [hue, ha2]⟩
  | login ident password =>
    simp only [handle, login_store]
    exact hs
  | forgotPassword email =>
    simp only [handle, requestReset]
    split
    · exact hs
    · split
      · exact hs
      · dsimp only
        rw [map_email_updateFirst]
        · exact hs
        · intro u
          rfl
  | resetPassword token password =>
    simp only [handle, resetPassword]
    split
    · exact hs
    · split
      · exact hs
      · dsimp only
        rw [map_email_updateFirst]
        · exact hs
        · intro u
          rfl

theorem handle_holdersAt (B : Backend) (h x : String) (env : Env) (s : Store) (r : Request)
    (hr : issues B h (env, r) = false) (hs : HoldersAt h x s) :
    HoldersAt h x (handle B env s r).2 := by
  cases r with
  | signup i =>
    simp only [handle, signup]
    split
    · exact hs
    · split
      · exact hs
      · split
        · exact hs
        · intro u hu huh
          rcases List.mem_append.mp hu with h1 | h1
          · exact hs u h1 huh
          · rw [List.mem_singleton] at h1
            subst h1
            simp at huh
  | login ident password =>
    simp only [handle, login_store]
    exact hs
  | forgotPassword email =>
    simp only [issues, decide_eq_false_iff_not] at hr
    simp only [handle, requestReset]
    split
    · exact hs
    · split
      · exact hs
      · intro u hu huh
        rcases mem_updateFirst _ _ _ _ hu with h1 | ⟨v, _, _, hv⟩
        · exact hs u h1 huh
        · subst hv
          simp only [Option.some.injEq] at huh
          exact absurd huh hr
  | resetPassword token password =>
    simp only [handle, resetPassword]
    split
    · exact hs
    · split
      · exact hs
      · intro u hu huh
        rcases mem_updateFirst _ _ _ _ hu with h1 | ⟨v, _, _, hv⟩
        · exact hs u h1 huh
        · subst hv
          simp at huh

theorem run_emails_nodup (B : Backend) (tr : List (Env × Request)) (s : Store)
    (hs : (s.map User.email).Nodup) : ((run B s tr).map User.email).Nodup := by
  induction tr generalizing s with
  | nil => exact hs
  | cons er rest ih => exact ih _ (handle_emails_nodup B er.1 s er.2 hs)

theorem run_holdersAt (B : Backend) (h x : String) (tr : List (Env × Request)) (s : Store)
    (htr : ∀ er ∈ tr, issues B h er = false) (hs : HoldersAt h x s) :
    HoldersAt h x (run B s tr) := by
  induction tr generalizing s with
  | nil => exact hs
  | cons er rest ih =>
    exact ih _ (fun y hy => htr y (List.mem_cons_of_mem _ hy))
      (handle_holdersAt B h x er.1 s er.2 (htr er (List.mem_cons_self _ _)) hs)

theorem handle_usernames_nodup (B : Backend) (env : Env) (s : Store) (r : Request)
    (hs : (s.map User.username).Nodup) : ((handle B env s r).2.map User.username).Nodup := by
  cases r with
  | signup i =>
    simp only [handle, signup]
    split
    · exact hs
    · split
      · exact hs
      · split
        · exact hs
        · rename_i h1 h2 h3
          simp only [List.map_append, List.map_cons, List.map_nil]
          rw [List.nodup_append]
          refine ⟨hs, List.nodup_singleton _, ?_⟩
          intro a ha1 ha2
          rw [List.mem_singleton] at ha2
          obtain ⟨u, hu, hue⟩ := List.mem_map.mp ha1
          apply h3
          exact List.any_eq_true.mpr ⟨u, hu, by simp [hue, ha2]⟩
  | login ident password =>
    simp only [handle, login_store]
    exact hs
  | forgotPassword email =>
    simp only [handle, requestReset]
    split
    · exact hs
    · split
      · exact hs
      · dsimp only
        rw [map_username_updateFirst]
        · exact hs
        · intro u
          rfl
  | resetPassword token password =>
    simp only [handle, resetPassword]
    split
    · exact hs
    · split
      · exact hs
      · dsimp only
        rw [map_username_updateFirst]
        · exact hs
        · intro u
          rfl

/-- The uniqueness invariants of the data model hold in the empty store and
are preserved by every request, hence hold after every trace. -/
theorem run_wellFormed (B : Backend) (tr : List (Env × Request)) (s : Store)
    (hs : WellFormed s) : WellFormed [] ∧ WellFormed (run B s tr) := by
  refine ⟨⟨List.nodup_nil, List.nodup_nil⟩, ?_⟩
  induction tr generalizing s with
  | nil => exact hs
  | cons er rest ih =>
    exact ih _ ⟨handle_usernames_nodup B er.1 s er.2 hs.1,
      handle_emails_nodup B er.1 s er.2 hs.2⟩

theorem requestReset_holdersAt (B : Backend) (h : String) (env : Env) (s : Store)
    (email : String) (hfresh : ∀ v ∈ s, v.resetTokenHash ≠ some h) :
    HoldersAt h (normalizeEmail email) (requestReset B env s email).2 := by
  unfold requestReset
  split
  · exact fun u hu huh => absurd huh (hfresh u hu)
  · split
    · exact fun u hu huh => absurd huh (hfresh u hu)
    · intro u hu _
      rcases mem_updateFirst _ _ _ _ hu with h1 | ⟨v, _, hpv, hv⟩
      · rename_i huh
        exact absurd huh (hfresh u h1)
      · subst hv
        simpa using hpv

/-- Overwriting the reset fields of the first record with email `x`, in a
store with distinct emails whose holders of `h` all have email `x`, leaves
no holder of `h`. -/
theorem updateFirst_supersedes (h x : String) (f : User → User) (s : Store)
    (hnd : (s.map User.email).Nodup) (hh : HoldersAt h x s)
    (hf : ∀ u, (f u).resetTokenHash ≠ some h) :
    ∀ v ∈ updateFirst (fun u => decide (u.email = x)) f s, v.resetTokenHash ≠ some h := by
  induction s with
  | nil => simp [updateFirst]
  | cons a as ih =>
    rw [List.map_cons, List.nodup_cons] at hnd
    have hh2 : HoldersAt h x as := fun u hu => hh u (List.mem_cons_of_mem _ hu)
    intro v hv
    by_cases hpa : a.email = x
    · have hpa2 : (fun u : User => decide (u.email = x)) a = true := by simpa using hpa
      rw [updateFirst, if_pos hpa2, List.mem_cons] at hv
      rcases hv with h1 | h1
      · rw [h1]
        exact hf a
      · intro hvh
        have hvx : v.email = x := hh2 v h1 hvh
        exact hnd.1 (List.mem_map.mpr ⟨v, h1, by rw [hvx, hpa]⟩)
    · have hpa2 : ¬ (fun u : User => decide (u.email = x)) a = true := by simpa using hpa
      rw [updateFirst, if_neg hpa2, List.mem_cons] at hv
      rcases hv with h1 | h1
      · intro hvh
        rw [h1] at hvh
        exact hpa (hh a (List.mem_cons_self _ _) hvh)
      · exact ih hnd.2 hh2 v h1

theorem requestReset_supersedes (B : Backend) (h : String) (env : Env) (s : Store)
    (email : String) (hnd : (s.map User.email).Nodup)
    (hh : HoldersAt h (normalizeEmail email) s)
    (hne : B.hashToken env.secret ≠ h)
    (hok : (requestReset B env s email).1.resetToken = some env.secret) :
    ∀ v ∈ (requestReset B env s email).2, v.resetTokenHash ≠ some h := by
  unfold requestReset at hok ⊢
  split at hok
  · simp [failure] at hok
  · rename_i h1
    simp only [h1, if_false]
    cases hf : s.find? (fun u => decide (u.email = normalizeEmail email)) with
    | none => simp [hf, failure] at hok
    | some w =>
      simp only
      apply updateFirst_supersedes h (normalizeEmail email) _ s hnd hh
      intro u
      simpa using hne

theorem exists_updateFirst (p : User → Bool) (f : User → User) (s : Store)
    (hex : ∃ u ∈ s, p u = true) : ∃ u ∈ s, p u = true ∧ f u ∈ updateFirst p f s := by
  induction s with
  | nil => simp at hex
  | cons a as ih =>
    by_cases hpa : p a = true
    · refine ⟨a, List.mem_cons_self _ _, hpa, ?_⟩
      rw [updateFirst, if_pos hpa]
      exact List.mem_cons_self _ _
    · obtain ⟨u, hu, hpu⟩ := hex
      have hu2 : u ∈ as := by
        rcases List.mem_cons.mp hu with h1 | h1
        · subst h1
          exact absurd hpu hpa
        · exact h1
      obtain ⟨w, hw, hpw, hfw⟩ := ih ⟨u, hu2, hpu⟩
      refine ⟨w, List.mem_cons_of_mem _ hw, hpw, ?_⟩
      rw [updateFirst, if_neg hpa]
      exact List.mem_cons_of_mem _ hfw

/-- After a successful forgot-password some record holds the hash of the
issued secret, unexpired until the lifetime has passed. -/
theorem requestReset_success_live (B : Backend) (env : Env) (s : Store) (email : String)
    (now : Nat) (hlt : now < env.now + B.resetTtl)
    (hok : (requestReset B env s email).1.resetToken = some env.secret) :
    ∃ v ∈ (requestReset B env s email).2,
      liveToken (B.hashToken env.secret) now v = true := by
  unfold requestReset at hok ⊢
  split at hok
  · simp [failure] at hok
  · rename_i h1
    simp only [h1, if_false]
    cases hf : s.find? (fun u => decide (u.email = normalizeEmail email)) with
    | none => simp [hf, failure] at hok
    | some w =>
      simp only
      obtain ⟨u, _, _, hfu⟩ := exists_updateFirst
        (fun u => decide (u.email = normalizeEmail email))
        (fun u => { u with resetTokenHash := some (B.hashToken env.secret),
                           resetTokenExpiry := some (env.now + B.resetTtl) }) s
        ⟨w, List.mem_of_find?_eq_some hf, by simpa using List.find?_some hf⟩
      exact ⟨_, hfu, by simp [liveToken, hlt]⟩

theorem resetPassword_ok_of_live (B : Backend) (env : Env) (s : Store)
    (token password : String) (hp : 6 ≤ password.length)
    (hex : ∃ u ∈ s, liveToken (B.hashToken token) env.now u = true) :
    (resetPassword B env s token password).1 =
      { status := 200, success := true, message := none, token := none,
        user := none, resetToken := none } := by
  have hp2 : ¬ password.length < 6 := by omega
  obtain ⟨u, hu, hlive⟩ := hex
  cases hf : s.find? (liveToken (B.hashToken token) env.now) with
  | none =>
    rw [List.find?_eq_none] at hf
    exact absurd hlive (hf u hu)
  | some v =>
    simp [resetPassword, hp2, hf]

/-- A superseded token with a short password: after "tok-1" and then "tok-2"
have been issued to alice, reset-password with the first token and the
password "12345" is answered 400 by the password validation, which comes
before the token check, with the validation message of the backend. -/
theorem reset_short_password_message :
    (requestReset (demoBackend .storeOrder) (demoEnv 300 "" "tok-1") aliceStore
      "a@x.com").1.resetToken = some "tok-1" ∧
    (requestReset (demoBackend .storeOrder) (demoEnv 310 "" "tok-2") aliceResetStore
      "a@x.com").1.resetToken = some "tok-2" ∧
    (resetPassword (demoBackend .storeOrder) (demoEnv 320 "" "") twoTokenStore
      "tok-1" "12345").1 = failure 400 "Validation failed: password" ∧
    (resetPassword (demoBackend .storeOrder) (demoEnv 320 "" "") twoTokenStore
      "tok-1" "12345").1.message ≠ some "Invalid or expired token" := by
  decide

/-- A reset token superseded by a later one of the same user.  In a store
with distinct emails, let forgot-password for an email issue a first secret
whose hash no record held before, and let a later forgot-password for the
same email succeed with a second secret of a different hash; whatever
requests are handled in between and afterwards, as long as none of them
draws a secret with the first hash again, reset-password with the first
token is answered 400 with success false for every password and leaves the
store unchanged, with the message "Invalid or expired token" when the
password has length at least 6; and reset-password with the second token
and a password of length at least 6, run on the store left by the second
forgot-password before the expiry, is answered 200 with success true. -/
theorem latest_reset_token_only (B : Backend) (s0 : Store) (env1 : Env) (email : String)
    (tr1 : List (Env × Request)) (env2 : Env) (tr2 : List (Env × Request))
    (env3 env4 : Env) (q qany q2 : String)
    (hwf : WellFormed s0)
    (hfresh : ∀ v ∈ s0, v.resetTokenHash ≠ some (B.hashToken env1.secret))
    (htr1 : ∀ er ∈ tr1, issues B (B.hashToken env1.secret) er = false)
    (hreq2 : (requestReset B env2 (run B (requestReset B env1 s0 email).2 tr1)
                email).1.resetToken = some env2.secret)
    (hdiff : B.hashToken env2.secret ≠ B.hashToken env1.secret)
    (htr2 : ∀ er ∈ tr2, issues B (B.hashToken env1.secret) er = false)
    (hq : 6 ≤ q.length) (hq2 : 6 ≤ q2.length)
    (hlive : env4.now < env2.now + B.resetTtl) :
    resetPassword B env3
        (run B (requestReset B env2 (run B (requestReset B env1 s0 email).2 tr1) email).2 tr2)
        env1.secret q
      = (failure 400 "Invalid or expired token",
         run B (requestReset B env2 (run B (requestReset B env1 s0 email).2 tr1) email).2
           tr2) ∧
    (resetPassword B env3
        (run B (requestReset B env2 (run B (requestReset B env1 s0 email).2 tr1) email).2 tr2)
        env1.secret qany).1.status = 400 ∧
    (resetPassword B env3
        (run B (requestReset B env2 (run B (requestReset B env1 s0 email).2 tr1) email).2 tr2)
        env1.secret qany).1.success = false ∧
    (resetPassword B env3
        (run B (requestReset B env2 (run B (requestReset B env1 s0 email).2 tr1) email).2 tr2)
        env1.secret qany).2
      = run B (requestReset B env2 (run B (requestReset B env1 s0 email).2 tr1) email).2
          tr2 ∧
    (resetPassword B env4
        (requestReset B env2 (run B (requestReset B env1 s0 email).2 tr1) email).2
        env2.secret q2).1
      = { status := 200, success := true, message := none, token := none,
          user := none, resetToken := none } := by
  have hnd1 : ((requestReset B env1 s0 email).2.map User.email).Nodup :=
    handle_emails_nodup B env1 s0 (.forgotPassword email) hwf.2
  have hnd2 := run_emails_nodup B tr1 _ hnd1
  have hh1 := requestReset_holdersAt B (B.hashToken env1.secret) env1 s0 email hfresh
  have hh2 := run_holdersAt B _ _ tr1 _ htr1 hh1
  have hnone := requestReset_supersedes B (B.hashToken env1.secret) env2 _ email hnd2 hh2
    hdiff hreq2
  have c0 := countP_holds_eq_zero _ _ hnone
  have c1 := run_countP_le B _ tr2
    (requestReset B env2 (run B (requestReset B env1 s0 email).2 tr1) email).2 htr2
  have c2 : (run B (requestReset B env2 (run B (requestReset B env1 s0 email).2 tr1)
      email).2 tr2).countP (holds (B.hashToken env1.secret)) = 0 := by omega
  have hlong := resetPassword_no_holder B env3 _ env1.secret q hq c2
  refine ⟨hlong, ?_, ?_, ?_, ?_⟩
  · by_cases hs : qany.length < 6
    · simp [resetPassword, hs, failure]
    · rw [resetPassword_no_holder B env3 _ env1.secret qany (by omega) c2]
      rfl
  · by_cases hs : qany.length < 6
    · simp [resetPassword, hs, failure]
    · rw [resetPassword_no_holder B env3 _ env1.secret qany (by omega) c2]
      rfl
  · by_cases hs : qany.length < 6
    · simp [resetPassword, hs]
    · rw [resetPassword_no_holder B env3 _ env1.secret qany (by omega) c2]
  · exact resetPassword_ok_of_live B env4 _ env2.secret q2 hq2
      (requestReset_success_live B env2 _ email env4.now hlive hreq2)

theorem latest_reset_token_only_example :
    (resetPassword (demoBackend .storeOrder) (demoEnv 320 "" "")
      (run (demoBackend .storeOrder)
        (requestReset (demoBackend .storeOrder) (demoEnv 310 "" "tok-2")
          (run (demoBackend .storeOrder) aliceResetStore
            [(demoEnv 305 "" "", .login "alice" "secret1")]) "a@x.com").2
        [(demoEnv 315 "id-2" "",
          .signup { username := "bob", email := "b@x.com", password := "secret2" })])
      "tok-1" "newpass1").1 = failure 400 "Invalid or expired token" ∧
    (resetPassword (demoBackend .storeOrder) (demoEnv 330 "" "")
      (requestReset (demoBackend .storeOrder) (demoEnv 310 "" "tok-2")
        (run (demoBackend .storeOrder) aliceResetStore
          [(demoEnv 305 "" "", .login "alice" "secret1")]) "a@x.com").2
      "tok-2" "newpass2").1.status = 200 :=
  have h := latest_reset_token_only (demoBackend .storeOrder) aliceStore
    (demoEnv 300 "" "tok-1") "a@x.com" [(demoEnv 305 "" "", .login "alice" "secret1")]
    (demoEnv 310 "" "tok-2")
    [(demoEnv 315 "id-2" "",
      .signup { username := "bob", email := "b@x.com", password := "secret2" })]
    (demoEnv 320 "" "") (demoEnv 330 "" "") "newpass1" "12345" "newpass2"
    (by decide) (by decide) (by decide) (by decide) (by decide) (by decide)
    (by decide) (by decide) (by decide)
  ⟨congrArg Prod.fst h.1, congrArg Response.status h.2.2.2.2⟩

/-! ### Backend: login of a registered account (C2) -/

theorem normalizeEmail_ne_empty (e : String) (he : e ≠ "") : normalizeEmail e ≠ "" := by
  intro h
  apply he
  have hd := congrArg String.data h
  simp only [normalizeEmail] at hd
  have : e.data = [] := by simpa using hd
  exact String.ext this

/-- A signup answered 201 has passed validation and has appended its
record. -/
theorem signup_created (B : Backend) (env : Env) (s : Store) (i : SignupInput)
    (hok : (signup B env s i).1.status = 201) :
    (signup B env s i).2 = s ++
      [{ id := env.newId, username := i.username, email := normalizeEmail i.email,
         passwordHash := B.hashPassword env.salt i.password,
         resetTokenHash := none, resetTokenExpiry := none }] ∧
    i.username ≠ "" ∧ 6 ≤ i.password.length := by
  unfold signup at hok ⊢
  by_cases hval : signupInvalid B i ≠ []
  · rw [if_pos hval] at hok
    simp [failure] at hok
  · rw [if_neg hval] at hok ⊢
    by_cases h2 : (s.any fun u => decide (u.email = normalizeEmail i.email)) = true
    · rw [if_pos h2] at hok
      simp [failure] at hok
    · rw [if_neg h2] at hok ⊢
      by_cases h3 : (s.any fun u => decide (u.username = i.username)) = true
      · rw [if_pos h3] at hok
        simp [failure] at hok
      · rw [if_neg h3]
        have hnil : signupInvalid B i = [] := by simpa using hval
        have hu : i.username ≠ "" := by
          intro h
          simp [signupInvalid, h] at hnil
        have hp : 6 ≤ i.password.length := by
          by_cases hlt : i.password.length < 6
          · simp [signupInvalid, hlt] at hnil
          · omega
        exact ⟨rfl, hu, hp⟩

/-- An update that keeps identifier, username and email keeps every account
in the store. -/
theorem updateFirst_keeps (p : User → Bool) (f : User → User) (s : Store)
    (hf : ∀ u, (f u).id = u.id ∧ (f u).username = u.username ∧ (f u).email = u.email)
    (v : User) (hv : v ∈ s) :
    ∃ w ∈ updateFirst p f s, w.id = v.id ∧ w.username = v.username ∧ w.email = v.email := by
  induction s with
  | nil => cases hv
  | cons a as ih =>
    by_cases hpa : p a = true
    · rw [updateFirst, if_pos hpa]
      rcases List.mem_cons.mp hv with h | h
      · subst h
        exact ⟨f v, List.mem_cons_self _ _, hf v⟩
      · exact ⟨v, List.mem_cons_of_mem _ h, rfl, rfl, rfl⟩
    · rw [updateFirst, if_neg hpa]
      rcases List.mem_cons.mp hv with h | h
      · subst h
        exact ⟨v, List.mem_cons_self _ _, rfl, rfl, rfl⟩
      · obtain ⟨w, hw, hid⟩ := ih h
        exact ⟨w, List.mem_cons_of_mem _ hw, hid⟩

/-- No request removes an account or changes its identifier, username or
email. -/
theorem handle_keeps (B : Backend) (env : Env) (s : Store) (r : Request)
    (v : User) (hv : v ∈ s) :
    ∃ w ∈ (handle B env s r).2,
      w.id = v.id ∧ w.username = v.username ∧ w.email = v.email := by
  cases r with
  | signup i =>
    simp only [handle, signup]
    split
    · exact ⟨v, hv, rfl, rfl, rfl⟩
    · split
      · exact ⟨v, hv, rfl, rfl, rfl⟩
      · split
        · exact ⟨v, hv, rfl, rfl, rfl⟩
        · exact ⟨v, List.mem_append_left _ hv, rfl, rfl, rfl⟩
  | login ident password =>
    simp only [handle, login_store]
    exact ⟨v, hv, rfl, rfl, rfl⟩
  | forgotPassword email =>
    simp only [handle, requestReset]
    split
    · exact ⟨v, hv, rfl, rfl, rfl⟩
    · split
      · exact ⟨v, hv, rfl, rfl, rfl⟩
      · dsimp only
        apply updateFirst_keeps
        · intro u
          exact ⟨rfl, rfl, rfl⟩
        · exact hv
  | resetPassword token password =>
    simp only [handle, resetPassword]
    split
    · exact ⟨v, hv, rfl, rfl, rfl⟩
    · split
      · exact ⟨v, hv, rfl, rfl, rfl⟩
      · dsimp only
        apply updateFirst_keeps
        · intro u
          exact ⟨rfl, rfl, rfl⟩
        · exact hv

theorem run_keeps (B : Backend) (tr : List (Env × Request)) (s : Store)
    (v : User) (hv : v ∈ s) :
    ∃ w ∈ run B s tr, w.id = v.id ∧ w.username = v.username ∧ w.email = v.email := by
  induction tr generalizing s v with
  | nil => exact ⟨v, hv, rfl, rfl, rfl⟩
  | cons er rest ih =>
    obtain ⟨w, hw, h1, h2, h3⟩ := handle_keeps B er.1 s er.2 v hv
    obtain ⟨w2, hw2, g1, g2, g3⟩ := ih (handle B er.1 s er.2).2 w hw
    exact ⟨w2, hw2, g1.trans h1, g2.trans h2, g3.trans h3⟩

/-- C2 as stated fails.  Signup asks of a username only that it is non-empty
and not taken, so the two signups of `sharedStore` are valid and succeed: the
first account has the username "b@x.com", the second has the email
"b@x.com", and both have the password "secret1".  The claim then asks the one
request login("b@x.com", "secret1") to return the user object of the first
account (its username) and that of the second (its email), which no login
function can do.  The login of the model returns the first account under the
single-query and the username-first lookup and the second under the
email-first lookup; with different passwords (`crossStore`) it answers 401 to
the second account's email and password, respectively to the first account's
username and password.  The two signups are answered 201 by every backend
whose address grammar accepts "a@x.com" and "b@x.com". -/
theorem login_registered_counterexample :
    (signup (demoBackend .storeOrder) (demoEnv 100 "id-1" "") []
      { username := "b@x.com", email := "a@x.com", password := "secret1" }).1.status = 201 ∧
    (signup (demoBackend .storeOrder) (demoEnv 200 "id-2" "")
      (signup (demoBackend .storeOrder) (demoEnv 100 "id-1" "") []
        { username := "b@x.com", email := "a@x.com", password := "secret1" }).2
      { username := "bob", email := "b@x.com", password := "secret1" }).1.status = 201 ∧
    sharedStore.map (fun u => (u.id, u.username, u.email))
      = [("id-1", "b@x.com", "a@x.com"), ("id-2", "bob", "b@x.com")] ∧
    (∀ (f : Env → Store → String → String → Response × Store) (env : Env),
      ¬ ((f env sharedStore "b@x.com" "secret1").1.user
            = some (publicUser "id-1" "b@x.com" "a@x.com") ∧
          (f env sharedStore "b@x.com" "secret1").1.user
            = some (publicUser "id-2" "bob" "b@x.com"))) ∧
    (login (demoBackend .storeOrder) (demoEnv 300 "" "") sharedStore "b@x.com" "secret1").1.user
      = some (publicUser "id-1" "b@x.com" "a@x.com") ∧
    (login (demoBackend .usernameFirst) (demoEnv 300 "" "") sharedStore "b@x.com"
        "secret1").1.user
      = some (publicUser "id-1" "b@x.com" "a@x.com") ∧
    (login (demoBackend .emailFirst) (demoEnv 300 "" "") sharedStore "b@x.com"
        "secret1").1.user
      = some (publicUser "id-2" "bob" "b@x.com") ∧
    (login (demoBackend .storeOrder) (demoEnv 300 "" "") crossStore "b@x.com" "bbbbbb").1
      = failure 401 "Invalid credentials" ∧
    (login (demoBackend .usernameFirst) (demoEnv 300 "" "") crossStore "b@x.com" "bbbbbb").1
      = failure 401 "Invalid credentials" ∧
    (login (demoBackend .emailFirst) (demoEnv 300 "" "") crossStore "b@x.com" "aaaaaa").1
      = failure 401 "Invalid credentials" ∧
    (∀ (B : Backend) (env1 env2 : Env),
      B.isEmail "a@x.com" = true → B.isEmail "b@x.com" = true →
      (signup B env1 []
        { username := "b@x.com", email := "a@x.com", password := "secret1" }).1.status = 201 ∧
      (signup B env2
        (signup B env1 []
          { username := "b@x.com", email := "a@x.com", password := "secret1" }).2
        { username := "bob", email := "b@x.com", password := "secret1" }).1.status = 201) := by
  refine ⟨by decide, by decide, by decide, ?_, by decide, by decide, by decide, by decide,
    by decide, by decide, ?_⟩
  · intro f env h
    have h2 := h.1.symm.trans h.2
    exact absurd h2 (by decide)
  · intro B env1 env2 h1 h2
    have n1 : normalizeEmail "a@x.com" = "a@x.com" := by decide
    have n2 : normalizeEmail "b@x.com" = "b@x.com" := by decide
    have hne : ¬ ("a@x.com" = "b@x.com") := by decide
    have hne2 : ¬ ("b@x.com" = "bob") := by decide
    have hlen : ¬ ("secret1".length < 6) := by decide
    constructor
    · simp [signup, signupInvalid, h1, authSuccess, hlen]
    · simp [signup, signupInvalid, h1, h2, n1, n2, hne, hne2, authSuccess, hlen]

/-- C2 (amended): login of a registered account whose identifiers belong to
it alone.  At any point of a run of the service from the empty store, for an
account created by a successful signup with username `u`, non-empty email
`e` and password `p`, whose stored password hash is still the one of the
signup, and provided no other account has `u` as its email and no other
account has the stored (lower-case) `e` as its username: login with `u` and
`p` and login with the stored `e` and `p` both answer 200, success true,
with a session token and the user object of that account, and leave the
store unchanged.  The verification path of the password hash is taken to
accept a password against its own hash. -/
theorem login_succeeds_for_registered (B : Backend)
    (tr0 : List (Env × Request)) (env0 : Env) (i : SignupInput)
    (tr1 : List (Env × Request)) (env : Env)
    (hsound : PasswordHashSound B)
    (hok : (signup B env0 (run B [] tr0) i).1.status = 201)
    (hkeep : ∀ v ∈ run B [] (tr0 ++ (env0, .signup i) :: tr1),
      v.username = i.username → v.passwordHash = B.hashPassword env0.salt i.password)
    (he : i.email ≠ "")
    (hx1 : ∀ v ∈ run B [] (tr0 ++ (env0, .signup i) :: tr1),
      v.email = i.username → v.username = i.username)
    (hx2 : ∀ v ∈ run B [] (tr0 ++ (env0, .signup i) :: tr1),
      v.username = normalizeEmail i.email → v.email = normalizeEmail i.email) :
    login B env (run B [] (tr0 ++ (env0, .signup i) :: tr1)) i.username i.password =
      ({ status := 200, success := true, message := none,
         token := some (B.mintSession env0.newId env.now),
         user := some [("id", env0.newId), ("username", i.username),
                       ("email", normalizeEmail i.email)],
         resetToken := none }, run B [] (tr0 ++ (env0, .signup i) :: tr1)) ∧
    login B env (run B [] (tr0 ++ (env0, .signup i) :: tr1)) (normalizeEmail i.email)
        i.password =
      ({ status := 200, success := true, message := none,
         token := some (B.mintSession env0.newId env.now),
         user := some [("id", env0.newId), ("username", i.username),
                       ("email", normalizeEmail i.email)],
         resetToken := none }, run B [] (tr0 ++ (env0, .signup i) :: tr1)) := by
  obtain ⟨hstore, hu, hplen⟩ := signup_created B env0 (run B [] tr0) i hok
  have hwf := (run_wellFormed B (tr0 ++ (env0, .signup i) :: tr1) []
    ⟨List.nodup_nil, List.nodup_nil⟩).2
  have hrun : run B [] (tr0 ++ (env0, .signup i) :: tr1)
      = run B ((signup B env0 (run B [] tr0) i).2) tr1 := by
    rw [run_append]
    rfl
  have hnew :
      ({ id := env0.newId, username := i.username, email := normalizeEmail i.email,
         passwordHash := B.hashPassword env0.salt i.password,
         resetTokenHash := none, resetTokenExpiry := none } : User)
        ∈ (signup B env0 (run B [] tr0) i).2 := by
    rw [hstore]
    exact List.mem_append_right _ (List.mem_singleton_self _)
  obtain ⟨a, ha, hid, hname, hmail⟩ := run_keeps B tr1 _ _ hnew
  rw [← hrun] at ha
  simp only at hid hname hmail
  have hhash := hkeep a ha hname
  have hp : i.password ≠ "" := by
    intro h
    rw [h] at hplen
    simp at hplen
  have hpw : B.verifyPassword i.password a.passwordHash = true := by
    rw [hhash]
    exact hsound env0.salt i.password
  have hua : a.username ≠ "" := by rw [hname]; exact hu
  have hea : a.email ≠ "" := by rw [hmail]; exact normalizeEmail_ne_empty _ he
  have hy1 : ∀ v ∈ run B [] (tr0 ++ (env0, .signup i) :: tr1),
      v.email = a.username → v = a := by
    intro v hv hve
    rw [hname] at hve
    exact List.inj_on_of_nodup_map hwf.1 hv ha ((hx1 v hv hve).trans hname.symm)
  have hy2 : ∀ v ∈ run B [] (tr0 ++ (env0, .signup i) :: tr1),
      v.username = a.email → v = a := by
    intro v hv hvu
    rw [hmail] at hvu
    exact List.inj_on_of_nodup_map hwf.2 hv ha ((hx2 v hv hvu).trans hmail.symm)
  have h := login_of_record B env _ a i.password hwf ha hpw hua hea hp hy1 hy2
  rw [hid, hname, hmail] at h
  exact h

theorem login_succeeds_for_registered_witness :
    (login (demoBackend .storeOrder) (demoEnv 400 "" "")
      (run (demoBackend .storeOrder) []
        ([(demoEnv 100 "id-1" "",
            .signup { username := "alice", email := "a@x.com", password := "secret1" }),
          (demoEnv 300 "" "tok-1", .forgotPassword "a@x.com")] ++
         (demoEnv 301 "id-2" "",
            .signup { username := "bob", email := "B@x.com", password := "secret2" }) ::
         [(demoEnv 302 "" "", .resetPassword "tok-1" "newpass1"),
          (demoEnv 303 "" "tok-2", .forgotPassword "a@x.com")]))
      "bob" "secret2").1.user = some (publicUser "id-2" "bob" "b@x.com") ∧
    (login (demoBackend .storeOrder) (demoEnv 400 "" "")
      (run (demoBackend .storeOrder) []
        ([(demoEnv 100 "id-1" "",
            .signup { username := "alice", email := "a@x.com", password := "secret1" }),
          (demoEnv 300 "" "tok-1", .forgotPassword "a@x.com")] ++
         (demoEnv 301 "id-2" "",
            .signup { username := "bob", email := "B@x.com", password := "secret2" }) ::
         [(demoEnv 302 "" "", .resetPassword "tok-1" "newpass1"),
          (demoEnv 303 "" "tok-2", .forgotPassword "a@x.com")]))
      "b@x.com" "secret2").1.status = 200 :=
  have h := login_succeeds_for_registered (demoBackend .storeOrder)
    [(demoEnv 100 "id-1" "",
       .signup { username := "alice", email := "a@x.com", password := "secret1" }),
     (demoEnv 300 "" "tok-1", .forgotPassword "a@x.com")]
    (demoEnv 301 "id-2" "") { username := "bob", email := "B@x.com", password := "secret2" }
    [(demoEnv 302 "" "", .resetPassword "tok-1" "newpass1"),
     (demoEnv 303 "" "tok-2", .forgotPassword "a@x.com")]
    (demoEnv 400 "" "")
    (demoBackend_sound _) (by decide) (by decide) (by decide) (by decide) (by decide)
  ⟨congrArg (fun r => r.1.user) h.1, congrArg (fun r => r.1.status) h.2⟩

/-! ### Frontend: the login form (C9, C10) -/

theorem dropWhile_eq_nil_iff_all (s : JSString) :
    s.dropWhile isTrimmed = [] ↔ ∀ c ∈ s, isTrimmed c = true := by
  induction s with
  | nil => simp
  | cons a as ih =>
    by_cases ha : isTrimmed a = true
    · simp [List.dropWhile_cons, ha, ih]
    · simp [List.dropWhile_cons, ha]

/-- The trimmed string is empty exactly when every code unit is stripped. -/
theorem trim_eq_nil_iff (s : JSString) : trim s = [] ↔ ∀ c ∈ s, isTrimmed c = true := by
  unfold trim
  rw [List.reverse_eq_nil_iff, dropWhile_eq_nil_iff_all]
  constructor
  · intro h
    by_cases hd : s.dropWhile isTrimmed = []
    · exact (dropWhile_eq_nil_iff_all s).mp hd
    · exfalso
      have hne : s.dropWhile isTrimmed ≠ [] := hd
      have hhead := List.head_dropWhile_not isTrimmed s hne
      have hmem : (s.dropWhile isTrimmed).head hne ∈ (s.dropWhile isTrimmed).reverse :=
        List.mem_reverse.mpr (List.head_mem hne)
      rw [h _ hmem] at hhead
      exact absurd hhead (by simp)
  · intro h c hc
    rw [List.mem_reverse] at hc
    exact h c ((List.dropWhile_sublist isTrimmed).subset hc)

theorem js_required_ne_short :
    js "Password is required" ≠ js "Password must be at least 6 characters" := by
  decide

theorem newErrors_login (fd : FormData) :
    objGet (newErrors fd) "login" =
      if trim fd.login = [] then some (js "Username or email is required") else none := by
  unfold newErrors
  by_cases h1 : trim fd.login = [] <;> by_cases h2 : fd.password = [] <;>
    by_cases h3 : fd.password.length < 6 <;> simp [h1, h2, h3, objSet, objGet]

theorem newErrors_password (fd : FormData) :
    objGet (newErrors fd) "password" =
      if fd.password = [] then some (js "Password is required")
      else if fd.password.length < 6 then some (js "Password must be at least 6 characters")
      else none := by
  unfold newErrors
  by_cases h1 : trim fd.login = [] <;> by_cases h2 : fd.password = [] <;>
    by_cases h3 : fd.password.length < 6 <;> simp [h1, h2, h3, objSet, objGet]

theorem newErrors_keys (fd : FormData) :
    objKeys (newErrors fd) =
      (if trim fd.login = [] then ["login"] else []) ++
      (if fd.password.length < 6 then ["password"] else []) := by
  unfold newErrors
  by_cases h1 : trim fd.login = [] <;> by_cases h2 : fd.password = [] <;>
    by_cases h3 : fd.password.length < 6 <;> simp [h1, h2, h3, objSet, objKeys]

/-- C9: login form validation.  For every state of the form, `validate`
returns true exactly when the trimmed login is non-empty and the password has
at least 6 UTF-16 code units; equivalently, when some code unit of the login
is not stripped by `trim`.  The login "testuser" with the password "12345"
is rejected, and neither `rememberMe` nor the rest of the component state
influences the result. -/
theorem login_validate_iff (st : LoginState) :
    ((validate st).1 = true ↔
      trim st.formData.login ≠ [] ∧ 6 ≤ st.formData.password.length) ∧
    ((validate st).1 = true ↔
      (∃ c ∈ st.formData.login, isTrimmed c = false) ∧ 6 ≤ st.formData.password.length) ∧
    (∀ (r : Bool) (errors : JSObject) (loading : Bool) (apiError : JSString),
      (validate
        { formData := { login := js "testuser", password := js "12345", rememberMe := r },
          errors := errors, loading := loading, apiError := apiError }).1 = false) ∧
    (∀ (r : Bool) (errors : JSObject) (loading : Bool) (apiError : JSString),
      (validate
        { formData := { st.formData with rememberMe := r },
          errors := errors, loading := loading, apiError := apiError }).1
        = (validate st).1) := by
  have key : (validate st).1 = true ↔
      trim st.formData.login ≠ [] ∧ 6 ≤ st.formData.password.length := by
    simp only [validate, newErrors_keys, decide_eq_true_eq]
    by_cases h1 : trim st.formData.login = []
    · simp [h1]
    · by_cases h3 : st.formData.password.length < 6
      · simp only [h1, h3, if_false, if_true, List.nil_append, List.length_singleton]
        constructor
        · intro h
          cases h
        · intro h
          omega
      · simp only [h1, h3, if_false, List.append_nil, List.length_nil, ne_eq,
          not_false_eq_true, true_and, true_iff]
        omega
  refine ⟨key, ?_, ?_, ?_⟩
  · rw [key]
    have : trim st.formData.login ≠ [] ↔ ∃ c ∈ st.formData.login, isTrimmed c = false := by
      rw [Ne, trim_eq_nil_iff]
      simp
    rw [this]
  · intro r errors loading apiError
    have h5 : (js "12345").length < 6 := by decide
    simp [validate, newErrors_keys, h5]
  · intro r errors loading apiError
    simp only [validate, newErrors_keys]

/-- C10: login form error messages.  For every state of the form, after
`validate` the `errors` object has the login message exactly when the
trimmed login is empty and no login entry otherwise; it has "Password is
required" exactly when the password is empty, "Password must be at least 6
characters" exactly when the password has 1 to 5 code units, and no password
entry exactly when it has at least 6.  The two fields are checked
independently: the keys of `errors` are the login key, if the trimmed login
is empty, followed by the password key, if the password is shorter than 6;
an empty form has both the login message and "Password is required"; and the
two password messages are different values, so `errors.password` is never
both. -/
theorem login_validate_errors (st : LoginState) :
    (objGet (validate st).2.errors "login" = some (js "Username or email is required") ↔
      trim st.formData.login = []) ∧
    (objGet (validate st).2.errors "login" = none ↔ trim st.formData.login ≠ []) ∧
    (objGet (validate st).2.errors "password" = some (js "Password is required") ↔
      st.formData.password = []) ∧
    (objGet (validate st).2.errors "password"
        = some (js "Password must be at least 6 characters") ↔
      1 ≤ st.formData.password.length ∧ st.formData.password.length ≤ 5) ∧
    (objGet (validate st).2.errors "password" = none ↔ 6 ≤ st.formData.password.length) ∧
    objKeys (validate st).2.errors =
      (if trim st.formData.login = [] then ["login"] else []) ++
      (if st.formData.password.length < 6 then ["password"] else []) ∧
    (∀ (r : Bool) (errors : JSObject) (loading : Bool) (apiError : JSString),
      (validate
        { formData := { login := [], password := [], rememberMe := r },
          errors := errors, loading := loading, apiError := apiError }).2.errors
        = [("login", js "Username or email is required"),
           ("password", js "Password is required")]) ∧
    ¬ (objGet (validate st).2.errors "password" = some (js "Password is required") ∧
       objGet (validate st).2.errors "password"
        = some (js "Password must be at least 6 characters")) := by
  have hne := js_required_ne_short
  have hl := newErrors_login st.formData
  have hp := newErrors_password st.formData
  have hlen : st.formData.password = [] ↔ st.formData.password.length = 0 :=
    List.length_eq_zero.symm
  simp only [validate]
  refine ⟨?_, ?_, ?_, ?_, ?_, newErrors_keys st.formData, ?_, ?_⟩
  · rw [hl]
    by_cases h1 : trim st.formData.login = [] <;> simp [h1]
  · rw [hl]
    by_cases h1 : trim st.formData.login = [] <;> simp [h1]
  · rw [hp]
    by_cases h2 : st.formData.password = []
    · simp [h2]
    · by_cases h3 : st.formData.password.length < 6
      · simp [h2, h3, Ne.symm hne]
      · simp [h2, h3]
  · rw [hp]
    by_cases h2 : st.formData.password = []
    · simp [h2, hne]
    · have h4 : st.formData.password.length ≠ 0 := fun h => h2 (hlen.mpr h)
      by_cases h3 : st.formData.password.length < 6
      · rw [if_neg h2, if_pos h3]
        exact ⟨fun _ => (by omega), fun _ => rfl⟩
      · rw [if_neg h2, if_neg h3]
        exact ⟨fun h => (by cases h), fun h => (by omega)⟩
  · rw [hp]
    by_cases h2 : st.formData.password = []
    · have h0 : st.formData.password.length = 0 := hlen.mp h2
      rw [if_pos h2]
      exact ⟨fun h => (by cases h), fun h => (by omega)⟩
    · by_cases h3 : st.formData.password.length < 6
      · rw [if_neg h2, if_pos h3]
        exact ⟨fun h => (by cases h), fun h => (by omega)⟩
      · rw [if_neg h2, if_neg h3]
        exact ⟨fun _ => (by omega), fun _ => rfl⟩
  · intro r errors loading apiError
    have ht : trim ([] : JSString) = [] := rfl
    simp [newErrors, objSet, ht]
  · rintro ⟨h1, h2⟩
    rw [h1] at h2
    exact hne (Option.some.inj h2)

/-! ### Frontend: submitting the login form (C11 to C15) -/

theorem validate_cleared (st : LoginState) :
    (validate { st with apiError := [] }).1 = (validate st).1 := rfl

theorem handleChange_loading (st : LoginState) (during : List ChangeEvent) :
    (during.foldl handleChange st).loading = st.loading := by
  induction during generalizing st with
  | nil => rfl
  | cons e es ih =>
    rw [List.foldl_cons, ih]
    rfl

theorem handleChange_apiError (st : LoginState) (during : List ChangeEvent)
    (h : st.apiError = []) : (during.foldl handleChange st).apiError = [] := by
  induction during generalizing st with
  | nil => exact h
  | cons e es ih =>
    rw [List.foldl_cons]
    exact ih _ rfl

theorem handleSubmit_valid (st : LoginState) (during : List ChangeEvent)
    (outcome : Settled LoginData) (hv : (validate st).1 = true) :
    handleSubmit st during outcome =
      ((handleSubmitSettled st.formData
          (during.foldl handleChange
            { (validate { st with apiError := [] }).2 with loading := true }) outcome).1,
       [.preventDefault, .stopPropagation,
        .post "/auth/login"
          [("login", st.formData.login), ("password", st.formData.password)]] ++
       (handleSubmitSettled st.formData
          (during.foldl handleChange
            { (validate { st with apiError := [] }).2 with loading := true }) outcome).2) := by
  have hv2 : (validate { st with apiError := [] }).1 = true := hv
  simp only [handleSubmit, handleSubmitSync, hv2, if_true]

theorem handleSubmit_resolved_effects (st : LoginState) (during : List ChangeEvent)
    (data : LoginData) (hv : (validate st).1 = true) :
    (handleSubmit st during (.resolved data)).2 =
      [.preventDefault, .stopPropagation,
       .post "/auth/login"
         [("login", st.formData.login), ("password", st.formData.password)]] ++
      loginWrites st.formData.rememberMe data ++ [.navigate "/home"] := by
  rw [handleSubmit_valid st during _ hv]
  simp only [handleSubmitSettled, loginWrites, List.append_assoc]

theorem getItem_token_after_writes (token user : JSString) :
    Storage.getItem (Storage.setItem (Storage.setItem [] (js "token") token) (js "user") user)
      (js "token") = some token := by
  have hne : js "token" ≠ js "user" := by decide
  simp [Storage.setItem, Storage.getItem, hne]

/-- C11: remember-me storage choice.  For every valid login form and every
resolved response with token and user, the storage writes of `handleSubmit`
are exactly two: `token` and `user` (as `JSON.stringify` writes it) set in
`localStorage` when `rememberMe` of the submitted form is true, and in
`sessionStorage` when it is false; the other area is not written, so it is
left as it was.  Starting from empty storage areas, the token is afterwards
in exactly one of the two areas, the chosen one. -/
theorem login_remember_me_storage (st : LoginState) (during : List ChangeEvent)
    (data : LoginData) (b : Browser) (hv : (validate st).1 = true) :
    (handleSubmit st during (.resolved data)).2.filter
        (fun e => e.writes .localStorage || e.writes .sessionStorage)
      = (if st.formData.rememberMe then
          [.setItem .localStorage (js "token") data.token,
           .setItem .localStorage (js "user") (jsonStringify data.user)]
        else
          [.setItem .sessionStorage (js "token") data.token,
           .setItem .sessionStorage (js "user") (jsonStringify data.user)]) ∧
    (b.performAll (handleSubmit st during (.resolved data)).2).localStorage
      = (if st.formData.rememberMe then
          Storage.setItem (Storage.setItem b.localStorage (js "token") data.token)
            (js "user") (jsonStringify data.user)
        else b.localStorage) ∧
    (b.performAll (handleSubmit st during (.resolved data)).2).sessionStorage
      = (if st.formData.rememberMe then b.sessionStorage
        else
          Storage.setItem (Storage.setItem b.sessionStorage (js "token") data.token)
            (js "user") (jsonStringify data.user)) ∧
    Storage.getItem
        (({ b with localStorage := [], sessionStorage := [] } : Browser).performAll
          (handleSubmit st during (.resolved data)).2).localStorage (js "token")
      = (if st.formData.rememberMe then some data.token else none) ∧
    Storage.getItem
        (({ b with localStorage := [], sessionStorage := [] } : Browser).performAll
          (handleSubmit st during (.resolved data)).2).sessionStorage (js "token")
      = (if st.formData.rememberMe then none else some data.token) := by
  rw [handleSubmit_resolved_effects st during data hv]
  have hg := getItem_token_after_writes data.token (jsonStringify data.user)
  cases hr : st.formData.rememberMe
  · refine ⟨?_, ?_, ?_, ?_, ?_⟩
    · simp [loginWrites, Effect.writes]
    · simp [loginWrites, Browser.performAll, Browser.perform]
    · simp [loginWrites, Browser.performAll, Browser.perform]
    · simp [loginWrites, Browser.performAll, Browser.perform, Storage.getItem]
    · simp only [loginWrites, Browser.performAll, Browser.perform, List.foldl_cons,
        List.foldl_nil, List.cons_append, List.nil_append, Bool.false_eq_true, if_false]
      exact hg
  · refine ⟨?_, ?_, ?_, ?_, ?_⟩
    · simp [loginWrites, Effect.writes]
    · simp [loginWrites, Browser.performAll, Browser.perform]
    · simp [loginWrites, Browser.performAll, Browser.perform]
    · simp only [loginWrites, Browser.performAll, Browser.perform, List.foldl_cons,
        List.foldl_nil, List.cons_append, List.nil_append, if_true]
      exact hg
    · simp [loginWrites, Browser.performAll, Browser.perform, Storage.getItem]

theorem login_remember_me_storage_witness :
    Storage.getItem
        (emptyBrowser.performAll
          (handleSubmit (filledLogin true) [] (.resolved fakeLoginData)).2).localStorage
        (js "token") = some (js "fake-jwt-token") ∧
    (emptyBrowser.performAll
        (handleSubmit (filledLogin true) [] (.resolved fakeLoginData)).2).sessionStorage = [] ∧
    Storage.getItem
        (emptyBrowser.performAll
          (handleSubmit (filledLogin false) [ChangeEvent.rememberMe true]
            (.resolved fakeLoginData)).2).sessionStorage
        (js "token") = some (js "fake-jwt-token") :=
  ⟨(login_remember_me_storage (filledLogin true) [] fakeLoginData emptyBrowser
      (by decide)).2.2.2.1,
   (login_remember_me_storage (filledLogin true) [] fakeLoginData emptyBrowser
      (by decide)).2.2.1,
   (login_remember_me_storage (filledLogin false) [ChangeEvent.rememberMe true] fakeLoginData
      emptyBrowser (by decide)).2.2.2.2⟩

/-- C12: for every valid login form whose request resolves, `handleSubmit`
calls `navigate` exactly once, with "/home", as its last effect, after the
request and after `token` and `user` have been set in one storage area; and
`apiError` is empty at the end, whatever was typed while the request was
pending. -/
theorem login_success_navigates (st : LoginState) (during : List ChangeEvent)
    (data : LoginData) (hv : (validate st).1 = true) :
    (handleSubmit st during (.resolved data)).2.filter Effect.isNavigate
      = [.navigate "/home"] ∧
    (∃ area : Area,
      (handleSubmit st during (.resolved data)).2 =
        [.preventDefault, .stopPropagation,
         .post "/auth/login"
           [("login", st.formData.login), ("password", st.formData.password)],
         .setItem area (js "token") data.token,
         .setItem area (js "user") (jsonStringify data.user),
         .navigate "/home"]) ∧
    (handleSubmit st during (.resolved data)).1.apiError = [] := by
  refine ⟨?_, ?_, ?_⟩
  · rw [handleSubmit_resolved_effects st during data hv]
    cases hr : st.formData.rememberMe <;> simp [loginWrites, Effect.isNavigate]
  · rw [handleSubmit_resolved_effects st during data hv]
    cases hr : st.formData.rememberMe
    · exact ⟨.sessionStorage, by simp [loginWrites]⟩
    · exact ⟨.localStorage, by simp [loginWrites]⟩
  · rw [handleSubmit_valid st during _ hv]
    simp only [handleSubmitSettled]
    exact handleChange_apiError _ during rfl

theorem login_success_navigates_witness :
    (handleSubmit (filledLogin false) [ChangeEvent.password (js "password1234")]
        (.resolved fakeLoginData)).2.filter Effect.isNavigate = [.navigate "/home"] ∧
    (handleSubmit (filledLogin false) [ChangeEvent.password (js "password1234")]
        (.resolved fakeLoginData)).1.apiError = [] :=
  ⟨(login_success_navigates (filledLogin false) [ChangeEvent.password (js "password1234")]
      fakeLoginData (by decide)).1,
   (login_success_navigates (filledLogin false) [ChangeEvent.password (js "password1234")]
      fakeLoginData (by decide)).2.2⟩

/-- C13: failed login.  For every valid login form whose request is rejected,
`apiError` becomes the `message` of the data of the response of the error
when the error has a response, the response has data, the data has a
message and the message is a non-empty string, and "Login failed. Please try
again." in every other case; `loading` is false at the end; and the effects
are the two calls on the event, the request and `console.error`, so nothing
is written to either storage area and `navigate` is not called. -/
theorem login_failure_handling (st : LoginState) (during : List ChangeEvent)
    (error : RequestError) (b : Browser) (hv : (validate st).1 = true) :
    (handleSubmit st during (.rejected error)).1.apiError =
      (match error with
       | { response := some { data := some { message := some (c :: cs) } } } => c :: cs
       | _ => js "Login failed. Please try again.") ∧
    (handleSubmit st during (.rejected error)).1.loading = false ∧
    (handleSubmit st during (.rejected error)).2 =
      [.preventDefault, .stopPropagation,
       .post "/auth/login"
         [("login", st.formData.login), ("password", st.formData.password)],
       .consoleError "Login error:"] ∧
    (b.performAll (handleSubmit st during (.rejected error)).2).localStorage
      = b.localStorage ∧
    (b.performAll (handleSubmit st during (.rejected error)).2).sessionStorage
      = b.sessionStorage ∧
    (b.performAll (handleSubmit st during (.rejected error)).2).navigations
      = b.navigations := by
  rw [handleSubmit_valid st during _ hv]
  refine ⟨?_, rfl, rfl, rfl, rfl, rfl⟩
  simp only [handleSubmitSettled]
  rcases error with ⟨_ | ⟨_ | ⟨_ | ⟨_ | ⟨c, cs⟩⟩⟩⟩⟩ <;> simp [RequestError.message, orElse]

theorem login_failure_handling_witness :
    (handleSubmit (filledLogin true) [] (.rejected invalidCredentialsError)).1.apiError
      = js "Invalid credentials" ∧
    (handleSubmit (filledLogin true) [] (.rejected { response := none })).1.apiError
      = js "Login failed. Please try again." ∧
    (handleSubmit (filledLogin true) []
      (.rejected { response := some { data := some { message := some [] } } })).1.apiError
      = js "Login failed. Please try again." :=
  ⟨(login_failure_handling (filledLogin true) [] invalidCredentialsError emptyBrowser
      (by decide)).1,
   (login_failure_handling (filledLogin true) [] { response := none } emptyBrowser
      (by decide)).1,
   (login_failure_handling (filledLogin true) []
      { response := some { data := some { message := some [] } } } emptyBrowser
      (by decide)).1⟩

/-- C14: the login button is disabled while loading.  After a valid form has
been submitted, `loading` is true when the request has been sent and stays
true through every change event handled before the request settles, and the
submit button is then disabled and labelled "Logging in...".  In every
state the button is disabled with that label when `loading` is true, and
enabled and labelled "Login" when `loading` is false.  Submitting an
invalid form leaves `loading` as it was, also as the result of the whole
`handleSubmit`. -/
theorem login_button_while_loading (st invalid : LoginState) (during : List ChangeEvent)
    (outcome : Settled LoginData)
    (hv : (validate st).1 = true) (hi : (validate invalid).1 = false) :
    (handleSubmitSync st).1.loading = true ∧
    (during.foldl handleChange (handleSubmitSync st).1).loading = true ∧
    submitButton (during.foldl handleChange (handleSubmitSync st).1)
      = { disabled := true, label := "Logging in..." } ∧
    (∀ s : LoginState, submitButton s =
      if s.loading then { disabled := true, label := "Logging in..." }
      else { disabled := false, label := "Login" }) ∧
    (handleSubmitSync invalid).1.loading = invalid.loading ∧
    (handleSubmit invalid during outcome).1.loading = invalid.loading := by
  have hv2 : (validate { st with apiError := [] }).1 = true := hv
  have hi2 : (validate { invalid with apiError := [] }).1 = false := hi
  have h1 : (handleSubmitSync st).1.loading = true := by
    simp only [handleSubmitSync, hv2, if_true]
  have h2 : (during.foldl handleChange (handleSubmitSync st).1).loading = true := by
    rw [handleChange_loading, h1]
  refine ⟨h1, h2, ?_, ?_, ?_, ?_⟩
  · simp [submitButton, h2]
  · intro s
    cases hs : s.loading <;> simp [submitButton, hs]
  · simp only [handleSubmitSync, hi2]
    rfl
  · simp only [handleSubmit, handleSubmitSync, hi2]
    rfl

theorem login_button_while_loading_witness :
    submitButton
        ([ChangeEvent.login (js "other"), ChangeEvent.rememberMe true].foldl handleChange
          (handleSubmitSync (filledLogin false)).1)
      = { disabled := true, label := "Logging in..." } ∧
    (handleSubmit
        { formData := { login := js "testuser", password := js "12345", rememberMe := false },
          errors := [], loading := false, apiError := [] }
        [] (.resolved fakeLoginData)).1.loading = false :=
  ⟨(login_button_while_loading (filledLogin false)
      { formData := { login := js "testuser", password := js "12345", rememberMe := false },
        errors := [], loading := false, apiError := [] }
      [ChangeEvent.login (js "other"), ChangeEvent.rememberMe true] (.resolved fakeLoginData)
      (by decide) (by decide)).2.2.1,
   (login_button_while_loading (filledLogin false)
      { formData := { login := js "testuser", password := js "12345", rememberMe := false },
        errors := [], loading := false, apiError := [] }
      [] (.resolved fakeLoginData) (by decide) (by decide)).2.2.2.2.2⟩

/-- C15: login request shape.  For every valid login form, `handleSubmit`
calls `api.post` exactly once, however the request settles and whatever is
typed meanwhile: to "/auth/login", with a body of exactly the two fields
`login` and `password`, whose values are `formData.login` (untrimmed) and
`formData.password` of the submitted form; the body has no `rememberMe`. -/
theorem login_request_shape (st : LoginState) (during : List ChangeEvent)
    (outcome : Settled LoginData) (hv : (validate st).1 = true) :
    (handleSubmit st during outcome).2.filter Effect.isPost
      = [.post "/auth/login"
          [("login", st.formData.login), ("password", st.formData.password)]] ∧
    (handleSubmitSync st).2.filter Effect.isPost
      = [.post "/auth/login"
          [("login", st.formData.login), ("password", st.formData.password)]] ∧
    objKeys [("login", st.formData.login), ("password", st.formData.password)]
      = ["login", "password"] ∧
    objGet [("login", st.formData.login), ("password", st.formData.password)] "login"
      = some st.formData.login ∧
    objGet [("login", st.formData.login), ("password", st.formData.password)] "password"
      = some st.formData.password ∧
    objGet [("login", st.formData.login), ("password", st.formData.password)] "rememberMe"
      = none := by
  have hv2 : (validate { st with apiError := [] }).1 = true := hv
  refine ⟨?_, ?_, rfl, ?_, ?_, ?_⟩
  · rw [handleSubmit_valid st during _ hv]
    cases outcome with
    | resolved data =>
      cases hr : st.formData.rememberMe <;> simp [handleSubmitSettled, Effect.isPost, hr]
    | rejected error => simp [handleSubmitSettled, Effect.isPost]
  · simp [handleSubmitSync, hv2, Effect.isPost]
  · simp [objGet]
  · simp [objGet]
  · simp [objGet]

theorem login_request_shape_witness :
    (handleSubmit
        { formData := { login := js " testuser ", password := js "password123",
                        rememberMe := true },
          errors := [], loading := false, apiError := [] }
        [] (.rejected invalidCredentialsError)).2.filter Effect.isPost
      = [.post "/auth/login"
          [("login", js " testuser "), ("password", js "password123")]] :=
  (login_request_shape
    { formData := { login := js " testuser ", password := js "password123",
                    rememberMe := true },
      errors := [], loading := false, apiError := [] }
    [] (.rejected invalidCredentialsError) (by decide)).1

/-! ### Frontend: the reset-password form (C16, C18 to C20) -/

theorem js_confirm_ne_mismatch :
    js "Please confirm your password" ≠ js "Passwords do not match" := by
  decide

theorem resetNewErrors_password (fd : ResetPassword.FormData) :
    objGet (ResetPassword.newErrors fd) "password" =
      if fd.password = [] then some (js "Password is required")
      else if fd.password.length < 6 then some (js "Password must be at least 6 characters")
      else none := by
  unfold ResetPassword.newErrors
  by_cases h1 : fd.password = [] <;> by_cases h2 : fd.password.length < 6 <;>
    by_cases h3 : fd.confirmPassword = [] <;>
    by_cases h4 : fd.password = fd.confirmPassword <;>
    simp [h1, h2, h3, eq_true h4, objSet, objGet]

theorem resetNewErrors_confirm (fd : ResetPassword.FormData) :
    objGet (ResetPassword.newErrors fd) "confirmPassword" =
      if fd.confirmPassword = [] then some (js "Please confirm your password")
      else if fd.password ≠ fd.confirmPassword then some (js "Passwords do not match")
      else none := by
  unfold ResetPassword.newErrors
  by_cases h1 : fd.password = [] <;> by_cases h2 : fd.password.length < 6 <;>
    by_cases h3 : fd.confirmPassword = [] <;>
    by_cases h4 : fd.password = fd.confirmPassword <;>
    simp [h1, h2, h3, eq_true h4, objSet, objGet]

theorem resetNewErrors_keys (fd : ResetPassword.FormData) :
    objKeys (ResetPassword.newErrors fd) =
      (if fd.password.length < 6 then ["password"] else []) ++
      (if fd.confirmPassword = [] ∨ fd.password ≠ fd.confirmPassword then ["confirmPassword"]
       else []) := by
  unfold ResetPassword.newErrors
  by_cases h1 : fd.password = [] <;> by_cases h2 : fd.password.length < 6 <;>
    by_cases h3 : fd.confirmPassword = [] <;>
    by_cases h4 : fd.password = fd.confirmPassword <;>
    simp [h1, h2, h3, eq_true h4, objSet, objKeys]

theorem resetValidate_iff (st : ResetPassword.State) :
    (ResetPassword.validate st).1 = true ↔
      6 ≤ st.formData.password.length ∧ st.formData.confirmPassword = st.formData.password := by
  simp only [ResetPassword.validate, resetNewErrors_keys, decide_eq_true_eq]
  by_cases h2 : st.formData.password.length < 6
  · simp only [h2, if_true, List.singleton_append, List.length_cons]
    constructor
    · intro h
      omega
    · intro h
      omega
  · have h6 : 6 ≤ st.formData.password.length := by omega
    by_cases h4 : st.formData.password = st.formData.confirmPassword
    · have h3 : st.formData.confirmPassword ≠ [] := by
        intro h
        rw [← h4] at h
        rw [h] at h6
        simp at h6
      simp [h2, h3, h4, h6]
    · have h5 : ¬ st.formData.confirmPassword = st.formData.password := fun h => h4 h.symm
      simp [h2, h4, h5]

/-- C18: reset-password form validation.  For every state of the form,
`validate` returns true exactly when the password has at least 6 code units
and `confirmPassword` is identical to it.  Afterwards `errors.password` is
"Password is required" exactly when the password is empty and "Password
must be at least 6 characters" exactly when it has 1 to 5 code units;
`errors.confirmPassword` is "Please confirm your password" exactly when
`confirmPassword` is empty and "Passwords do not match" exactly when it is
non-empty and differs from the password. -/
theorem reset_validate_errors (st : ResetPassword.State) :
    ((ResetPassword.validate st).1 = true ↔
      6 ≤ st.formData.password.length ∧
        st.formData.confirmPassword = st.formData.password) ∧
    (objGet (ResetPassword.validate st).2.errors "password"
        = some (js "Password is required") ↔ st.formData.password = []) ∧
    (objGet (ResetPassword.validate st).2.errors "password"
        = some (js "Password must be at least 6 characters") ↔
      1 ≤ st.formData.password.length ∧ st.formData.password.length ≤ 5) ∧
    (objGet (ResetPassword.validate st).2.errors "confirmPassword"
        = some (js "Please confirm your password") ↔ st.formData.confirmPassword = []) ∧
    (objGet (ResetPassword.validate st).2.errors "confirmPassword"
        = some (js "Passwords do not match") ↔
      st.formData.confirmPassword ≠ [] ∧
        st.formData.confirmPassword ≠ st.formData.password) := by
  have hne := js_required_ne_short
  have hne2 := js_confirm_ne_mismatch
  have hp := resetNewErrors_password st.formData
  have hc := resetNewErrors_confirm st.formData
  have hlen : st.formData.password = [] ↔ st.formData.password.length = 0 :=
    List.length_eq_zero.symm
  refine ⟨resetValidate_iff st, ?_, ?_, ?_, ?_⟩
  · simp only [ResetPassword.validate]
    rw [hp]
    by_cases h1 : st.formData.password = []
    · simp [h1]
    · by_cases h2 : st.formData.password.length < 6
      · simp [h1, h2, Ne.symm hne]
      · simp [h1, h2]
  · simp only [ResetPassword.validate]
    rw [hp]
    by_cases h1 : st.formData.password = []
    · simp [h1, hne]
    · have h0 : st.formData.password.length ≠ 0 := fun h => h1 (hlen.mpr h)
      by_cases h2 : st.formData.password.length < 6
      · rw [if_neg h1, if_pos h2]
        exact ⟨fun _ => (by omega), fun _ => rfl⟩
      · rw [if_neg h1, if_neg h2]
        exact ⟨fun h => (by cases h), fun h => (by omega)⟩
  · simp only [ResetPassword.validate]
    rw [hc]
    by_cases h3 : st.formData.confirmPassword = []
    · simp [h3]
    · by_cases h4 : st.formData.password = st.formData.confirmPassword
      · simp [h3, eq_true h4]
      · simp [h3, eq_true h4, Ne.symm hne2]
  · simp only [ResetPassword.validate]
    rw [hc]
    by_cases h3 : st.formData.confirmPassword = []
    · simp [h3, hne2]
    · by_cases h4 : st.formData.password = st.formData.confirmPassword
      · rw [if_neg h3, if_neg (not_not.mpr h4)]
        exact ⟨fun h => (by cases h), fun h => absurd h4.symm h.2⟩
      · rw [if_neg h3, if_pos h4]
        exact ⟨fun _ => ⟨h3, fun h => h4 h.symm⟩, fun _ => rfl⟩

theorem resetHandleChange_fields (st : ResetPassword.State)
    (during : List ResetPassword.ChangeEvent) :
    (during.foldl ResetPassword.handleChange st).loading = st.loading ∧
    (during.foldl ResetPassword.handleChange st).success = st.success ∧
    (st.apiError = [] → (during.foldl ResetPassword.handleChange st).apiError = []) := by
  induction during generalizing st with
  | nil => exact ⟨rfl, rfl, fun h => h⟩
  | cons e es ih =>
    rw [List.foldl_cons]
    obtain ⟨h1, h2, h3⟩ := ih (ResetPassword.handleChange st e)
    exact ⟨h1.trans rfl, h2.trans rfl, fun _ => h3 rfl⟩

theorem resetHandleSubmit_valid (token : JSString) (st : ResetPassword.State)
    (during : List ResetPassword.ChangeEvent) (outcome : Settled Unit)
    (hv : (ResetPassword.validate st).1 = true) :
    ResetPassword.handleSubmit token st during outcome =
      ((ResetPassword.handleSubmitSettled
          (during.foldl ResetPassword.handleChange
            { (ResetPassword.validate { st with apiError := [] }).2 with loading := true })
          outcome).1,
       [.preventDefault,
        .post "/auth/reset-password" [("token", token), ("password", st.formData.password)]] ++
       (ResetPassword.handleSubmitSettled
          (during.foldl ResetPassword.handleChange
            { (ResetPassword.validate { st with apiError := [] }).2 with loading := true })
          outcome).2) := by
  have hv2 : (ResetPassword.validate { st with apiError := [] }).1 = true := hv
  simp only [ResetPassword.handleSubmit, ResetPassword.handleSubmitSync, hv2, if_true]

/-- C16: reset-password submission.  For every valid reset-password form,
`handleSubmit` calls `api.post` exactly once, however the request settles:
to "/auth/reset-password", with a body of exactly the two fields `token`,
the route parameter, and `password`, the password of the submitted form;
`confirmPassword` is not sent.  When the request resolves, `success` is true
and the only timer set is `navigate('/login')` after 2000 ms, with no call of
`navigate` by `handleSubmit` itself: with no other timer pending, no
navigation has happened after less than 2000 ms and exactly one, to
"/login", after 2000 ms or more.  When the request is rejected, no timer is
set and `navigate` is not called. -/
theorem reset_submit_shape (token : JSString) (st : ResetPassword.State)
    (during : List ResetPassword.ChangeEvent) (outcome : Settled Unit)
    (error : RequestError) (b : Browser) (early late : Nat)
    (hv : (ResetPassword.validate st).1 = true)
    (hearly : early < 2000) (hlate : 2000 ≤ late) :
    (ResetPassword.handleSubmit token st during outcome).2.filter Effect.isPost
      = [.post "/auth/reset-password"
          [("token", token), ("password", st.formData.password)]] ∧
    objKeys [("token", token), ("password", st.formData.password)] = ["token", "password"] ∧
    objGet [("token", token), ("password", st.formData.password)] "confirmPassword" = none ∧
    (ResetPassword.handleSubmit token st during (.resolved ())).1.success = true ∧
    (ResetPassword.handleSubmit token st during (.resolved ())).2.filter Effect.isTimer
      = [.setTimeout 2000 "/login"] ∧
    (ResetPassword.handleSubmit token st during (.resolved ())).2.filter Effect.isNavigate
      = [] ∧
    ((({ b with timers := [] } : Browser).performAll
        (ResetPassword.handleSubmit token st during (.resolved ())).2).advance early).navigations
      = b.navigations ∧
    ((({ b with timers := [] } : Browser).performAll
        (ResetPassword.handleSubmit token st during (.resolved ())).2).advance late).navigations
      = b.navigations ++ ["/login"] ∧
    (ResetPassword.handleSubmit token st during (.rejected error)).2.filter Effect.isTimer
      = [] ∧
    (ResetPassword.handleSubmit token st during (.rejected error)).2.filter Effect.isNavigate
      = [] := by
  have he : ¬ (b.clock + 2000 ≤ b.clock + early) := by omega
  have hl : b.clock + 2000 ≤ b.clock + late := by omega
  refine ⟨?_, rfl, by simp [objGet], ?_, ?_, ?_, ?_, ?_, ?_, ?_⟩
  · rw [resetHandleSubmit_valid token st during _ hv]
    cases outcome <;> simp [ResetPassword.handleSubmitSettled, Effect.isPost]
  · rw [resetHandleSubmit_valid token st during _ hv]
    rfl
  · rw [resetHandleSubmit_valid token st during _ hv]
    simp [ResetPassword.handleSubmitSettled, Effect.isTimer]
  · rw [resetHandleSubmit_valid token st during _ hv]
    simp [ResetPassword.handleSubmitSettled, Effect.isNavigate]
  · rw [resetHandleSubmit_valid token st during _ hv]
    simp [ResetPassword.handleSubmitSettled, Browser.performAll, Browser.perform,
      Browser.advance, insertTimer, he]
  · rw [resetHandleSubmit_valid token st during _ hv]
    simp [ResetPassword.handleSubmitSettled, Browser.performAll, Browser.perform,
      Browser.advance, insertTimer, hl]
  · rw [resetHandleSubmit_valid token st during _ hv]
    simp [ResetPassword.handleSubmitSettled, Effect.isTimer]
  · rw [resetHandleSubmit_valid token st during _ hv]
    simp [ResetPassword.handleSubmitSettled, Effect.isNavigate]

theorem reset_submit_shape_witness :
    (ResetPassword.handleSubmit (js "tok-1") filledReset [] (.resolved ())).2.filter
        Effect.isPost
      = [.post "/auth/reset-password"
          [("token", js "tok-1"), ("password", js "newpassword123")]] ∧
    ((emptyBrowser.performAll
        (ResetPassword.handleSubmit (js "tok-1") filledReset [] (.resolved ())).2).advance
        1999).navigations = [] ∧
    ((emptyBrowser.performAll
        (ResetPassword.handleSubmit (js "tok-1") filledReset [] (.resolved ())).2).advance
        2000).navigations = ["/login"] :=
  have h := reset_submit_shape (js "tok-1") filledReset [] (.resolved ())
    invalidCredentialsError emptyBrowser 1999 2000 (by decide) (by decide) (by decide)
  ⟨h.1, h.2.2.2.2.2.2.1, h.2.2.2.2.2.2.2.1⟩

theorem validate_password_length (st : LoginState) (hv : (validate st).1 = true) :
    6 ≤ st.formData.password.length := by
  simp only [validate, newErrors_keys, decide_eq_true_eq] at hv
  by_cases h3 : st.formData.password.length < 6
  · rw [if_pos h3] at hv
    simp at hv
  · omega

theorem handleSubmit_posts (st : LoginState) (during : List ChangeEvent)
    (outcome : Settled LoginData) :
    ∀ e ∈ (handleSubmit st during outcome).2, ∀ path body, e = Effect.post path body →
      objGet body "password" = some st.formData.password ∧
        6 ≤ st.formData.password.length := by
  intro e he path body hpb
  subst hpb
  by_cases hv : (validate st).1 = true
  · have h6 := validate_password_length st hv
    rw [handleSubmit_valid st during _ hv] at he
    cases outcome with
    | resolved data =>
      cases hr : st.formData.rememberMe <;>
        simp [handleSubmitSettled, hr] at he <;>
        (obtain ⟨_, h2⟩ := he; subst h2; exact ⟨by simp [objGet], h6⟩)
    | rejected error =>
      simp [handleSubmitSettled] at he
      obtain ⟨_, h2⟩ := he
      subst h2
      exact ⟨by simp [objGet], h6⟩
  · have hv2 : (validate { st with apiError := [] }).1 = false := by
      simpa using hv
    simp [handleSubmit, handleSubmitSync, hv2] at he

theorem resetHandleSubmit_posts (token : JSString) (st : ResetPassword.State)
    (during : List ResetPassword.ChangeEvent) (outcome : Settled Unit) :
    ∀ e ∈ (ResetPassword.handleSubmit token st during outcome).2,
      ∀ path body, e = Effect.post path body →
      objGet body "password" = some st.formData.password ∧
        6 ≤ st.formData.password.length := by
  intro e he path body hpb
  subst hpb
  by_cases hv : (ResetPassword.validate st).1 = true
  · have h6 := ((resetValidate_iff st).mp hv).1
    rw [resetHandleSubmit_valid token st during _ hv] at he
    cases outcome with
    | resolved data =>
      simp [ResetPassword.handleSubmitSettled] at he
      obtain ⟨_, h2⟩ := he
      subst h2
      exact ⟨by simp [objGet], h6⟩
    | rejected error =>
      simp [ResetPassword.handleSubmitSettled] at he
      obtain ⟨_, h2⟩ := he
      subst h2
      exact ⟨by simp [objGet], h6⟩
  · have hv2 : (ResetPassword.validate { st with apiError := [] }).1 = false := by
      simpa using hv
    simp [ResetPassword.handleSubmit, ResetPassword.handleSubmitSync, hv2] at he

/-- C19: invalid forms never reach the server.  For every login form on which
`validate` returns false, `handleSubmit` ends with the state in which only
`errors` has been replaced by the new errors and `apiError` has been cleared
(`formData` and `loading` are as before), and its only effects are the two
calls on the event: no `api.post`, no storage write, no `navigate`, so the
browser is left as it was.  Likewise for every reset-password form on which
`validate` returns false: only `errors` and `apiError` change (`success` and
`loading` are as before), the only effect is `preventDefault`, no request is
sent and no timer is set.  Consequently every request either form sends,
valid or not, carries the password of the submitted form and that password
has at least 6 code units. -/
theorem invalid_forms_not_sent (st : LoginState) (during : List ChangeEvent)
    (outcome : Settled LoginData) (rst : ResetPassword.State) (token : JSString)
    (rduring : List ResetPassword.ChangeEvent) (routcome : Settled Unit) (b : Browser)
    (hi : (validate st).1 = false) (hri : (ResetPassword.validate rst).1 = false) :
    handleSubmit st during outcome =
      ({ st with errors := newErrors st.formData, apiError := [] },
       [.preventDefault, .stopPropagation]) ∧
    b.performAll (handleSubmit st during outcome).2 = b ∧
    ResetPassword.handleSubmit token rst rduring routcome =
      ({ rst with errors := ResetPassword.newErrors rst.formData, apiError := [] },
       [.preventDefault]) ∧
    b.performAll (ResetPassword.handleSubmit token rst rduring routcome).2 = b ∧
    (∀ (s : LoginState) (d : List ChangeEvent) (o : Settled LoginData),
      ∀ e ∈ (handleSubmit s d o).2, ∀ path body, e = Effect.post path body →
        objGet body "password" = some s.formData.password ∧
          6 ≤ s.formData.password.length) ∧
    (∀ (t : JSString) (s : ResetPassword.State) (d : List ResetPassword.ChangeEvent)
      (o : Settled Unit),
      ∀ e ∈ (ResetPassword.handleSubmit t s d o).2, ∀ path body, e = Effect.post path body →
        objGet body "password" = some s.formData.password ∧
          6 ≤ s.formData.password.length) := by
  have hi2 : (validate { st with apiError := [] }).1 = false := hi
  have hri2 : (ResetPassword.validate { rst with apiError := [] }).1 = false := hri
  have e1 : handleSubmit st during outcome =
      ({ st with errors := newErrors st.formData, apiError := [] },
       [.preventDefault, .stopPropagation]) := by
    simp only [handleSubmit, handleSubmitSync, hi2]
    rfl
  have e2 : ResetPassword.handleSubmit token rst rduring routcome =
      ({ rst with errors := ResetPassword.newErrors rst.formData, apiError := [] },
       [.preventDefault]) := by
    simp only [ResetPassword.handleSubmit, ResetPassword.handleSubmitSync, hri2]
    rfl
  refine ⟨e1, ?_, e2, ?_, ?_, ?_⟩
  · rw [e1]
    rfl
  · rw [e2]
    rfl
  · exact fun s d o => handleSubmit_posts s d o
  · exact fun t s d o => resetHandleSubmit_posts t s d o

theorem invalid_forms_not_sent_witness :
    (handleSubmit
        { formData := { login := js "testuser", password := js "12345", rememberMe := true },
          errors := [], loading := false, apiError := js "Invalid credentials" }
        [] (.resolved fakeLoginData)).2 = [.preventDefault, .stopPropagation] ∧
    (ResetPassword.handleSubmit (js "tok-1")
        { formData := { password := js "newpassword123", confirmPassword := js "newpassword12" },
          errors := [], loading := false, apiError := [], success := false }
        [] (.resolved ())).2 = [.preventDefault] :=
  have h := invalid_forms_not_sent
    { formData := { login := js "testuser", password := js "12345", rememberMe := true },
      errors := [], loading := false, apiError := js "Invalid credentials" }
    [] (.resolved fakeLoginData)
    { formData := { password := js "newpassword123", confirmPassword := js "newpassword12" },
      errors := [], loading := false, apiError := [], success := false }
    (js "tok-1") [] (.resolved ()) emptyBrowser (by decide) (by decide)
  ⟨congrArg Prod.snd h.1, congrArg Prod.snd h.2.2.1⟩

/-- C20: reset-password outcome handling.  For every valid reset-password
form, `loading` is false once the request has settled, resolved or rejected.
When it is rejected, `success` is what it was before the submission (false,
when the form was shown) and `apiError` is the `message` of the data of the
response of the error when that is a non-empty string and "Failed to reset
password. Please try again." in every other case.  When it resolves,
`apiError` is empty. -/
theorem reset_outcome_handling (token : JSString) (st : ResetPassword.State)
    (during : List ResetPassword.ChangeEvent) (error : RequestError)
    (hv : (ResetPassword.validate st).1 = true) :
    (ResetPassword.handleSubmit token st during (.resolved ())).1.loading = false ∧
    (ResetPassword.handleSubmit token st during (.rejected error)).1.loading = false ∧
    (ResetPassword.handleSubmit token st during (.rejected error)).1.success = st.success ∧
    (ResetPassword.handleSubmit token st during (.rejected error)).1.apiError =
      (match error with
       | { response := some { data := some { message := some (c :: cs) } } } => c :: cs
       | _ => js "Failed to reset password. Please try again.") ∧
    (ResetPassword.handleSubmit token st during (.resolved ())).1.apiError = [] := by
  rw [resetHandleSubmit_valid token st during _ hv,
    resetHandleSubmit_valid token st during _ hv]
  have hf := resetHandleChange_fields
    { (ResetPassword.validate { st with apiError := [] }).2 with loading := true } during
  refine ⟨rfl, rfl, ?_, ?_, ?_⟩
  · simp only [ResetPassword.handleSubmitSettled]
    exact hf.2.1
  · simp only [ResetPassword.handleSubmitSettled]
    rcases error with ⟨_ | ⟨_ | ⟨_ | ⟨_ | ⟨c, cs⟩⟩⟩⟩⟩ <;> simp [RequestError.message, orElse]
  · simp only [ResetPassword.handleSubmitSettled]
    exact hf.2.2 rfl

theorem reset_outcome_handling_witness :
    (ResetPassword.handleSubmit (js "tok-1") filledReset [] (.resolved ())).1.loading
      = false ∧
    (ResetPassword.handleSubmit (js "tok-1") filledReset []
      (.rejected { response := some { data := none } })).1.apiError
      = js "Failed to reset password. Please try again." :=
  ⟨(reset_outcome_handling (js "tok-1") filledReset [] { response := none }
      (by decide)).1,
   (reset_outcome_handling (js "tok-1") filledReset [] { response := some { data := none } }
      (by decide)).2.2.2.1⟩

/-! ### Frontend: logout (C17) -/

theorem removeItem_cons (a : JSString × JSString) (as : Storage) (k : JSString) :
    Storage.removeItem (a :: as) k
      = if a.1 = k then Storage.removeItem as k else a :: Storage.removeItem as k := by
  by_cases h : a.1 = k <;> simp [Storage.removeItem, List.filter_cons, h]

theorem getItem_cons (a : JSString × JSString) (as : Storage) (key : JSString) :
    Storage.getItem (a :: as) key
      = if a.1 = key then some a.2 else Storage.getItem as key := by
  by_cases h : a.1 = key <;> simp [Storage.getItem, List.find?_cons, h]

theorem getItem_removeItem_self (s : Storage) (k : JSString) :
    Storage.getItem (Storage.removeItem s k) k = none := by
  induction s with
  | nil => rfl
  | cons a as ih =>
    by_cases h : a.1 = k
    · rw [removeItem_cons, if_pos h, ih]
    · rw [removeItem_cons, if_neg h, getItem_cons, if_neg h, ih]

theorem getItem_removeItem_ne (s : Storage) (k key : JSString) (hne : key ≠ k) :
    Storage.getItem (Storage.removeItem s k) key = Storage.getItem s key := by
  induction s with
  | nil => rfl
  | cons a as ih =>
    by_cases h : a.1 = k
    · have h2 : ¬ a.1 = key := fun h3 => hne (h3.symm.trans h)
      rw [removeItem_cons, if_pos h, getItem_cons, if_neg h2, ih]
    · rw [removeItem_cons, if_neg h, getItem_cons, getItem_cons, ih]

theorem removeItem_removeItem (s : Storage) (k1 k2 : JSString) :
    Storage.removeItem (Storage.removeItem s k1) k2
      = s.filter (fun kv => kv.1 ≠ k1 ∧ kv.1 ≠ k2) := by
  induction s with
  | nil => rfl
  | cons a as ih =>
    by_cases h1 : a.1 = k1
    · rw [removeItem_cons, if_pos h1, ih]
      simp [List.filter_cons, h1]
    · by_cases h2 : a.1 = k2
      · rw [removeItem_cons, if_neg h1, removeItem_cons, if_pos h2, ih]
        simp [List.filter_cons, h2]
      · rw [removeItem_cons, if_neg h1, removeItem_cons, if_neg h2, ih]
        simp [List.filter_cons, h1, h2]

theorem logout_storage (s : Storage) :
    Storage.removeItem (Storage.removeItem
        (Storage.removeItem (Storage.removeItem s (js "token")) (js "user"))
        (js "token")) (js "user")
      = Storage.removeItem (Storage.removeItem s (js "token")) (js "user") := by
  rw [removeItem_removeItem, removeItem_removeItem, List.filter_filter]
  congr 1
  funext kv
  exact Bool.and_self _

/-- C17: logout clears the session.  For every content of the two storage
areas, after `handleLogout` each area is what it was with the entries of the
keys `token` and `user` removed: neither key is left in either area, and
every other key has the value it had.  `navigate` has been called exactly
once, with "/login".  Running `handleLogout` a second time leaves both
storage areas as they are after the first run. -/
theorem logout_clears_session (b : Browser) (key : JSString)
    (hk1 : key ≠ js "token") (hk2 : key ≠ js "user") :
    (b.performAll Home.handleLogout).localStorage
      = b.localStorage.filter (fun kv => kv.1 ≠ js "token" ∧ kv.1 ≠ js "user") ∧
    (b.performAll Home.handleLogout).sessionStorage
      = b.sessionStorage.filter (fun kv => kv.1 ≠ js "token" ∧ kv.1 ≠ js "user") ∧
    Storage.getItem (b.performAll Home.handleLogout).localStorage (js "token") = none ∧
    Storage.getItem (b.performAll Home.handleLogout).localStorage (js "user") = none ∧
    Storage.getItem (b.performAll Home.handleLogout).sessionStorage (js "token") = none ∧
    Storage.getItem (b.performAll Home.handleLogout).sessionStorage (js "user") = none ∧
    Storage.getItem (b.performAll Home.handleLogout).localStorage key
      = Storage.getItem b.localStorage key ∧
    Storage.getItem (b.performAll Home.handleLogout).sessionStorage key
      = Storage.getItem b.sessionStorage key ∧
    Home.handleLogout.filter Effect.isNavigate = [.navigate "/login"] ∧
    (b.performAll Home.handleLogout).navigations = b.navigations ++ ["/login"] ∧
    ((b.performAll Home.handleLogout).performAll Home.handleLogout).localStorage
      = (b.performAll Home.handleLogout).localStorage ∧
    ((b.performAll Home.handleLogout).performAll Home.handleLogout).sessionStorage
      = (b.performAll Home.handleLogout).sessionStorage := by
  have hl : (b.performAll Home.handleLogout).localStorage
      = Storage.removeItem (Storage.removeItem b.localStorage (js "token")) (js "user") := rfl
  have hs : (b.performAll Home.handleLogout).sessionStorage
      = Storage.removeItem (Storage.removeItem b.sessionStorage (js "token")) (js "user") := rfl
  have hl2 : ((b.performAll Home.handleLogout).performAll Home.handleLogout).localStorage
      = Storage.removeItem (Storage.removeItem
          (b.performAll Home.handleLogout).localStorage (js "token")) (js "user") := rfl
  have hs2 : ((b.performAll Home.handleLogout).performAll Home.handleLogout).sessionStorage
      = Storage.removeItem (Storage.removeItem
          (b.performAll Home.handleLogout).sessionStorage (js "token")) (js "user") := rfl
  have htu : js "token" ≠ js "user" := by decide
  refine ⟨?_, ?_, ?_, ?_, ?_, ?_, ?_, ?_, rfl, rfl, ?_, ?_⟩
  · rw [hl, removeItem_removeItem]
  · rw [hs, removeItem_removeItem]
  · rw [hl, getItem_removeItem_ne _ _ _ htu, getItem_removeItem_self]
  · rw [hl, getItem_removeItem_self]
  · rw [hs, getItem_removeItem_ne _ _ _ htu, getItem_removeItem_self]
  · rw [hs, getItem_removeItem_self]
  · rw [hl, getItem_removeItem_ne _ _ _ hk2, getItem_removeItem_ne _ _ _ hk1]
  · rw [hs, getItem_removeItem_ne _ _ _ hk2, getItem_removeItem_ne _ _ _ hk1]
  · rw [hl2, hl, logout_storage]
  · rw [hs2, hs, logout_storage]

theorem logout_clears_session_witness :
    (({ emptyBrowser with
        localStorage := [(js "token", js "fake-jwt-token"), (js "theme", js "dark")],
        sessionStorage := [(js "user", js "u")] } : Browser).performAll
      Home.handleLogout).localStorage = [(js "theme", js "dark")] ∧
    Storage.getItem
      (({ emptyBrowser with
          localStorage := [(js "token", js "fake-jwt-token"), (js "theme", js "dark")],
          sessionStorage := [(js "user", js "u")] } : Browser).performAll
        Home.handleLogout).localStorage (js "theme") = some (js "dark") :=
  have h := logout_clears_session
    { emptyBrowser with
      localStorage := [(js "token", js "fake-jwt-token"), (js "theme", js "dark")],
      sessionStorage := [(js "user", js "u")] }
    (js "theme") (by decide) (by decide)
  ⟨h.1, h.2.2.2.2.2.2.1⟩

/-! ### Frontend: from login to the home page (C21) -/

theorem hexValue_hexDigit (n : Nat) (h : n < 16) : hexValue (hexDigit n) = some n := by
  interval_cases n <;> rfl

theorem parseChars_cons (c : Fin 65536) (rest : JSString) :
    parseChars (c :: rest) =
      if c.val = 34 then some ([], rest)
      else if c.val = 92 then
        match rest with
        | [] => none
        | e :: rest2 =>
          if e.val = 34 then pushUnit 34 (parseChars rest2)
          else if e.val = 92 then pushUnit 92 (parseChars rest2)
          else if e.val = 47 then pushUnit 47 (parseChars rest2)
          else if e.val = 98 then pushUnit 8 (parseChars rest2)
          else if e.val = 102 then pushUnit 12 (parseChars rest2)
          else if e.val = 110 then pushUnit 10 (parseChars rest2)
          else if e.val = 114 then pushUnit 13 (parseChars rest2)
          else if e.val = 116 then pushUnit 9 (parseChars rest2)
          else if e.val = 117 then
            match rest2 with
            | h1 :: h2 :: h3 :: h4 :: rest3 =>
              match hexValue h1, hexValue h2, hexValue h3, hexValue h4 with
              | some v1, some v2, some v3, some v4 =>
                pushUnit (Fin.ofNat (4096 * v1 + 256 * v2 + 16 * v3 + v4)) (parseChars rest3)
              | _, _, _, _ => none
            | _ => none
          else none
      else if c.val < 32 then none
      else pushUnit c (parseChars rest) := by
  rw [parseChars.eq_def]
  rfl

theorem parseChars_quote (t : JSString) : parseChars (34 :: t) = some ([], t) := by
  rw [parseChars_cons]
  rfl

theorem parseChars_literal (c : Fin 65536) (t : JSString)
    (h32 : 32 ≤ c.val) (h34 : c.val ≠ 34) (h92 : c.val ≠ 92) :
    parseChars (c :: t) = pushUnit c (parseChars t) := by
  have h : ¬ c.val < 32 := by omega
  rw [parseChars_cons]
  simp only [h34, h92, h, if_false]

theorem parseChars_short (e d : Fin 65536) (t : JSString)
    (h : (e.val = 34 ∧ d = 34) ∨ (e.val = 92 ∧ d = 92) ∨ (e.val = 98 ∧ d = 8) ∨
      (e.val = 102 ∧ d = 12) ∨ (e.val = 110 ∧ d = 10) ∨ (e.val = 114 ∧ d = 13) ∨
      (e.val = 116 ∧ d = 9)) :
    parseChars (92 :: e :: t) = pushUnit d (parseChars t) := by
  rw [parseChars_cons]
  have h1 : ¬ ((92 : Fin 65536).val = 34) := by decide
  have h2 : (92 : Fin 65536).val = 92 := by decide
  simp only [h1, h2, if_false, if_true]
  rcases h with ⟨he, hd⟩ | ⟨he, hd⟩ | ⟨he, hd⟩ | ⟨he, hd⟩ | ⟨he, hd⟩ | ⟨he, hd⟩ | ⟨he, hd⟩ <;>
    subst hd <;> simp [he]

theorem parseChars_unicodeEscape (c : Fin 65536) (t : JSString) :
    parseChars (unicodeEscape c ++ t) = pushUnit c (parseChars t) := by
  have hc := c.isLt
  have e1 := hexValue_hexDigit (c.val / 4096) (by omega)
  have e2 := hexValue_hexDigit (c.val / 256 % 16) (by omega)
  have e3 := hexValue_hexDigit (c.val / 16 % 16) (by omega)
  have e4 := hexValue_hexDigit (c.val % 16) (by omega)
  have hv : (Fin.ofNat (4096 * (c.val / 4096) + 256 * (c.val / 256 % 16)
      + 16 * (c.val / 16 % 16) + c.val % 16) : Fin 65536) = c := by
    apply Fin.ext
    show (4096 * (c.val / 4096) + 256 * (c.val / 256 % 16)
      + 16 * (c.val / 16 % 16) + c.val % 16) % 65536 = c.val
    omega
  have h1 : ¬ ((92 : Fin 65536).val = 34) := by decide
  have h2 : (92 : Fin 65536).val = 92 := by decide
  simp only [unicodeEscape, List.cons_append, List.nil_append]
  rw [parseChars_cons]
  simp only [h1, h2, if_false, if_true]
  have h3 : (117 : Fin 65536).val = 117 := by decide
  simp [h3, e1, e2, e3, e4, hv]

theorem quoteChars_one (c : Fin 65536) :
    quoteChars [c] =
      if c.val = 8 then [92, 98]
      else if c.val = 9 then [92, 116]
      else if c.val = 10 then [92, 110]
      else if c.val = 12 then [92, 102]
      else if c.val = 13 then [92, 114]
      else if c.val = 34 then [92, 34]
      else if c.val = 92 then [92, 92]
      else if c.val < 32 then unicodeEscape c
      else if 55296 ≤ c.val ∧ c.val < 57344 then unicodeEscape c
      else [c] := by
  rw [quoteChars]

theorem quoteChars_pair (c d : Fin 65536) (r : JSString)
    (hc : 55296 ≤ c.val ∧ c.val < 56320) (hd : 56320 ≤ d.val ∧ d.val < 57344) :
    quoteChars (c :: d :: r) = c :: d :: quoteChars r := by
  have h1 := hc.1
  rw [quoteChars, if_neg (by omega), if_neg (by omega), if_neg (by omega), if_neg (by omega),
    if_neg (by omega), if_neg (by omega), if_neg (by omega), if_neg (by omega),
    if_pos hc, if_pos hd]

theorem quoteChars_nopair (c d : Fin 65536) (r : JSString)
    (hp : ¬ ((55296 ≤ c.val ∧ c.val < 56320) ∧ (56320 ≤ d.val ∧ d.val < 57344))) :
    quoteChars (c :: d :: r) = quoteChars [c] ++ quoteChars (d :: r) := by
  rw [quoteChars_one, quoteChars]
  by_cases h8 : c.val = 8
  · rw [if_pos h8, if_pos h8]
    rfl
  rw [if_neg h8, if_neg h8]
  by_cases h9 : c.val = 9
  · rw [if_pos h9, if_pos h9]
    rfl
  rw [if_neg h9, if_neg h9]
  by_cases h10 : c.val = 10
  · rw [if_pos h10, if_pos h10]
    rfl
  rw [if_neg h10, if_neg h10]
  by_cases h12 : c.val = 12
  · rw [if_pos h12, if_pos h12]
    rfl
  rw [if_neg h12, if_neg h12]
  by_cases h13 : c.val = 13
  · rw [if_pos h13, if_pos h13]
    rfl
  rw [if_neg h13, if_neg h13]
  by_cases h34 : c.val = 34
  · rw [if_pos h34, if_pos h34]
    rfl
  rw [if_neg h34, if_neg h34]
  by_cases h92 : c.val = 92
  · rw [if_pos h92, if_pos h92]
    rfl
  rw [if_neg h92, if_neg h92]
  by_cases h32 : c.val < 32
  · rw [if_pos h32, if_pos h32]
  rw [if_neg h32, if_neg h32]
  by_cases hh : 55296 ≤ c.val ∧ c.val < 56320
  · have hd : ¬ (56320 ≤ d.val ∧ d.val < 57344) := fun h => hp ⟨hh, h⟩
    have hs : 55296 ≤ c.val ∧ c.val < 57344 := ⟨hh.1, by omega⟩
    rw [if_pos hh, if_neg hd, if_pos hs]
  rw [if_neg hh]
  by_cases hl : 56320 ≤ c.val ∧ c.val < 57344
  · have hs : 55296 ≤ c.val ∧ c.val < 57344 := ⟨by omega, hl.2⟩
    rw [if_pos hl, if_pos hs]
  · have hs : ¬ (55296 ≤ c.val ∧ c.val < 57344) := by
      intro h
      by_cases h5 : c.val < 56320
      · exact hh ⟨h.1, h5⟩
      · exact hl ⟨by omega, h.2⟩
    rw [if_neg hl, if_neg hs]
    rfl

theorem parseChars_quoteOne (c : Fin 65536) (t : JSString) :
    parseChars (quoteChars [c] ++ t) = pushUnit c (parseChars t) := by
  rw [quoteChars_one]
  by_cases h8 : c.val = 8
  · rw [if_pos h8]
    have hc : c = 8 := Fin.ext h8
    subst hc
    exact parseChars_short 98 8 t (by decide)
  rw [if_neg h8]
  by_cases h9 : c.val = 9
  · rw [if_pos h9]
    have hc : c = 9 := Fin.ext h9
    subst hc
    exact parseChars_short 116 9 t (by decide)
  rw [if_neg h9]
  by_cases h10 : c.val = 10
  · rw [if_pos h10]
    have hc : c = 10 := Fin.ext h10
    subst hc
    exact parseChars_short 110 10 t (by decide)
  rw [if_neg h10]
  by_cases h12 : c.val = 12
  · rw [if_pos h12]
    have hc : c = 12 := Fin.ext h12
    subst hc
    exact parseChars_short 102 12 t (by decide)
  rw [if_neg h12]
  by_cases h13 : c.val = 13
  · rw [if_pos h13]
    have hc : c = 13 := Fin.ext h13
    subst hc
    exact parseChars_short 114 13 t (by decide)
  rw [if_neg h13]
  by_cases h34 : c.val = 34
  · rw [if_pos h34]
    have hc : c = 34 := Fin.ext h34
    subst hc
    exact parseChars_short 34 34 t (by decide)
  rw [if_neg h34]
  by_cases h92 : c.val = 92
  · rw [if_pos h92]
    have hc : c = 92 := Fin.ext h92
    subst hc
    exact parseChars_short 92 92 t (by decide)
  rw [if_neg h92]
  by_cases h32 : c.val < 32
  · rw [if_pos h32]
    exact parseChars_unicodeEscape c t
  rw [if_neg h32]
  by_cases hs : 55296 ≤ c.val ∧ c.val < 57344
  · rw [if_pos hs]
    exact parseChars_unicodeEscape c t
  · rw [if_neg hs]
    exact parseChars_literal c t (by omega) h34 h92

/-- The characters that `JSON.stringify` writes for a string, followed by the
closing quote, are parsed back to that string. -/
theorem parseChars_quoteChars (n : Nat) :
    ∀ (s : JSString), s.length ≤ n → ∀ rest : JSString,
      parseChars (quoteChars s ++ 34 :: rest) = some (s, rest) := by
  induction n with
  | zero =>
    intro s hs rest
    have : s = [] := List.length_eq_zero.mp (Nat.le_zero.mp hs)
    subst this
    exact parseChars_quote rest
  | succ n ih =>
    intro s hs rest
    match s, hs with
    | [], _ => exact parseChars_quote rest
    | [c], _ =>
      rw [parseChars_quoteOne, parseChars_quote]
      rfl
    | c :: d :: r, hs =>
      have hl1 : (d :: r).length ≤ n := by
        simp only [List.length_cons] at hs ⊢
        omega
      have hl2 : r.length ≤ n := by
        simp only [List.length_cons] at hs
        omega
      by_cases hp : (55296 ≤ c.val ∧ c.val < 56320) ∧ (56320 ≤ d.val ∧ d.val < 57344)
      · have hc1 := hp.1.1
        have hd1 := hp.2.1
        rw [quoteChars_pair c d r hp.1 hp.2]
        simp only [List.cons_append]
        rw [parseChars_literal c _ (by omega) (by omega) (by omega),
          parseChars_literal d _ (by omega) (by omega) (by omega), ih r hl2 rest]
        rfl
      · rw [quoteChars_nopair c d r hp, List.append_assoc, parseChars_quoteOne,
          ih (d :: r) hl1 rest]
        rfl

theorem skipWs_cons (c : Fin 65536) (t : JSString)
    (h : ¬ (c.val = 32 ∨ c.val = 9 ∨ c.val = 10 ∨ c.val = 13)) :
    skipWs (c :: t) = c :: t := by
  unfold skipWs
  rw [List.dropWhile_cons]
  simp only [h, decide_False, Bool.false_eq_true, if_false]

theorem quoteJSONString_append (s rest : JSString) :
    quoteJSONString s ++ rest = 34 :: (quoteChars s ++ 34 :: rest) := by
  simp [quoteJSONString]

theorem parseString_quoteJSONString (s rest : JSString) :
    parseString (quoteJSONString s ++ rest) = some (s, rest) := by
  have h := parseChars_quoteChars s.length s (Nat.le_refl _) rest
  rw [quoteJSONString_append]
  unfold parseString
  rw [skipWs_cons _ _ (by decide)]
  show (if (34 : Fin 65536).val = 34 then parseChars (quoteChars s ++ 34 :: rest) else none)
    = some (s, rest)
  rw [if_pos (by decide)]
  exact h

theorem parseMember_quoted (k v rest : JSString) :
    parseMember (quoteJSONString k ++ 58 :: (quoteJSONString v ++ rest))
      = some ((k, v), rest) := by
  unfold parseMember
  rw [parseString_quoteJSONString]
  simp only []
  rw [skipWs_cons _ _ (by decide)]
  simp only []
  rw [if_pos (by decide), parseString_quoteJSONString]

theorem jsonMembers_one (kv : String × JSString) (t : JSString) :
    jsonMembers [kv] ++ t = quoteJSONString (js kv.1) ++ 58 :: (quoteJSONString kv.2 ++ t) := by
  simp [jsonMembers]

theorem jsonMembers_more (kv kv2 : String × JSString) (r : JSObject) (t : JSString) :
    jsonMembers (kv :: kv2 :: r) ++ t =
      quoteJSONString (js kv.1) ++
        58 :: (quoteJSONString kv.2 ++ 44 :: (jsonMembers (kv2 :: r) ++ t)) := by
  simp [jsonMembers]

theorem parseMembers_jsonMembers (u : JSObject) :
    ∀ (kv : String × JSString) (fuel : Nat) (rest : JSString), (kv :: u).length ≤ fuel →
      parseMembers fuel (jsonMembers (kv :: u) ++ 125 :: rest)
        = some (toProperties (kv :: u), rest) := by
  induction u with
  | nil =>
    intro kv fuel rest hf
    obtain ⟨f, rfl⟩ : ∃ f, fuel = f + 1 := ⟨fuel - 1, by simp at hf; omega⟩
    rw [jsonMembers_one, parseMembers, parseMember_quoted]
    simp only []
    rw [skipWs_cons _ _ (by decide)]
    simp only []
    rw [if_neg (by decide), if_pos (by decide)]
    rfl
  | cons kv2 r ih =>
    intro kv fuel rest hf
    obtain ⟨f, rfl⟩ : ∃ f, fuel = f + 1 := ⟨fuel - 1, by simp at hf; omega⟩
    have hf2 : (kv2 :: r).length ≤ f := by
      simp only [List.length_cons] at hf ⊢
      omega
    rw [jsonMembers_more, parseMembers, parseMember_quoted]
    simp only []
    rw [skipWs_cons _ _ (by decide)]
    simp only []
    rw [if_pos (by decide), ih kv2 f rest hf2]
    rfl

theorem jsonMembers_length (u : JSObject) : u.length ≤ (jsonMembers u).length := by
  induction u with
  | nil => exact Nat.le_refl _
  | cons kv r ih =>
    cases r with
    | nil => simp [jsonMembers, quoteJSONString]
    | cons kv2 r2 =>
      have h := jsonMembers_more kv kv2 r2 []
      simp only [List.append_nil] at h
      rw [h]
      simp only [List.length_append, List.length_cons, quoteJSONString] at ih ⊢
      omega

theorem propertiesSet_fresh (acc : Properties) (k v : JSString)
    (h : ∀ a ∈ acc, a.1 ≠ k) : Properties.set acc k v = acc ++ [(k, v)] := by
  have hany : acc.any (fun kv => decide (kv.1 = k)) = false := by
    rw [List.any_eq_false]
    intro x hx
    simpa using h x hx
  simp [Properties.set, hany]

/-- Creating the properties of a list with distinct names one after the other
gives that list. -/
theorem foldl_propertiesSet (l : Properties) :
    ∀ acc : Properties, (∀ kv ∈ l, ∀ a ∈ acc, a.1 ≠ kv.1) → (l.map Prod.fst).Nodup →
      l.foldl (fun o kv => Properties.set o kv.1 kv.2) acc = acc ++ l := by
  induction l with
  | nil =>
    intro acc _ _
    simp
  | cons kv l2 ih =>
    intro acc hd hn
    rw [List.map_cons, List.nodup_cons] at hn
    rw [List.foldl_cons,
      propertiesSet_fresh acc kv.1 kv.2 (fun a ha => hd kv (List.mem_cons_self _ _) a ha)]
    rw [ih (acc ++ [(kv.1, kv.2)]) ?_ hn.2]
    · simp
    · intro x hx a ha
      rcases List.mem_append.mp ha with h1 | h1
      · exact hd x (List.mem_cons_of_mem _ hx) a h1
      · rw [List.mem_singleton] at h1
        subst h1
        intro heq
        exact hn.1 (List.mem_map.mpr ⟨x, hx, heq.symm⟩)

theorem jsonMembers_head (kv : String × JSString) (u : JSObject) (t : JSString) :
    ∃ x, jsonMembers (kv :: u) ++ t = 34 :: x := by
  cases u with
  | nil =>
    rw [jsonMembers_one, quoteJSONString_append]
    exact ⟨_, rfl⟩
  | cons kv2 r =>
    rw [jsonMembers_more, quoteJSONString_append]
    exact ⟨_, rfl⟩

/-- `JSON.parse` reads back what `JSON.stringify` writes for an object with
string values and distinct property names. -/
theorem jsonParse_jsonStringify (u : JSObject)
    (hn : ((toProperties u).map Prod.fst).Nodup) :
    jsonParse (jsonStringify u) = some (toProperties u) := by
  cases u with
  | nil => rfl
  | cons kv r =>
    obtain ⟨x, hx⟩ := jsonMembers_head kv r [125]
    have hlen : (kv :: r).length ≤ (jsonStringify (kv :: r)).length := by
      have := jsonMembers_length (kv :: r)
      simp only [jsonStringify, List.length_cons, List.length_append] at this ⊢
      omega
    have hm := parseMembers_jsonMembers r kv (jsonStringify (kv :: r)).length [] hlen
    rw [hx] at hm
    have hfold := foldl_propertiesSet (toProperties (kv :: r)) [] (fun _ _ a ha => by cases ha) hn
    rw [List.nil_append] at hfold
    have hw : skipWs ([] : JSString) = [] := rfl
    unfold jsonParse
    have htext : jsonStringify (kv :: r) = 123 :: 34 :: x := by
      rw [jsonStringify, hx]
    rw [htext] at hm ⊢
    rw [skipWs_cons _ _ (by decide)]
    simp only []
    rw [if_pos (by decide), skipWs_cons _ _ (by decide)]
    simp only []
    rw [if_neg (by decide), hm]
    simp only []
    rw [hw, if_pos rfl, hfold]

theorem getItem_map_set (s : Storage) (k v key : JSString) :
    Storage.getItem (s.map (fun kv => if kv.1 = k then (k, v) else kv)) key
      = if key = k then (if s.any (fun kv => kv.1 = k) then some v else none)
        else Storage.getItem s key := by
  induction s with
  | nil =>
    by_cases h : key = k <;> simp [Storage.getItem, h]
  | cons a as ih =>
    rw [List.map_cons, getItem_cons, ih, getItem_cons, List.any_cons]
    by_cases hk : key = k
    · subst hk
      by_cases ha : a.1 = key
      · simp [ha]
      · have hd : decide (a.1 = key) = false := decide_eq_false ha
        rw [if_neg ha, if_neg ha, hd, Bool.false_or]
        simp only [if_true]
    · by_cases ha : a.1 = k
      · have h2 : ¬ a.1 = key := fun h3 => hk (h3.symm.trans ha)
        have h3 : ¬ k = key := fun h4 => hk h4.symm
        simp [ha, hk, h2, h3]
      · simp [ha, hk]

theorem getItem_append_one (s : Storage) (k v key : JSString) :
    Storage.getItem (s ++ [(k, v)]) key
      = match Storage.getItem s key with
        | some x => some x
        | none => if k = key then some v else none := by
  induction s with
  | nil =>
    by_cases h : k = key <;> simp [Storage.getItem, h]
  | cons a as ih =>
    rw [List.cons_append, getItem_cons, getItem_cons, ih]
    by_cases ha : a.1 = key
    · simp [ha]
    · simp [ha]

theorem getItem_none_of_not_any (s : Storage) (k : JSString)
    (h : s.any (fun kv => decide (kv.1 = k)) = false) : Storage.getItem s k = none := by
  rw [List.any_eq_false] at h
  simp only [Storage.getItem, Option.map_eq_none']
  rw [List.find?_eq_none]
  intro x hx
  exact h x hx

/-- Reading a storage area after `setItem`: the new value under the key that
was set, the old values under the other keys. -/
theorem getItem_setItem (s : Storage) (k v key : JSString) :
    Storage.getItem (Storage.setItem s k v) key
      = if key = k then some v else Storage.getItem s key := by
  unfold Storage.setItem
  by_cases hany : s.any (fun kv => decide (kv.1 = k)) = true
  · rw [if_pos hany, getItem_map_set]
    by_cases hk : key = k
    · rw [if_pos hk, if_pos hk, if_pos hany]
    · rw [if_neg hk, if_neg hk]
  · rw [if_neg hany, getItem_append_one]
    have hany2 : s.any (fun kv => decide (kv.1 = k)) = false := Bool.eq_false_iff.mpr hany
    by_cases hk : key = k
    · subst hk
      rw [getItem_none_of_not_any s key hany2, if_pos rfl]
    · have hk2 : ¬ k = key := fun h => hk h.symm
      rw [if_neg hk]
      cases Storage.getItem s key <;> simp [hk2]

theorem login_storages (st : LoginState) (during : List ChangeEvent) (data : LoginData)
    (b : Browser) (hv : (validate st).1 = true) :
    (b.performAll (handleSubmit st during (.resolved data)).2).localStorage
      = (if st.formData.rememberMe then
          Storage.setItem (Storage.setItem b.localStorage (js "token") data.token)
            (js "user") (jsonStringify data.user)
        else b.localStorage) ∧
    (b.performAll (handleSubmit st during (.resolved data)).2).sessionStorage
      = (if st.formData.rememberMe then b.sessionStorage
        else
          Storage.setItem (Storage.setItem b.sessionStorage (js "token") data.token)
            (js "user") (jsonStringify data.user)) := by
  rw [handleSubmit_resolved_effects st during data hv]
  cases hr : st.formData.rememberMe <;>
    simp [loginWrites, Browser.performAll, Browser.perform]

theorem propertiesGet_of_mem (props : Properties) (k v : JSString)
    (hn : (props.map Prod.fst).Nodup) (hm : (k, v) ∈ props) :
    Properties.get props k = some v := by
  induction props with
  | nil => cases hm
  | cons a as ih =>
    rw [List.map_cons, List.nodup_cons] at hn
    rcases List.mem_cons.mp hm with h | h
    · subst h
      simp [Properties.get]
    · have hne : ¬ a.1 = k := by
        intro heq
        exact hn.1 (List.mem_map.mpr ⟨(k, v), h, heq.symm⟩)
      have := ih hn.2 h
      simpa [Properties.get, List.find?_cons, hne] using this

/-- A non-empty `user` entry in `localStorage` is the one that `Home` parses on
mount, whatever `sessionStorage` holds. -/
theorem mount_of_local (b : Browser) (c : Fin 65536) (cs : JSString)
    (h : Storage.getItem b.localStorage (js "user") = some (c :: cs)) :
    Home.mount b = (jsonParse (c :: cs)).map Home.User.object := by
  unfold Home.mount
  rw [h]
  rfl

/-- Without a non-empty `user` entry in `localStorage`, `Home` parses on mount
the non-empty `user` entry of `sessionStorage`. -/
theorem mount_of_session (b : Browser) (c : Fin 65536) (cs : JSString)
    (hl : Storage.getItem b.localStorage (js "user") = none ∨
      Storage.getItem b.localStorage (js "user") = some [])
    (h : Storage.getItem b.sessionStorage (js "user") = some (c :: cs)) :
    Home.mount b = (jsonParse (c :: cs)).map Home.User.object := by
  unfold Home.mount
  rcases hl with hl | hl
  · rw [hl, h]
    rfl
  · rw [hl, h]
    rfl

/-- A login without "remember me" leaves a non-empty `user` entry of
`localStorage` in place, and that entry is the one `Home` parses on mount. -/
theorem mount_after_session_login_shadowed (st : LoginState) (during : List ChangeEvent)
    (data : LoginData) (b : Browser) (c : Fin 65536) (cs : JSString)
    (hv : (validate st).1 = true) (hr : st.formData.rememberMe = false)
    (hold : Storage.getItem b.localStorage (js "user") = some (c :: cs)) :
    Home.mount (b.performAll (handleSubmit st during (.resolved data)).2)
      = (jsonParse (c :: cs)).map Home.User.object := by
  have hl := (login_storages st during data b hv).1
  rw [hr] at hl
  apply mount_of_local
  rw [hl]
  exact hold

/-- Where the round trip from login to `Home` holds.  After a successful
login whose response carries a user object with string values and distinct
property names, when "remember me" is checked or `localStorage` held no
non-empty `user` entry before the login, the user that `Home` loads on mount
is the user object of the response, whatever else the two storage areas
held; every field of the response, so its `id`, `username` and `email`, is
read back with its value by `Home`. -/
theorem home_mount_after_login (st : LoginState) (during : List ChangeEvent)
    (data : LoginData) (b : Browser)
    (hv : (validate st).1 = true)
    (hkeys : ((toProperties data.user).map Prod.fst).Nodup)
    (hclean : st.formData.rememberMe = true ∨
      Storage.getItem b.localStorage (js "user") = none ∨
      Storage.getItem b.localStorage (js "user") = some []) :
    Home.mount (b.performAll (handleSubmit st during (.resolved data)).2)
      = some (.object (toProperties data.user)) ∧
    ∀ (name : String) (value : JSString), (name, value) ∈ data.user →
      Home.User.get (.object (toProperties data.user)) (js name) = some value := by
  obtain ⟨hl, hs⟩ := login_storages st during data b hv
  have hjson : jsonStringify data.user = 123 :: (jsonMembers data.user ++ [125]) := rfl
  have hparse := jsonParse_jsonStringify data.user hkeys
  have hne : ¬ js "user" = js "token" := by decide
  refine ⟨?_, ?_⟩
  · by_cases hr : st.formData.rememberMe = true
    · rw [if_pos hr] at hl
      have hget : Storage.getItem
          (b.performAll (handleSubmit st during (.resolved data)).2).localStorage (js "user")
          = some (123 :: (jsonMembers data.user ++ [125])) := by
        rw [hl, getItem_setItem, if_pos rfl, hjson]
      rw [mount_of_local _ _ _ hget, ← hjson, hparse]
      rfl
    · have hclean2 : Storage.getItem b.localStorage (js "user") = none ∨
          Storage.getItem b.localStorage (js "user") = some [] := by
        rcases hclean with h | h
        · exact absurd h hr
        · exact h
      rw [if_neg hr] at hl hs
      have hget : Storage.getItem
          (b.performAll (handleSubmit st during (.resolved data)).2).sessionStorage (js "user")
          = some (123 :: (jsonMembers data.user ++ [125])) := by
        rw [hs, getItem_setItem, if_pos rfl, hjson]
      have hloc : Storage.getItem
            (b.performAll (handleSubmit st during (.resolved data)).2).localStorage (js "user")
            = none ∨
          Storage.getItem
            (b.performAll (handleSubmit st during (.resolved data)).2).localStorage (js "user")
            = some [] := by
        rw [hl]
        exact hclean2
      rw [mount_of_session _ _ _ hloc hget, ← hjson, hparse]
      rfl
  · intro name value hmem
    exact propertiesGet_of_mem (toProperties data.user) (js name) value hkeys
      (List.mem_map.mpr ⟨(name, value), hmem, rfl⟩)

theorem home_mount_after_login_example :
    Home.mount (emptyBrowser.performAll
        (handleSubmit (filledLogin false) [] (.resolved fakeLoginData)).2)
      = some (.object (toProperties fakeLoginData.user)) ∧
    Home.mount (rememberedBrowser.performAll
        (handleSubmit (filledLogin true) [] (.resolved fakeLoginData)).2)
      = some (.object (toProperties fakeLoginData.user)) ∧
    Home.User.get (.object (toProperties fakeLoginData.user)) (js "username")
      = some (js "testuser") ∧
    Home.User.get (.object (toProperties fakeLoginData.user)) (js "email")
      = some (js "test@example.com") ∧
    Home.User.get (.object (toProperties fakeLoginData.user)) (js "id")
      = some (js "123") :=
  ⟨(home_mount_after_login (filledLogin false) [] fakeLoginData emptyBrowser
      (by decide) (by decide) (Or.inr (Or.inl (by decide)))).1,
   (home_mount_after_login (filledLogin true) [] fakeLoginData rememberedBrowser
      (by decide) (by decide) (Or.inl (by decide))).1,
   (home_mount_after_login (filledLogin false) [] fakeLoginData emptyBrowser
      (by decide) (by decide) (Or.inr (Or.inl (by decide)))).2
      "username" (js "testuser") (by decide),
   (home_mount_after_login (filledLogin false) [] fakeLoginData emptyBrowser
      (by decide) (by decide) (Or.inr (Or.inl (by decide)))).2
      "email" (js "test@example.com") (by decide),
   (home_mount_after_login (filledLogin false) [] fakeLoginData emptyBrowser
      (by decide) (by decide) (Or.inr (Or.inl (by decide)))).2
      "id" (js "123") (by decide)⟩

/-- C21: the round trip from login to `Home` is broken by an earlier
remembered session.  An account has logged in with "remember me" and left
without logging out, so `localStorage` holds its `user` entry; then
"testuser" logs in without "remember me".  The login succeeds and writes the
new user to `sessionStorage`, the entry of `localStorage` stays, and the
user that `Home` loads on mount is the earlier account: it displays
"olduser", "old@example.com" and "7", not the account that has just logged
in.  From the same browser the two sibling paths do load the new user: the
login with "remember me", which overwrites the entry of `localStorage`, and
the login after `handleLogout`, which has removed it. -/
theorem login_home_stale_user :
    (validate (filledLogin false)).1 = true ∧
    Storage.getItem rememberedBrowser.localStorage (js "user")
      = some (jsonStringify otherLoginData.user) ∧
    Storage.getItem
        (rememberedBrowser.performAll
          (handleSubmit (filledLogin false) [] (.resolved fakeLoginData)).2).sessionStorage
        (js "user") = some (jsonStringify fakeLoginData.user) ∧
    Storage.getItem
        (rememberedBrowser.performAll
          (handleSubmit (filledLogin false) [] (.resolved fakeLoginData)).2).localStorage
        (js "user") = some (jsonStringify otherLoginData.user) ∧
    Home.mount
        (rememberedBrowser.performAll
          (handleSubmit (filledLogin false) [] (.resolved fakeLoginData)).2)
      = some (.object (toProperties otherLoginData.user)) ∧
    Home.mount
        (rememberedBrowser.performAll
          (handleSubmit (filledLogin false) [] (.resolved fakeLoginData)).2)
      ≠ some (.object (toProperties fakeLoginData.user)) ∧
    Home.User.get (.object (toProperties otherLoginData.user)) (js "username")
      = some (js "olduser") ∧
    Home.User.get (.object (toProperties otherLoginData.user)) (js "email")
      = some (js "old@example.com") ∧
    Home.User.get (.object (toProperties otherLoginData.user)) (js "id")
      = some (js "7") ∧
    Home.User.get (.object (toProperties fakeLoginData.user)) (js "username")
      = some (js "testuser") ∧
    Home.mount
        (rememberedBrowser.performAll
          (handleSubmit (filledLogin true) [] (.resolved fakeLoginData)).2)
      = some (.object (toProperties fakeLoginData.user)) ∧
    Home.mount
        ((rememberedBrowser.performAll Home.handleLogout).performAll
          (handleSubmit (filledLogin false) [] (.resolved fakeLoginData)).2)
      = some (.object (toProperties fakeLoginData.user)) := by
  decide

end MelodyVerse
